import Mathlib

/-!
RT64 view pipeline: a shallow embedding and its verified properties.

The definitions below transcribe `rt64_common.h`, `rt64_view.cpp` and, from
`rt64_device.cpp`, the allocation functions, the frame synchronizer, the frame functions,
the pending barriers and the shader set.  Pointers are natural numbers with
`0` as the null pointer, machine integers are naturals or integers with an explicit
reduction modulo `2 ^ 32` at every conversion the source performs, floating point
values are carried as raw bit patterns, and every effect on the driver (allocation,
release, descriptor writes, recorded commands) is appended to an event log.
-/

namespace RT64

/-! ## Machine values -/

/-- Raw pointer value; zero is the null pointer. -/
abbrev Ptr := Nat

/-- The null pointer. -/
def nullptr : Ptr := 0

/-- Conversion of an unsigned size to a 32-bit unsigned integer (`UINT`, `uint32_t`). -/
def toUINT (n : Nat) : Nat := n % 2 ^ 32

/-- Conversion of an unsigned size to a 32-bit signed `int`. -/
def toInt (n : Nat) : Int :=
  if n % 2 ^ 32 < 2 ^ 31 then ((n % 2 ^ 32 : Nat) : Int) else ((n % 2 ^ 32 : Nat) : Int) - 2 ^ 32

/-- Conversion of a signed `int` expression to a 32-bit unsigned integer. -/
def intToUINT (z : Int) : Nat := (z % 2 ^ 32).toNat

/-- The value of an `int` expression, reduced to the 32-bit signed range. -/
def wrapInt32 (z : Int) : Int := (z + 2 ^ 31) % 2 ^ 32 - 2 ^ 31

/-- Conversion of a signed `int` to a 64-bit unsigned integer (`UINT64`). -/
def intToUINT64 (z : Int) : Nat := (z % 2 ^ 64).toNat

/-- The macro `ROUND_UP(v, powerOf2Alignment)` of `rt64_common.h`:
`((v) + (powerOf2Alignment)-1) & ~((powerOf2Alignment)-1)`, evaluated on 64-bit unsigned
operands: the sum wraps at `2 ^ 64` and the complement of `powerOf2Alignment - 1` is
taken on 64 bits. -/
def ROUND_UP (v powerOf2Alignment : Nat) : Nat :=
  ((v + powerOf2Alignment - 1) % 2 ^ 64) &&& (2 ^ 64 - 1 - (powerOf2Alignment - 1))

/-- The constant `D3D12_CONSTANT_BUFFER_DATA_PLACEMENT_ALIGNMENT`. -/
def D3D12_CONSTANT_BUFFER_DATA_PLACEMENT_ALIGNMENT : Nat := 256

/-- The constant `MaxQueries = 12 + 1` of `rt64_view.cpp`. -/
def MaxQueries : Int := 12 + 1

/-- Test `FAILED(hr)` on an `HRESULT`. -/
def FAILED (hr : Int) : Bool := decide (hr < 0)

/-- A 4x4 float matrix, carried as the bit patterns of its sixteen entries, row by row. -/
structure XMMATRIX where
  f : List Nat
  deriving DecidableEq, Repr

/-- Three floats, carried as bit patterns. -/
structure RT64_VECTOR3 where
  x : Nat
  y : Nat
  z : Nat
  deriving DecidableEq, Repr

/-- The functions of DirectXMath the view calls; the library is external, so they are
parameters of the embedding. -/
structure DirectXMath where
  XMMatrixIdentity : XMMATRIX
  XMMatrixLookAtRH : RT64_VECTOR3 → RT64_VECTOR3 → RT64_VECTOR3 → XMMATRIX
  XMMatrixPerspectiveFovRH : Nat → Nat → Nat → Nat → XMMATRIX
  XMMatrixInverse : XMMATRIX → XMMATRIX
  XMMatrixTranspose : XMMATRIX → XMMATRIX
  XMMatrixMultiply : XMMATRIX → XMMATRIX → XMMATRIX
  greaterThanZero : Nat → Bool

/-! ## Scene data read by the view -/

/-- The material record `RT64_MATERIAL` of the public header: the three fields the view
reads or writes, and the remaining parameters carried unchanged. -/
structure RT64_MATERIAL where
  background : Int
  diffuseTexIndex : Int
  normalTexIndex : Int
  params : List Nat
  deriving DecidableEq, Repr

/-- A vertex or index buffer view; the view pipeline only reads `BufferLocation`. -/
structure BufferView where
  BufferLocation : Nat
  SizeInBytes : Nat
  deriving DecidableEq, Repr

/-- What the view reads from a `Mesh` through its getters. -/
structure Mesh where
  bottomLevelASResult : Ptr
  indexCount : Nat
  indexBufferView : BufferView
  vertexBufferView : BufferView
  deriving DecidableEq, Repr

/-- What the view reads from a scene `Instance` through its getters. -/
structure Instance where
  mesh : Mesh
  transform : XMMATRIX
  material : RT64_MATERIAL
  diffuseTexture : Ptr
  normalTexture : Ptr
  deriving DecidableEq, Repr

/-- The per-frame snapshot `View::RenderInstance`. The two buffer view pointers are
carried as the views they point to. -/
structure RenderInstance where
  bottomLevelAS : Ptr
  transform : XMMATRIX
  material : RT64_MATERIAL
  indexCount : Nat
  indexBufferView : BufferView
  vertexBufferView : BufferView
  deriving DecidableEq, Repr

/-- The record `InstanceProperties` of `rt64_common.h`. -/
structure InstanceProperties where
  objectToWorld : XMMATRIX
  objectToWorldNormal : XMMATRIX
  material : RT64_MATERIAL
  deriving DecidableEq, Repr

/-! ## Driver-visible effects -/

/-- Resource states named by the sources. -/
inductive ResourceState where
  | PRESENT
  | RENDER_TARGET
  | NON_PIXEL_SHADER_RESOURCE
  | COPY_SOURCE
  | COPY_DEST
  | UNORDERED_ACCESS
  | GENERIC_READ
  | RAYTRACING_ACCELERATION_STRUCTURE
  deriving DecidableEq, Repr

/-- Heap kinds named by the sources. -/
inductive HeapType where
  | DEFAULT
  | UPLOAD
  | READBACK
  deriving DecidableEq, Repr

/-- Resource flags named by the sources. -/
inductive ResourceFlags where
  | NONE
  | ALLOW_RENDER_TARGET
  | ALLOW_UNORDERED_ACCESS
  deriving DecidableEq, Repr

/-- A `D3D12MA::Allocation` object: its own address and the resource it owns. -/
structure Allocation where
  id : Ptr
  resource : Ptr
  deriving DecidableEq, Repr

/-- Shader program names used in the binding table. -/
inductive ProgramName where
  | TraceRayGen
  | ShadowMiss
  | SurfaceHitGroup
  | ShadowHitGroup
  deriving DecidableEq, Repr

/-- A transition barrier: resource, state before, state after. -/
structure Transition where
  resource : Ptr
  before : ResourceState
  after : ResourceState
  deriving DecidableEq, Repr

/-- The kinds of descriptor written into the shader resource heap. -/
inductive DescriptorKind where
  | UAV_TEXTURE2D
  | UAV_BUFFER (numElements : Nat)
  | SRV_TEXTURE2D
  | SRV_ACCELERATION_STRUCTURE (location : Nat)
  | CBV (location : Nat) (sizeInBytes : Nat)
  | SRV_BUFFER (numElements : Nat)
  deriving DecidableEq, Repr

/-- Commands recorded on the device command list by the view. -/
inductive Cmd where
  | SetPipelineState
  | SetGraphicsRootSignature
  | SetDescriptorHeaps (heap : Ptr)
  | SetGraphicsRootDescriptorTable (index : Nat) (gpuStart : Nat)
  | RSSetViewports
  | RSSetScissorRects
  | ResourceBarrier (barriers : List Transition)
  | OMSetRenderTargets (rtvHeap : Ptr)
  | ClearRenderTargetView (rtvHeap : Ptr)
  | IASetPrimitiveTopology
  | SetGraphicsRoot32BitConstant (rootIndex : Nat) (value : Nat) (offset : Nat)
  | IASetVertexBuffers (view : BufferView)
  | IASetIndexBuffer (view : BufferView)
  | DrawIndexedInstanced (indexCount : Nat)
  | SetPipelineState1
  | DispatchRays (storageAddress : Nat) (width : Int) (height : Int)
  | CopyResource (dst : Ptr) (src : Ptr)
  | BuildTopLevelAS (scratch : Ptr) (result : Ptr) (instanceDesc : Ptr) (previous : Ptr)
  deriving DecidableEq, Repr

/-- Everything a call does outside the view object, in program order. -/
inductive Event where
  | AllocationRelease (a : Allocation)
  | ResourceRelease (r : Ptr)
  | AllocateBuffer (heap : HeapType) (size : Nat) (flags : ResourceFlags)
      (state : ResourceState) (created : Option Allocation)
  | AllocateResource (heap : HeapType) (width : Int) (height : Int) (flags : ResourceFlags)
      (state : ResourceState) (created : Option Allocation)
  | CreateRtvHeap (created : Ptr)
  | CreateRenderTargetView (resource : Ptr) (rtvHeap : Ptr)
  | DescriptorHeapRelease (heap : Ptr)
  | CreateDescriptorHeap (count : Nat) (created : Ptr)
  | WriteDescriptor (kind : DescriptorKind) (resource : Ptr) (handle : Nat)
  | GenerateSBT (storage : Ptr)
  | CameraCopy (buffer : Ptr) (matrices : List XMMATRIX) (bytes : Nat)
  | Record (c : Cmd)
  deriving DecidableEq, Repr

/-! ## `AllocatedResource` and `AccelerationStructureBuffers` (`rt64_common.h`) -/

/-- The handle `AllocatedResource`: one allocation pointer, possibly null. -/
structure AllocatedResource where
  d3dMaAllocation : Option Allocation
  deriving DecidableEq, Repr

namespace AllocatedResource

/-- The method `IsNull`. -/
def IsNull (r : AllocatedResource) : Bool := r.d3dMaAllocation.isNone

/-- The method `Get`. -/
def Get (r : AllocatedResource) : Ptr :=
  match r.d3dMaAllocation with
  | some a => a.resource
  | none => nullptr

/-- The method `Release`: the handle afterwards and the releases it performed. -/
def Release (r : AllocatedResource) : AllocatedResource × List Event :=
  match r.d3dMaAllocation with
  | some a => (⟨none⟩, [Event.AllocationRelease a, Event.ResourceRelease a.resource])
  | none => (r, [])

end AllocatedResource

/-- The structure `AccelerationStructureBuffers`. -/
structure AccelerationStructureBuffers where
  scratch : AllocatedResource
  scratchSize : Nat
  result : AllocatedResource
  resultSize : Nat
  instanceDesc : AllocatedResource
  instanceDescSize : Nat
  deriving DecidableEq, Repr

/-- The method `AccelerationStructureBuffers::Release`. -/
def AccelerationStructureBuffers.Release (b : AccelerationStructureBuffers) :
    AccelerationStructureBuffers × List Event :=
  let s := b.scratch.Release
  let r := b.result.Release
  let d := b.instanceDesc.Release
  (⟨s.1, 0, r.1, 0, d.1, 0⟩, s.2 ++ r.2 ++ d.2)

/-- The method `Device::allocateBuffer` of `rt64_device.cpp`: `created` is what the
allocator left in `allocation`; the call result is not inspected. -/
def Device.allocateBuffer (created : Option Allocation) (heap : HeapType) (size : Nat)
    (flags : ResourceFlags) (state : ResourceState) : AllocatedResource × List Event :=
  (⟨created⟩, [Event.AllocateBuffer heap size flags state created])

/-! ## Helper generators of the ray tracing library -/

/-- Modelled from the spec: the top level generator helper is not part of the sources;
it holds, in registration order, the instances added since its last `Reset`, each with
its bottom level reference, transform, instance index and hit group index. -/
structure TLASInstance where
  bottomLevelAS : Ptr
  transform : XMMATRIX
  instanceID : Nat
  hitGroupIndex : Nat
  deriving DecidableEq, Repr

/-- One program registered with the binding table helper, with its argument list. -/
structure SBTEntry where
  name : ProgramName
  inputData : List Nat
  deriving DecidableEq, Repr

/-- Modelled from the spec: the binding table helper `ShaderBindingTableGenerator` is
not part of the sources; it holds the ordered ray generation, miss and hit group
records registered since the last `Reset`, each `Add` call appending one record. -/
structure ShaderBindingTableGenerator where
  rayGen : List SBTEntry
  miss : List SBTEntry
  hitGroup : List SBTEntry
  deriving DecidableEq, Repr

namespace ShaderBindingTableGenerator

/-- The helper call `Reset`. -/
def Reset (_h : ShaderBindingTableGenerator) : ShaderBindingTableGenerator := ⟨[], [], []⟩

/-- The helper call `AddRayGenerationProgram`. -/
def AddRayGenerationProgram (h : ShaderBindingTableGenerator) (name : ProgramName)
    (inputData : List Nat) : ShaderBindingTableGenerator :=
  { h with rayGen := h.rayGen ++ [⟨name, inputData⟩] }

/-- The helper call `AddMissProgram`. -/
def AddMissProgram (h : ShaderBindingTableGenerator) (name : ProgramName)
    (inputData : List Nat) : ShaderBindingTableGenerator :=
  { h with miss := h.miss ++ [⟨name, inputData⟩] }

/-- The helper call `AddHitGroup`. -/
def AddHitGroup (h : ShaderBindingTableGenerator) (name : ProgramName)
    (inputData : List Nat) : ShaderBindingTableGenerator :=
  { h with hitGroup := h.hitGroup ++ [⟨name, inputData⟩] }

/-- Modelled from the spec: the helper call `ComputeSBTSize` is not part of the sources;
the spec gives the table as fixed-stride records, so the size is the number of records
of each kind times the stride of that kind. -/
def ComputeSBTSizeFixedStride (rayGenStride missStride hitGroupStride : Nat)
    (h : ShaderBindingTableGenerator) : Nat :=
  rayGenStride * h.rayGen.length + missStride * h.miss.length
    + hitGroupStride * h.hitGroup.length

end ShaderBindingTableGenerator

/-! ## The view object and its surroundings -/

/-- The member variables of `RT64::View`. -/
structure View where
  descriptorHeap : Ptr
  descriptorHeapEntryCount : Nat
  sbtHelper : ShaderBindingTableGenerator
  sbtStorage : AllocatedResource
  sbtStorageSize : Nat
  topLevelASGenerator : List TLASInstance
  topLevelASBuffers : AccelerationStructureBuffers
  activeInstancesBufferProps : AllocatedResource
  activeInstancesBufferPropsSize : Nat
  cameraBuffer : AllocatedResource
  cameraBufferSize : Nat
  previousViewProj : XMMATRIX
  eyePosition : RT64_VECTOR3
  eyeFocus : RT64_VECTOR3
  eyeUpDirection : RT64_VECTOR3
  fovRadians : Nat
  nearDist : Nat
  farDist : Nat
  rasterResources0 : AllocatedResource
  rasterResources1 : AllocatedResource
  rasterRtvHeaps0 : Ptr
  rasterRtvHeaps1 : Ptr
  outputRtvDescriptorSize : Nat
  rtOutputResource : AllocatedResource
  rtHitDistanceResource : AllocatedResource
  rtHitColorResource : AllocatedResource
  rtHitNormalResource : AllocatedResource
  rtHitInstanceIdResource : AllocatedResource
  rtInstances : List RenderInstance
  rasterBgInstances : List RenderInstance
  rasterFgInstances : List RenderInstance
  usedTextures : List Ptr

/-- The driver side of the program: the log of effects and the contents of the mapped
instance properties buffers, addressed by resource and record index. -/
structure Gpu where
  log : List Event
  propsMem : Ptr → Nat → InstanceProperties

/-- How a call ended: it returned, an exception left it (`ThrowIfFailed`), or the
process stopped (failed `assert` in a build without `NDEBUG`, null pointer
dereference). -/
inductive Status where
  | returned
  | threw
  | crashed
  deriving DecidableEq, Repr

/-- The state in which a call ended, and how it ended. -/
structure Outcome where
  view : View
  gpu : Gpu
  status : Status

/-- Sequencing of two calls: the second runs only if the first returned. -/
def Outcome.andThen (o : Outcome) (next : View → Gpu → Outcome) : Outcome :=
  match o.status with
  | Status.returned => next o.view o.gpu
  | _ => o

/-- Append effects to the log. -/
def Gpu.emit (g : Gpu) (es : List Event) : Gpu := { g with log := g.log ++ es }

/-- What the scene, the device, the driver and the helper library answer during one
frame: the values the view reads through calls into code outside these sources, and
whether the build defines `NDEBUG` (then `assert` checks nothing). -/
structure Env where
  instances : List Instance
  lightsCount : Nat
  lightsBuffer : Ptr
  width : Int
  height : Int
  aspectRatio : Nat
  d3d12RenderTarget : Ptr
  math : DirectXMath
  NDEBUG : Bool
  sizeofInstanceProperties : Nat
  handleIncrement : Nat
  heapCPUStart : Ptr → Nat
  heapGPUStart : Ptr → Nat
  gpuVirtualAddress : Ptr → Nat
  textureResource : Ptr → Ptr
  ComputeASBufferSizes : List TLASInstance → Nat × Nat × Nat
  ComputeSBTSize : ShaderBindingTableGenerator → Nat
  scratchAllocation : Option Allocation
  resultAllocation : Option Allocation
  instanceDescAllocation : Option Allocation
  propsAllocation : Option Allocation
  sbtAllocation : Option Allocation
  createdDescriptorHeap : Ptr
  mapPropsResult : Int
  mapCameraResult : Int
  rtvDescriptorSize : Nat
  rasterAllocation0 : Option Allocation
  rasterAllocation1 : Option Allocation
  rtOutputAllocation : Option Allocation
  hitDistanceAllocation : Option Allocation
  hitColorAllocation : Option Allocation
  hitNormalAllocation : Option Allocation
  hitInstanceIdAllocation : Option Allocation
  createRtvHeapResult0 : Int
  createdRtvHeap0 : Ptr
  createRtvHeapResult1 : Int
  createdRtvHeap1 : Ptr
  cameraAllocation : Option Allocation


/-- The method `Device::allocateResource` of `rt64_device.cpp`, for the 2D texture
descriptions the view passes; the call result is not inspected. -/
def Device.allocateResource (created : Option Allocation) (heap : HeapType) (width height : Int)
    (flags : ResourceFlags) (state : ResourceState) : AllocatedResource × List Event :=
  (⟨created⟩, [Event.AllocateResource heap width height flags state created])

namespace View

/-! ## Snapshot of the scene instances (`View::update`, the loop) -/

/-- The body of the loop of `View::update` up to the bucket choice: the snapshot built
for one instance and the used texture list after it. -/
def snapshotInstance (usedTextures : List Ptr) (inst : Instance) : RenderInstance × List Ptr :=
  let usedMesh := inst.mesh
  let diffuseTexIndex := toInt usedTextures.length
  let usedTextures := usedTextures ++ [inst.diffuseTexture]
  if inst.normalTexture ≠ nullptr then
    (⟨usedMesh.bottomLevelASResult, inst.transform,
      { inst.material with
        diffuseTexIndex := diffuseTexIndex, normalTexIndex := toInt usedTextures.length },
      usedMesh.indexCount, usedMesh.indexBufferView, usedMesh.vertexBufferView⟩,
     usedTextures ++ [inst.normalTexture])
  else
    (⟨usedMesh.bottomLevelASResult, inst.transform,
      { inst.material with diffuseTexIndex := diffuseTexIndex, normalTexIndex := -1 },
      usedMesh.indexCount, usedMesh.indexBufferView, usedMesh.vertexBufferView⟩,
     usedTextures)

/-- One iteration of the loop of `View::update`: snapshot, then push to one bucket. -/
def pushInstance (v : View) (inst : Instance) : View :=
  let s := snapshotInstance v.usedTextures inst
  let renderInstance := s.1
  let v := { v with usedTextures := s.2 }
  if renderInstance.bottomLevelAS ≠ nullptr then
    { v with rtInstances := v.rtInstances ++ [renderInstance] }
  else if renderInstance.material.background ≠ 0 then
    { v with rasterBgInstances := v.rasterBgInstances ++ [renderInstance] }
  else
    { v with rasterFgInstances := v.rasterFgInstances ++ [renderInstance] }

/-- The loop `for (Instance *instance : scene->getInstances())` of `View::update`. -/
def snapshotInstances (v : View) (instances : List Instance) : View :=
  instances.foldl pushInstance v

/-! ## `View::createTopLevelAS` -/

/-- The loop of `createTopLevelAS`: `AddInstance` for index `i`, `i + 1`, ... -/
def addInstances : List RenderInstance → Nat → List TLASInstance → List TLASInstance
  | [], _, generator => generator
  | r :: rest, i, generator =>
    addInstances rest (i + 1)
      (generator ++ [⟨r.bottomLevelAS, r.transform, toUINT i, toUINT (2 * i)⟩])

/-- The method `View::createTopLevelAS`. -/
def createTopLevelAS (env : Env) (rtInstances : List RenderInstance) (v : View) (g : Gpu) :
    Outcome :=
  let generator := addInstances rtInstances 0 []
  let sizes := env.ComputeASBufferSizes generator
  let scratchSize := sizes.1
  let resultSize := sizes.2.1
  let instanceDescsSize := sizes.2.2
  let v := { v with topLevelASGenerator := generator }
  let grown : View × Gpu :=
    if v.topLevelASBuffers.scratchSize < scratchSize
        ∨ v.topLevelASBuffers.resultSize < resultSize
        ∨ v.topLevelASBuffers.instanceDescSize < instanceDescsSize then
      let rel := v.topLevelASBuffers.Release
      let s := Device.allocateBuffer env.scratchAllocation HeapType.DEFAULT scratchSize
        ResourceFlags.ALLOW_UNORDERED_ACCESS ResourceState.UNORDERED_ACCESS
      let r := Device.allocateBuffer env.resultAllocation HeapType.DEFAULT resultSize
        ResourceFlags.ALLOW_UNORDERED_ACCESS ResourceState.RAYTRACING_ACCELERATION_STRUCTURE
      let d := Device.allocateBuffer env.instanceDescAllocation HeapType.UPLOAD
        instanceDescsSize ResourceFlags.NONE ResourceState.GENERIC_READ
      ({ v with topLevelASBuffers := ⟨s.1, scratchSize, r.1, resultSize, d.1, instanceDescsSize⟩ },
       g.emit (rel.2 ++ s.2 ++ r.2 ++ d.2))
    else (v, g)
  let b := grown.1.topLevelASBuffers
  ⟨grown.1,
   grown.2.emit [Event.Record
     (Cmd.BuildTopLevelAS b.scratch.Get b.result.Get b.instanceDesc.Get b.result.Get)],
   Status.returned⟩

/-! ## `View::createInstancePropertiesBuffer` and `View::updateInstancePropertiesBuffer` -/

/-- The method `View::createInstancePropertiesBuffer`. -/
def createInstancePropertiesBuffer (env : Env) (v : View) (g : Gpu) : Outcome :=
  let totalInstances :=
    toUINT (v.rtInstances.length + v.rasterBgInstances.length + v.rasterFgInstances.length)
  let newBufferSize :=
    toUINT (ROUND_UP ((totalInstances * env.sizeofInstanceProperties) % 2 ^ 64)
      D3D12_CONSTANT_BUFFER_DATA_PLACEMENT_ALIGNMENT)
  if v.activeInstancesBufferPropsSize ≠ newBufferSize then
    let rel := v.activeInstancesBufferProps.Release
    let a := Device.allocateBuffer env.propsAllocation HeapType.UPLOAD newBufferSize
      ResourceFlags.NONE ResourceState.GENERIC_READ
    ⟨{ v with activeInstancesBufferProps := a.1, activeInstancesBufferPropsSize := newBufferSize },
     g.emit (rel.2 ++ a.2), Status.returned⟩
  else
    ⟨v, g, Status.returned⟩

/-- The matrix `upper3x3` of `updateInstancePropertiesBuffer`: the last column and the
last row are overwritten with zeros (bit pattern 0) and a final one (`1.f`). -/
def upper3x3 (m : XMMATRIX) : XMMATRIX :=
  ⟨((((((m.f.set 3 0).set 7 0).set 11 0).set 12 0).set 13 0).set 14 0).set 15 0x3F800000⟩

/-- The mapped buffer while it is written: its records and the pointer `current`. -/
structure Cursor where
  mem : Nat → InstanceProperties
  current : Nat

/-- The body of the first loop of `updateInstancePropertiesBuffer`. -/
def writeRtInstance (math : DirectXMath) (c : Cursor) (inst : RenderInstance) : Cursor :=
  let objectToWorld := inst.transform
  let objectToWorldNormal := math.XMMatrixTranspose (math.XMMatrixInverse (upper3x3 objectToWorld))
  ⟨Function.update c.mem c.current ⟨objectToWorld, objectToWorldNormal, inst.material⟩,
   c.current + 1⟩

/-- The body of the second and third loops of `updateInstancePropertiesBuffer`. -/
def writeRasterInstance (c : Cursor) (inst : RenderInstance) : Cursor :=
  ⟨Function.update c.mem c.current { c.mem c.current with material := inst.material },
   c.current + 1⟩

/-- The three loops of `updateInstancePropertiesBuffer`, from `current` at record 0. -/
def writeInstanceProperties (math : DirectXMath) (v : View) (mem : Nat → InstanceProperties) :
    Cursor :=
  let c : Cursor := ⟨mem, 0⟩
  let c := v.rtInstances.foldl (writeRtInstance math) c
  let c := v.rasterBgInstances.foldl writeRasterInstance c
  v.rasterFgInstances.foldl writeRasterInstance c

/-- The method `View::updateInstancePropertiesBuffer`. -/
def updateInstancePropertiesBuffer (env : Env) (v : View) (g : Gpu) : Outcome :=
  let resource := v.activeInstancesBufferProps.Get
  if resource = nullptr then ⟨v, g, Status.crashed⟩
  else if FAILED env.mapPropsResult then ⟨v, g, Status.threw⟩
  else
    let c := writeInstanceProperties env.math v (g.propsMem resource)
    ⟨v, { g with propsMem := Function.update g.propsMem resource c.mem }, Status.returned⟩

/-! ## `View::createShaderResourceHeap` -/

/-- The loop over `usedTextures` at the end of `createShaderResourceHeap`; the flag is
false when a null texture pointer is dereferenced. -/
def writeTextureDescriptors (env : Env) : List Ptr → Nat → Gpu → Gpu × Bool
  | [], _, g => (g, true)
  | t :: rest, handle, g =>
    if t = nullptr then (g, false)
    else
      writeTextureDescriptors env rest (handle + env.handleIncrement)
        (g.emit [Event.WriteDescriptor DescriptorKind.SRV_TEXTURE2D (env.textureResource t) handle])

/-- The first part of `createShaderResourceHeap`: the heap is recreated when it has
fewer than `entryCount` entries. -/
def growDescriptorHeap (env : Env) (v : View) (g : Gpu) : View × Gpu :=
  let entryCount := toUINT (11 + toUINT v.usedTextures.length)
  if v.descriptorHeapEntryCount < entryCount then
    let g := if v.descriptorHeap ≠ nullptr then
      g.emit [Event.DescriptorHeapRelease v.descriptorHeap] else g
    ({ v with descriptorHeap := env.createdDescriptorHeap, descriptorHeapEntryCount := entryCount },
     g.emit [Event.CreateDescriptorHeap entryCount env.createdDescriptorHeap])
  else (v, g)

/-- The method `View::createShaderResourceHeap`. -/
def createShaderResourceHeap (env : Env) (v : View) (g : Gpu) : Outcome :=
  if env.NDEBUG = false ∧ ¬ (v.usedTextures.length ≤ 1024) then ⟨v, g, Status.crashed⟩
  else
    let grown := growDescriptorHeap env v g
    let v := grown.1
    let g := grown.2
    if v.descriptorHeap = nullptr then ⟨v, g, Status.crashed⟩
    else
      let handleIncrement := env.handleIncrement
      let handle := env.heapCPUStart v.descriptorHeap
      let g := g.emit [Event.WriteDescriptor DescriptorKind.UAV_TEXTURE2D v.rtOutputResource.Get handle]
      let handle := handle + handleIncrement
      let numElements := intToUINT (env.width * env.height * MaxQueries)
      let g := g.emit [Event.WriteDescriptor (DescriptorKind.UAV_BUFFER numElements)
        v.rtHitDistanceResource.Get handle]
      let handle := handle + handleIncrement
      let g := g.emit [Event.WriteDescriptor (DescriptorKind.UAV_BUFFER numElements)
        v.rtHitColorResource.Get handle]
      let handle := handle + handleIncrement
      let g := g.emit [Event.WriteDescriptor (DescriptorKind.UAV_BUFFER numElements)
        v.rtHitNormalResource.Get handle]
      let handle := handle + handleIncrement
      let g := g.emit [Event.WriteDescriptor (DescriptorKind.UAV_BUFFER numElements)
        v.rtHitInstanceIdResource.Get handle]
      let handle := handle + handleIncrement
      let g := g.emit [Event.WriteDescriptor DescriptorKind.SRV_TEXTURE2D v.rasterResources0.Get handle]
      let handle := handle + handleIncrement
      let g := g.emit [Event.WriteDescriptor DescriptorKind.SRV_TEXTURE2D v.rasterResources1.Get handle]
      let handle := handle + handleIncrement
      let g := if !v.topLevelASBuffers.result.IsNull then
        g.emit [Event.WriteDescriptor (DescriptorKind.SRV_ACCELERATION_STRUCTURE
          (env.gpuVirtualAddress v.topLevelASBuffers.result.Get)) nullptr handle]
        else g
      let handle := handle + handleIncrement
      if v.cameraBuffer.Get = nullptr then ⟨v, g, Status.crashed⟩
      else
        let g := g.emit [Event.WriteDescriptor
          (DescriptorKind.CBV (env.gpuVirtualAddress v.cameraBuffer.Get) v.cameraBufferSize)
          nullptr handle]
        let handle := handle + handleIncrement
        let g := if env.lightsCount > 0 then
          g.emit [Event.WriteDescriptor (DescriptorKind.SRV_BUFFER (toUINT env.lightsCount))
            env.lightsBuffer handle]
          else g
        let handle := handle + handleIncrement
        let g := g.emit [Event.WriteDescriptor
          (DescriptorKind.SRV_BUFFER (toUINT (v.rtInstances.length + v.rasterBgInstances.length
            + v.rasterFgInstances.length)))
          v.activeInstancesBufferProps.Get handle]
        let handle := handle + handleIncrement
        let w := writeTextureDescriptors env v.usedTextures handle g
        ⟨v, w.1, if w.2 then Status.returned else Status.crashed⟩

/-! ## `View::createShaderBindingTable` -/

/-- The body of the loop of `createShaderBindingTable`: two hit groups per instance. -/
def addHitGroups (heapPointer : Nat) (h : ShaderBindingTableGenerator) (rtInstance : RenderInstance) :
    ShaderBindingTableGenerator :=
  (h.AddHitGroup ProgramName.SurfaceHitGroup
      [rtInstance.vertexBufferView.BufferLocation, rtInstance.indexBufferView.BufferLocation,
        heapPointer]).AddHitGroup ProgramName.ShadowHitGroup
      [rtInstance.vertexBufferView.BufferLocation, rtInstance.indexBufferView.BufferLocation,
        heapPointer]

/-- The registration part of `createShaderBindingTable`, from `Reset` to the end of the
loop over the ray traced bucket. -/
def registerPrograms (heapPointer : Nat) (v : View) : ShaderBindingTableGenerator :=
  let h := v.sbtHelper.Reset
  let h := h.AddRayGenerationProgram ProgramName.TraceRayGen [heapPointer]
  let h := h.AddMissProgram ProgramName.ShadowMiss []
  v.rtInstances.foldl (addHitGroups heapPointer) h

/-- The method `View::createShaderBindingTable`. -/
def createShaderBindingTable (env : Env) (v : View) (g : Gpu) : Outcome :=
  if v.descriptorHeap = nullptr then ⟨{ v with sbtHelper := v.sbtHelper.Reset }, g, Status.crashed⟩
  else
    let heapPointer := env.heapGPUStart v.descriptorHeap
    let v := { v with sbtHelper := registerPrograms heapPointer v }
    let sbtSize := toUINT (env.ComputeSBTSize v.sbtHelper)
    let grown : View × Gpu :=
      if v.sbtStorageSize < sbtSize then
        let rel := v.sbtStorage.Release
        let a := Device.allocateBuffer env.sbtAllocation HeapType.UPLOAD sbtSize
          ResourceFlags.NONE ResourceState.GENERIC_READ
        ({ v with sbtStorage := a.1, sbtStorageSize := sbtSize }, g.emit (rel.2 ++ a.2))
      else (v, g)
    ⟨grown.1, grown.2.emit [Event.GenerateSBT grown.1.sbtStorage.Get], Status.returned⟩

/-! ## Camera -/

/-- The method `View::setPerspectiveLookAt`. -/
def setPerspectiveLookAt (v : View) (eyePosition eyeFocus eyeUpDirection : RT64_VECTOR3)
    (fovRadians nearDist farDist : Nat) : View :=
  { v with
    eyePosition := eyePosition, eyeFocus := eyeFocus, eyeUpDirection := eyeUpDirection,
    fovRadians := fovRadians, nearDist := nearDist, farDist := farDist }

/-- The size of `XMMATRIX` in bytes. -/
def sizeofXMMATRIX : Nat := 64

/-- The method `View::createCameraBuffer`. -/
def createCameraBuffer (env : Env) (v : View) (g : Gpu) : Outcome :=
  let cameraBufferSize :=
    toUINT (ROUND_UP (6 * sizeofXMMATRIX) D3D12_CONSTANT_BUFFER_DATA_PLACEMENT_ALIGNMENT)
  let a := Device.allocateBuffer env.cameraAllocation HeapType.UPLOAD cameraBufferSize
    ResourceFlags.NONE ResourceState.GENERIC_READ
  ⟨{ v with cameraBufferSize := cameraBufferSize, cameraBuffer := a.1 }, g.emit a.2,
   Status.returned⟩

/-- The method `View::updateCameraBuffer`. -/
def updateCameraBuffer (env : Env) (v : View) (g : Gpu) : Outcome :=
  if env.NDEBUG = false ∧ env.math.greaterThanZero v.fovRadians = false then
    ⟨v, g, Status.crashed⟩
  else
    let m0 := env.math.XMMatrixLookAtRH v.eyePosition v.eyeFocus v.eyeUpDirection
    let m1 := env.math.XMMatrixPerspectiveFovRH v.fovRadians env.aspectRatio v.nearDist v.farDist
    let m2 := env.math.XMMatrixInverse m0
    let m3 := env.math.XMMatrixInverse m1
    let m4 := v.previousViewProj
    let m5 := env.math.XMMatrixMultiply m0 m1
    let v := { v with previousViewProj := m5 }
    if v.cameraBuffer.Get = nullptr then ⟨v, g, Status.crashed⟩
    else if FAILED env.mapCameraResult then ⟨v, g, Status.threw⟩
    else
      ⟨v, g.emit [Event.CameraCopy v.cameraBuffer.Get [m0, m1, m2, m3, m4, m5] v.cameraBufferSize],
       Status.returned⟩

/-! ## `View::update` -/

/-- The four `clear()` calls at the start of the non-empty branch of `View::update`. -/
def clearForSnapshot (v : View) : View :=
  { v with rtInstances := [], rasterBgInstances := [], rasterFgInstances := [], usedTextures := [] }

/-- The three `clear()` calls of the empty branch of `View::update`. -/
def clearBuckets (v : View) : View :=
  { v with rtInstances := [], rasterBgInstances := [], rasterFgInstances := [] }

/-- The method `View::update`. -/
def update (env : Env) (v : View) (g : Gpu) : Outcome :=
  let o : Outcome :=
    if !env.instances.isEmpty then
      let v := snapshotInstances (clearForSnapshot v) env.instances
      let o : Outcome :=
        if !v.rtInstances.isEmpty then createTopLevelAS env v.rtInstances v g
        else ⟨v, g, Status.returned⟩
      (((o.andThen (createInstancePropertiesBuffer env)).andThen
        (createShaderResourceHeap env)).andThen
        (createShaderBindingTable env)).andThen
        (updateInstancePropertiesBuffer env)
    else ⟨clearBuckets v, g, Status.returned⟩
  o.andThen (updateCameraBuffer env)

/-! ## `View::render` -/

/-- The inner loop of the rasterization block of `View::render`: one root constant and
one draw per instance, `instanceIndex` being incremented after each use. -/
def drawInstances : List RenderInstance → Nat → Gpu → Gpu × Nat
  | [], instanceIndex, g => (g, instanceIndex)
  | renderInstance :: rest, instanceIndex, g =>
    drawInstances rest (toUINT (instanceIndex + 1))
      (g.emit [Event.Record (Cmd.SetGraphicsRoot32BitConstant 0 instanceIndex 0),
        Event.Record (Cmd.IASetVertexBuffers renderInstance.vertexBufferView),
        Event.Record (Cmd.IASetIndexBuffer renderInstance.indexBufferView),
        Event.Record (Cmd.DrawIndexedInstanced renderInstance.indexCount)])

/-- One turn of the loop `for (int i = 0; i < 2; i++)` of `View::render`. The turn
starts with a call through `rasterRtvHeaps[i]`: with a null heap the process stops there
(`none`), before anything is recorded in the turn. -/
def rasterPass (rtvHeap : Ptr) (rasterInstances : List RenderInstance) (instanceIndex : Nat)
    (g : Gpu) : Option (Gpu × Nat) :=
  if rtvHeap = nullptr then none
  else
    some (drawInstances rasterInstances instanceIndex
      (g.emit [Event.Record (Cmd.OMSetRenderTargets rtvHeap),
        Event.Record (Cmd.ClearRenderTargetView rtvHeap),
        Event.Record Cmd.IASetPrimitiveTopology]))

/-- The rasterization block of `View::render`: the driver state it leaves, and whether
it ran to its end (`false` when a turn of the loop stopped at a null view heap). -/
def rasterize (v : View) (g : Gpu) : Gpu × Bool :=
  let g := g.emit [Event.Record (Cmd.ResourceBarrier
    [⟨v.rasterResources0.Get, ResourceState.NON_PIXEL_SHADER_RESOURCE, ResourceState.RENDER_TARGET⟩,
     ⟨v.rasterResources1.Get, ResourceState.NON_PIXEL_SHADER_RESOURCE, ResourceState.RENDER_TARGET⟩])]
  let instanceIndex := toUINT v.rtInstances.length
  match rasterPass v.rasterRtvHeaps0 v.rasterBgInstances instanceIndex g with
  | none => (g, false)
  | some p0 =>
    match rasterPass v.rasterRtvHeaps1 v.rasterFgInstances p0.2 p0.1 with
    | none => (p0.1, false)
    | some p1 =>
      (p1.1.emit [Event.Record (Cmd.ResourceBarrier
        [⟨v.rasterResources0.Get, ResourceState.RENDER_TARGET,
            ResourceState.NON_PIXEL_SHADER_RESOURCE⟩,
         ⟨v.rasterResources1.Get, ResourceState.RENDER_TARGET,
            ResourceState.NON_PIXEL_SHADER_RESOURCE⟩])], true)

/-- The block of `View::render` that copies the ray traced output to the render target. -/
def copyToRenderTarget (env : Env) (v : View) (g : Gpu) : Gpu :=
  g.emit [Event.Record (Cmd.ResourceBarrier
      [⟨env.d3d12RenderTarget, ResourceState.RENDER_TARGET, ResourceState.COPY_DEST⟩]),
    Event.Record (Cmd.CopyResource env.d3d12RenderTarget v.rtOutputResource.Get),
    Event.Record (Cmd.ResourceBarrier
      [⟨env.d3d12RenderTarget, ResourceState.COPY_DEST, ResourceState.RENDER_TARGET⟩])]

/-- The method `View::render`. -/
def render (env : Env) (v : View) (g : Gpu) : Outcome :=
  if v.descriptorHeap = nullptr then ⟨v, g, Status.returned⟩
  else
    let g := g.emit [Event.Record Cmd.SetPipelineState,
      Event.Record Cmd.SetGraphicsRootSignature,
      Event.Record (Cmd.SetDescriptorHeaps v.descriptorHeap),
      Event.Record (Cmd.SetGraphicsRootDescriptorTable 1 (env.heapGPUStart v.descriptorHeap)),
      Event.Record Cmd.RSSetViewports,
      Event.Record Cmd.RSSetScissorRects]
    let rasterized := rasterize v g
    if rasterized.2 = false then ⟨v, rasterized.1, Status.crashed⟩
    else
      let g := rasterized.1
      let g := g.emit [Event.Record (Cmd.ResourceBarrier
        [⟨v.rtOutputResource.Get, ResourceState.COPY_SOURCE, ResourceState.UNORDERED_ACCESS⟩])]
      if !v.rtInstances.isEmpty then
        if v.sbtStorage.Get = nullptr then ⟨v, g, Status.crashed⟩
        else
          let g := g.emit [Event.Record Cmd.SetPipelineState1,
            Event.Record (Cmd.DispatchRays (env.gpuVirtualAddress v.sbtStorage.Get)
              env.width env.height),
            Event.Record (Cmd.ResourceBarrier
              [⟨v.rtOutputResource.Get, ResourceState.UNORDERED_ACCESS,
                ResourceState.COPY_SOURCE⟩])]
          ⟨v, copyToRenderTarget env v g, Status.returned⟩
      else
        let g := g.emit [Event.Record (Cmd.ResourceBarrier
          [⟨v.rtOutputResource.Get, ResourceState.UNORDERED_ACCESS, ResourceState.COPY_SOURCE⟩])]
        ⟨v, copyToRenderTarget env v g, Status.returned⟩

/-! ## Output buffers, resize and the constructor -/

/-- The method `View::releaseOutputBuffers`. -/
def releaseOutputBuffers (v : View) (g : Gpu) : View × Gpu :=
  let r0 := v.rasterResources0.Release
  let r1 := v.rasterResources1.Release
  let o := v.rtOutputResource.Release
  let d := v.rtHitDistanceResource.Release
  let c := v.rtHitColorResource.Release
  let n := v.rtHitNormalResource.Release
  let i := v.rtHitInstanceIdResource.Release
  ({ v with
      rasterResources0 := r0.1, rasterResources1 := r1.1, rtOutputResource := o.1,
      rtHitDistanceResource := d.1, rtHitColorResource := c.1, rtHitNormalResource := n.1,
      rtHitInstanceIdResource := i.1 },
   g.emit (r0.2 ++ r1.2 ++ o.2 ++ d.2 ++ c.2 ++ n.2 ++ i.2))

/-- The method `View::createOutputBuffers`. -/
def createOutputBuffers (env : Env) (v : View) (g : Gpu) : Outcome :=
  let rel := releaseOutputBuffers v g
  let v := { rel.1 with outputRtvDescriptorSize := env.rtvDescriptorSize }
  let g := rel.2
  let r0 := Device.allocateResource env.rasterAllocation0 HeapType.DEFAULT env.width env.height
    ResourceFlags.ALLOW_RENDER_TARGET ResourceState.NON_PIXEL_SHADER_RESOURCE
  let r1 := Device.allocateResource env.rasterAllocation1 HeapType.DEFAULT env.width env.height
    ResourceFlags.ALLOW_RENDER_TARGET ResourceState.NON_PIXEL_SHADER_RESOURCE
  let o := Device.allocateResource env.rtOutputAllocation HeapType.DEFAULT env.width env.height
    ResourceFlags.ALLOW_UNORDERED_ACCESS ResourceState.COPY_SOURCE
  let hitCountBufferSize := intToUINT64 (wrapInt32 (env.width * env.height * MaxQueries))
  let d := Device.allocateBuffer env.hitDistanceAllocation HeapType.DEFAULT
    ((hitCountBufferSize * 4) % 2 ^ 64) ResourceFlags.ALLOW_UNORDERED_ACCESS
    ResourceState.UNORDERED_ACCESS
  let c := Device.allocateBuffer env.hitColorAllocation HeapType.DEFAULT
    ((hitCountBufferSize * 8) % 2 ^ 64) ResourceFlags.ALLOW_UNORDERED_ACCESS
    ResourceState.UNORDERED_ACCESS
  let n := Device.allocateBuffer env.hitNormalAllocation HeapType.DEFAULT
    ((hitCountBufferSize * 8) % 2 ^ 64) ResourceFlags.ALLOW_UNORDERED_ACCESS
    ResourceState.UNORDERED_ACCESS
  let i := Device.allocateBuffer env.hitInstanceIdAllocation HeapType.DEFAULT
    ((hitCountBufferSize * 2) % 2 ^ 64) ResourceFlags.ALLOW_UNORDERED_ACCESS
    ResourceState.UNORDERED_ACCESS
  let v := { v with
    rasterResources0 := r0.1, rasterResources1 := r1.1, rtOutputResource := o.1,
    rtHitDistanceResource := d.1, rtHitColorResource := c.1, rtHitNormalResource := n.1,
    rtHitInstanceIdResource := i.1 }
  let g := g.emit (r0.2 ++ r1.2 ++ o.2 ++ d.2 ++ c.2 ++ n.2 ++ i.2)
  if FAILED env.createRtvHeapResult0 then ⟨v, g, Status.threw⟩
  else
    let v := { v with rasterRtvHeaps0 := env.createdRtvHeap0 }
    let g := g.emit [Event.CreateRtvHeap env.createdRtvHeap0,
      Event.CreateRenderTargetView v.rasterResources0.Get env.createdRtvHeap0]
    if FAILED env.createRtvHeapResult1 then ⟨v, g, Status.threw⟩
    else
      let v := { v with rasterRtvHeaps1 := env.createdRtvHeap1 }
      ⟨v, g.emit [Event.CreateRtvHeap env.createdRtvHeap1,
        Event.CreateRenderTargetView v.rasterResources1.Get env.createdRtvHeap1],
       Status.returned⟩

/-- The method `View::resize`. -/
def resize (env : Env) (v : View) (g : Gpu) : Outcome :=
  createOutputBuffers env v g

/-- The view object when the constructor body starts: the members with a default
constructor are empty or null, the members the body assigns first have their values. -/
def constructed (math : DirectXMath) : View where
  descriptorHeap := nullptr
  descriptorHeapEntryCount := 0
  sbtHelper := ⟨[], [], []⟩
  sbtStorage := ⟨none⟩
  sbtStorageSize := 0
  topLevelASGenerator := []
  topLevelASBuffers := ⟨⟨none⟩, 0, ⟨none⟩, 0, ⟨none⟩, 0⟩
  activeInstancesBufferProps := ⟨none⟩
  activeInstancesBufferPropsSize := 0
  cameraBuffer := ⟨none⟩
  cameraBufferSize := 0
  previousViewProj := math.XMMatrixIdentity
  eyePosition := ⟨0, 0, 0⟩
  eyeFocus := ⟨0, 0, 0⟩
  eyeUpDirection := ⟨0, 0, 0⟩
  fovRadians := 0
  nearDist := 0
  farDist := 0
  rasterResources0 := ⟨none⟩
  rasterResources1 := ⟨none⟩
  rasterRtvHeaps0 := nullptr
  rasterRtvHeaps1 := nullptr
  outputRtvDescriptorSize := 0
  rtOutputResource := ⟨none⟩
  rtHitDistanceResource := ⟨none⟩
  rtHitColorResource := ⟨none⟩
  rtHitNormalResource := ⟨none⟩
  rtHitInstanceIdResource := ⟨none⟩
  rtInstances := []
  rasterBgInstances := []
  rasterFgInstances := []
  usedTextures := []

/-- The constructor `View::View`: default camera (floats `1.0f`, `0.0f`, `45.0f`, `0.1f`,
`1000.0f` as bit patterns), output buffers, camera buffer. -/
def new (env : Env) (g : Gpu) : Outcome :=
  let v := setPerspectiveLookAt (constructed env.math)
    ⟨0x3F800000, 0x3F800000, 0x3F800000⟩ ⟨0, 0, 0⟩ ⟨0, 0x3F800000, 0⟩
    0x42340000 0x3DCCCCCD 0x447A0000
  (createOutputBuffers env v g).andThen (createCameraBuffer env)

/-! ## Observations used to state the properties -/

/-- The snapshots the loop of `View::update` builds, one per scene instance and in scene
order, when it starts with the used texture list `usedTextures`. -/
def snapshots : List Ptr → List Instance → List RenderInstance
  | _, [] => []
  | usedTextures, inst :: rest =>
    (snapshotInstance usedTextures inst).1 :: snapshots (snapshotInstance usedTextures inst).2 rest

/-- The test that sends a snapshot to the ray traced bucket. -/
def inRayTracedBucket (r : RenderInstance) : Bool := decide (r.bottomLevelAS ≠ nullptr)

/-- The test that sends a snapshot to the raster background bucket. -/
def inBackgroundBucket (r : RenderInstance) : Bool :=
  decide (r.bottomLevelAS = nullptr) && decide (r.material.background ≠ 0)

/-- The test that sends a snapshot to the raster foreground bucket. -/
def inForegroundBucket (r : RenderInstance) : Bool :=
  decide (r.bottomLevelAS = nullptr) && decide (r.material.background = 0)

/-- Two views hold the same buckets and the same used texture list. -/
def sameBuckets (a b : View) : Prop :=
  a.rtInstances = b.rtInstances ∧ a.rasterBgInstances = b.rasterBgInstances
    ∧ a.rasterFgInstances = b.rasterFgInstances ∧ a.usedTextures = b.usedTextures

/-- The values of the root constants recorded in a log, in order. -/
def rootConstants : List Event → List Nat
  | [] => []
  | Event.Record (Cmd.SetGraphicsRoot32BitConstant _ value _) :: rest => value :: rootConstants rest
  | _ :: rest => rootConstants rest

/-- The draws recorded in a log, in order, each with the root constant in force when it
was recorded (`last` before the first root constant of the log) and its index count. -/
def drawsWithConstant : List Event → Nat → List (Nat × Nat)
  | [], _ => []
  | Event.Record (Cmd.SetGraphicsRoot32BitConstant _ value _) :: rest, _ =>
    drawsWithConstant rest value
  | Event.Record (Cmd.DrawIndexedInstanced indexCount) :: rest, last =>
    (last, indexCount) :: drawsWithConstant rest last
  | _ :: rest, last => drawsWithConstant rest last

/-- The events a call appended to the log of the driver state `g` it started from. -/
def recorded (g : Gpu) (o : Outcome) : List Event := o.gpu.log.drop g.log.length

/-- The constant in force after a log, `last` being the one in force before it. -/
def lastConstant : List Event → Nat → Nat
  | [], last => last
  | Event.Record (Cmd.SetGraphicsRoot32BitConstant _ value _) :: rest, _ => lastConstant rest value
  | _ :: rest, last => lastConstant rest last

/-- The events of the draws of one bucket when the first instance gets the 32-bit value
of `start` and each following instance the next 32-bit value. -/
def drawEvents : List RenderInstance → Nat → List Event
  | [], _ => []
  | r :: rest, start =>
    [Event.Record (Cmd.SetGraphicsRoot32BitConstant 0 (start % 2 ^ 32) 0),
      Event.Record (Cmd.IASetVertexBuffers r.vertexBufferView),
      Event.Record (Cmd.IASetIndexBuffer r.indexBufferView),
      Event.Record (Cmd.DrawIndexedInstanced r.indexCount)] ++ drawEvents rest (start + 1)

/-- The events of the rasterization block of `View::render`, bucket by bucket. -/
def rasterEvents (v : View) : List Event :=
  [Event.Record (Cmd.ResourceBarrier
    [⟨v.rasterResources0.Get, ResourceState.NON_PIXEL_SHADER_RESOURCE, ResourceState.RENDER_TARGET⟩,
     ⟨v.rasterResources1.Get, ResourceState.NON_PIXEL_SHADER_RESOURCE, ResourceState.RENDER_TARGET⟩])]
  ++ ([Event.Record (Cmd.OMSetRenderTargets v.rasterRtvHeaps0),
        Event.Record (Cmd.ClearRenderTargetView v.rasterRtvHeaps0),
        Event.Record Cmd.IASetPrimitiveTopology]
      ++ drawEvents v.rasterBgInstances v.rtInstances.length)
  ++ ([Event.Record (Cmd.OMSetRenderTargets v.rasterRtvHeaps1),
        Event.Record (Cmd.ClearRenderTargetView v.rasterRtvHeaps1),
        Event.Record Cmd.IASetPrimitiveTopology]
      ++ drawEvents v.rasterFgInstances (v.rtInstances.length + v.rasterBgInstances.length))
  ++ [Event.Record (Cmd.ResourceBarrier
    [⟨v.rasterResources0.Get, ResourceState.RENDER_TARGET, ResourceState.NON_PIXEL_SHADER_RESOURCE⟩,
     ⟨v.rasterResources1.Get, ResourceState.RENDER_TARGET, ResourceState.NON_PIXEL_SHADER_RESOURCE⟩])]

/-- The events `View::render` records before the rasterization block. -/
def renderHead (env : Env) (v : View) : List Event :=
  [Event.Record Cmd.SetPipelineState, Event.Record Cmd.SetGraphicsRootSignature,
    Event.Record (Cmd.SetDescriptorHeaps v.descriptorHeap),
    Event.Record (Cmd.SetGraphicsRootDescriptorTable 1 (env.heapGPUStart v.descriptorHeap)),
    Event.Record Cmd.RSSetViewports, Event.Record Cmd.RSSetScissorRects]

/-- The events `View::render` records after the rasterization block. -/
def renderTail (env : Env) (v : View) : List Event :=
  [Event.Record (Cmd.ResourceBarrier
    [⟨v.rtOutputResource.Get, ResourceState.COPY_SOURCE, ResourceState.UNORDERED_ACCESS⟩])]
  ++ (if !v.rtInstances.isEmpty then
        if v.sbtStorage.Get = nullptr then []
        else
          [Event.Record Cmd.SetPipelineState1,
            Event.Record (Cmd.DispatchRays (env.gpuVirtualAddress v.sbtStorage.Get)
              env.width env.height),
            Event.Record (Cmd.ResourceBarrier
              [⟨v.rtOutputResource.Get, ResourceState.UNORDERED_ACCESS,
                ResourceState.COPY_SOURCE⟩]),
            Event.Record (Cmd.ResourceBarrier
              [⟨env.d3d12RenderTarget, ResourceState.RENDER_TARGET, ResourceState.COPY_DEST⟩]),
            Event.Record (Cmd.CopyResource env.d3d12RenderTarget v.rtOutputResource.Get),
            Event.Record (Cmd.ResourceBarrier
              [⟨env.d3d12RenderTarget, ResourceState.COPY_DEST, ResourceState.RENDER_TARGET⟩])]
      else
        [Event.Record (Cmd.ResourceBarrier
            [⟨v.rtOutputResource.Get, ResourceState.UNORDERED_ACCESS, ResourceState.COPY_SOURCE⟩]),
          Event.Record (Cmd.ResourceBarrier
            [⟨env.d3d12RenderTarget, ResourceState.RENDER_TARGET, ResourceState.COPY_DEST⟩]),
          Event.Record (Cmd.CopyResource env.d3d12RenderTarget v.rtOutputResource.Get),
          Event.Record (Cmd.ResourceBarrier
            [⟨env.d3d12RenderTarget, ResourceState.COPY_DEST, ResourceState.RENDER_TARGET⟩])])

/-- The hit group records of a ray traced bucket: per instance, in bucket order, a
surface record followed by a shadow record, both with the vertex buffer location, the
index buffer location and the heap pointer as arguments. -/
def hitGroupRecords (heapPointer : Nat) : List RenderInstance → List SBTEntry
  | [] => []
  | r :: rest =>
    ⟨ProgramName.SurfaceHitGroup,
      [r.vertexBufferView.BufferLocation, r.indexBufferView.BufferLocation, heapPointer]⟩
    :: ⟨ProgramName.ShadowHitGroup,
      [r.vertexBufferView.BufferLocation, r.indexBufferView.BufferLocation, heapPointer]⟩
    :: hitGroupRecords heapPointer rest

/-- The composition of a record: its program and its number of arguments. -/
def recordShape (e : SBTEntry) : ProgramName × Nat := (e.name, e.inputData.length)

/-- The composition of the hit group section for `n` instances. -/
def hitGroupShape : Nat → List (ProgramName × Nat)
  | 0 => []
  | n + 1 => (ProgramName.SurfaceHitGroup, 3) :: (ProgramName.ShadowHitGroup, 3) :: hitGroupShape n

/-- The entries `AddInstance` registers for a bucket when the first index is `i`. -/
def tlasEntries : List RenderInstance → Nat → List TLASInstance
  | [], _ => []
  | r :: rest, i =>
    ⟨r.bottomLevelAS, r.transform, i % 2 ^ 32, (2 * i) % 2 ^ 32⟩ :: tlasEntries rest (i + 1)

/-- Successive calls of one operation on one view: each call starts from the view and
the driver state the previous call left, whatever its status. -/
def callSequence {α : Type} (call : α → View → Gpu → Outcome) :
    View → Gpu → List α → List Outcome
  | _, _, [] => []
  | v, g, a :: rest => call a v g :: callSequence call (call a v g).view (call a v g).gpu rest

/-- One `createTopLevelAS` call of a sequence: the frame supplies the environment and
the ray traced bucket, the view carries the acceleration structure buffers. -/
def topLevelASCall (frame : Env × List RenderInstance) (v : View) (g : Gpu) : Outcome :=
  createTopLevelAS frame.1 frame.2 v g

/-- One `createShaderBindingTable` call of a sequence: the frame supplies the
environment and every member of the view except the binding table storage and its
size, which are carried over from the previous call. -/
def shaderBindingTableCall (frame : Env × View) (v : View) (g : Gpu) : Outcome :=
  createShaderBindingTable frame.1
    { frame.2 with sbtStorage := v.sbtStorage, sbtStorageSize := v.sbtStorageSize } g

/-- One `createShaderResourceHeap` call of a sequence: the frame supplies the
environment and every member of the view (the used textures among them) except the
descriptor heap and its entry count, which are carried over from the previous call. -/
def shaderResourceHeapCall (frame : Env × View) (v : View) (g : Gpu) : Outcome :=
  createShaderResourceHeap frame.1
    { frame.2 with
      descriptorHeap := v.descriptorHeap, descriptorHeapEntryCount := v.descriptorHeapEntryCount }
    g

/-- The sizes `createTopLevelAS` obtains from `ComputeASBufferSizes` for a bucket. -/
def requiredASSizes (env : Env) (rtInstances : List RenderInstance) : Nat × Nat × Nat :=
  env.ComputeASBufferSizes (addInstances rtInstances 0 [])

/-- The table size `createShaderBindingTable` computes for a view with a heap. -/
def computedSBTSize (env : Env) (v : View) : Nat :=
  toUINT (env.ComputeSBTSize (registerPrograms (env.heapGPUStart v.descriptorHeap) v))

/-- An environment whose acceleration structure sizes are a function of the number of
registered instances. -/
def withASSizes (sizesOf : Nat → Nat × Nat × Nat) (env : Env) : Env :=
  { env with ComputeASBufferSizes := fun generator => sizesOf generator.length }

/-- The three tracked capacities of the acceleration structure buffers of a view. -/
def asCapacities (v : View) : Nat × Nat × Nat :=
  (v.topLevelASBuffers.scratchSize, v.topLevelASBuffers.resultSize,
    v.topLevelASBuffers.instanceDescSize)

/-- The acceleration structure capacities are all zero, or are the sizes `sizesOf`
gives for some instance count. -/
def capacitiesFrom (sizesOf : Nat → Nat × Nat × Nat) (v : View) : Prop :=
  asCapacities v = (0, 0, 0) ∨ ∃ n, asCapacities v = sizesOf n

/-- The events that end or start the life of a descriptor heap. -/
def isHeapLifetime : Event → Bool
  | Event.DescriptorHeapRelease _ => true
  | Event.CreateDescriptorHeap _ _ => true
  | _ => false

/-- The descriptor heap releases and creations of a log, in order. -/
def heapLifetimeEvents (log : List Event) : List Event := log.filter isHeapLifetime

/-- The textures one instance appends to the used texture list: its diffuse texture,
then its normal texture when it has one. -/
def instanceTextures (inst : Instance) : List Ptr :=
  inst.diffuseTexture :: (if inst.normalTexture ≠ nullptr then [inst.normalTexture] else [])

/-- The textures the instances of a scene append to the used texture list, in order. -/
def textureUses : List Instance → List Ptr
  | [] => []
  | inst :: rest => instanceTextures inst ++ textureUses rest

/-- The number of times a texture is used by the instances of a scene, as a diffuse
texture or as a normal texture. -/
def textureUseCount (t : Ptr) : List Instance → Nat
  | [] => 0
  | inst :: rest =>
    (if inst.diffuseTexture = t then 1 else 0)
      + (if inst.normalTexture ≠ nullptr ∧ inst.normalTexture = t then 1 else 0)
      + textureUseCount t rest

/-- The events that dispatch rays. -/
def isDispatch : Event → Bool
  | Event.Record (Cmd.DispatchRays _ _ _) => true
  | _ => false

/-- The ray dispatches of a log, in order. -/
def dispatches (log : List Event) : List Event := log.filter isDispatch

/-- The six matrices `updateCameraBuffer` copies into the camera buffer: view,
projection, their inverses, the previous view-projection and the current one. -/
def cameraMatrices (env : Env) (v : View) : List XMMATRIX :=
  [env.math.XMMatrixLookAtRH v.eyePosition v.eyeFocus v.eyeUpDirection,
    env.math.XMMatrixPerspectiveFovRH v.fovRadians env.aspectRatio v.nearDist v.farDist,
    env.math.XMMatrixInverse (env.math.XMMatrixLookAtRH v.eyePosition v.eyeFocus v.eyeUpDirection),
    env.math.XMMatrixInverse
      (env.math.XMMatrixPerspectiveFovRH v.fovRadians env.aspectRatio v.nearDist v.farDist),
    v.previousViewProj,
    env.math.XMMatrixMultiply
      (env.math.XMMatrixLookAtRH v.eyePosition v.eyeFocus v.eyeUpDirection)
      (env.math.XMMatrixPerspectiveFovRH v.fovRadians env.aspectRatio v.nearDist v.farDist)]

/-- The descriptor writes of a log in program order: kind, resource and CPU handle. -/
def descriptorWrites : List Event → List (DescriptorKind × Ptr × Nat)
  | [] => []
  | Event.WriteDescriptor kind resource handle :: rest =>
    (kind, resource, handle) :: descriptorWrites rest
  | _ :: rest => descriptorWrites rest

/-- The CPU handle of slot `k` of a descriptor heap: the heap start plus `k` handle
increments. -/
def slotHandle (env : Env) (heap : Ptr) (k : Nat) : Nat :=
  env.heapCPUStart heap + k * env.handleIncrement

/-- One texture view per used texture, in consecutive slots from slot `k`. -/
def textureSlots (env : Env) (heap : Ptr) : List Ptr → Nat → List (DescriptorKind × Ptr × Nat)
  | [], _ => []
  | t :: rest, k =>
    (DescriptorKind.SRV_TEXTURE2D, env.textureResource t, slotHandle env heap k)
      :: textureSlots env heap rest (k + 1)

/-- The slot layout of the shader resource heap of a view: the descriptor of each slot
from 0 on, slots 7 and 9 being skipped (not written) when the top level structure is
null or the scene has no lights. -/
def heapSlots (env : Env) (v : View) : List (DescriptorKind × Ptr × Nat) :=
  [(DescriptorKind.UAV_TEXTURE2D, v.rtOutputResource.Get, slotHandle env v.descriptorHeap 0),
   (DescriptorKind.UAV_BUFFER (intToUINT (env.width * env.height * MaxQueries)),
      v.rtHitDistanceResource.Get, slotHandle env v.descriptorHeap 1),
   (DescriptorKind.UAV_BUFFER (intToUINT (env.width * env.height * MaxQueries)),
      v.rtHitColorResource.Get, slotHandle env v.descriptorHeap 2),
   (DescriptorKind.UAV_BUFFER (intToUINT (env.width * env.height * MaxQueries)),
      v.rtHitNormalResource.Get, slotHandle env v.descriptorHeap 3),
   (DescriptorKind.UAV_BUFFER (intToUINT (env.width * env.height * MaxQueries)),
      v.rtHitInstanceIdResource.Get, slotHandle env v.descriptorHeap 4),
   (DescriptorKind.SRV_TEXTURE2D, v.rasterResources0.Get, slotHandle env v.descriptorHeap 5),
   (DescriptorKind.SRV_TEXTURE2D, v.rasterResources1.Get, slotHandle env v.descriptorHeap 6)]
  ++ (if !v.topLevelASBuffers.result.IsNull then
        [(DescriptorKind.SRV_ACCELERATION_STRUCTURE
            (env.gpuVirtualAddress v.topLevelASBuffers.result.Get),
          nullptr, slotHandle env v.descriptorHeap 7)]
      else [])
  ++ [(DescriptorKind.CBV (env.gpuVirtualAddress v.cameraBuffer.Get) v.cameraBufferSize,
        nullptr, slotHandle env v.descriptorHeap 8)]
  ++ (if env.lightsCount > 0 then
        [(DescriptorKind.SRV_BUFFER (toUINT env.lightsCount), env.lightsBuffer,
          slotHandle env v.descriptorHeap 9)]
      else [])
  ++ [(DescriptorKind.SRV_BUFFER (toUINT (v.rtInstances.length + v.rasterBgInstances.length
          + v.rasterFgInstances.length)),
        v.activeInstancesBufferProps.Get, slotHandle env v.descriptorHeap 10)]
  ++ textureSlots env v.descriptorHeap v.usedTextures 11

/-- The buffer allocations of a log in program order: byte size and what the allocator
returned. -/
def bufferAllocations : List Event → List (Nat × Option Allocation)
  | [] => []
  | Event.AllocateBuffer _ size _ _ created :: rest => (size, created) :: bufferAllocations rest
  | _ :: rest => bufferAllocations rest

/-- The buffer views with unordered access among descriptor writes: element count and
resource. -/
def uavBufferViews : List (DescriptorKind × Ptr × Nat) → List (Nat × Ptr)
  | [] => []
  | (DescriptorKind.UAV_BUFFER numElements, resource, _) :: rest =>
    (numElements, resource) :: uavBufferViews rest
  | _ :: rest => uavBufferViews rest

/-- The camera members of a view: the six values `setPerspectiveLookAt` stores, the
previous view-projection matrix, and the camera buffer with its size. -/
def cameraState (v : View) :
    RT64_VECTOR3 × RT64_VECTOR3 × RT64_VECTOR3 × Nat × Nat × Nat × XMMATRIX
      × AllocatedResource × Nat :=
  (v.eyePosition, v.eyeFocus, v.eyeUpDirection, v.fovRadians, v.nearDist, v.farDist,
    v.previousViewProj, v.cameraBuffer, v.cameraBufferSize)

/-- The allocations released in a log, in program order. -/
def releasedAllocations : List Event → List Allocation
  | [] => []
  | Event.AllocationRelease a :: rest => a :: releasedAllocations rest
  | _ :: rest => releasedAllocations rest

/-- What the allocator returned for each buffer or texture requested in a log, in
program order. -/
def createdAllocations : List Event → List (Option Allocation)
  | [] => []
  | Event.AllocateBuffer _ _ _ _ created :: rest => created :: createdAllocations rest
  | Event.AllocateResource _ _ _ _ _ created :: rest => created :: createdAllocations rest
  | _ :: rest => createdAllocations rest

/-- The allocations a list of handles holds. -/
def heldAllocations (handles : List AllocatedResource) : List Allocation :=
  handles.filterMap (fun h => h.d3dMaAllocation)

/-- The seven output buffers of a view: the two raster targets, the ray traced output
and the four hit query buffers. -/
def outputBuffers (v : View) : List AllocatedResource :=
  [v.rasterResources0, v.rasterResources1, v.rtOutputResource, v.rtHitDistanceResource,
    v.rtHitColorResource, v.rtHitNormalResource, v.rtHitInstanceIdResource]

/-- The arguments of one `setPerspectiveLookAt` call. -/
structure CameraSetting where
  eyePosition : RT64_VECTOR3
  eyeFocus : RT64_VECTOR3
  eyeUpDirection : RT64_VECTOR3
  fovRadians : Nat
  nearDist : Nat
  farDist : Nat

/-- The camera values a view holds. -/
def cameraSetting (v : View) : CameraSetting :=
  ⟨v.eyePosition, v.eyeFocus, v.eyeUpDirection, v.fovRadians, v.nearDist, v.farDist⟩

/-- One frame of a sequence of `update` calls: an optional `setPerspectiveLookAt` call
followed by `update`, the frame supplying the environment. -/
def updateCall (frame : Env × Option CameraSetting) (v : View) (g : Gpu) : Outcome :=
  match frame.2 with
  | some c =>
    update frame.1
      (setPerspectiveLookAt v c.eyePosition c.eyeFocus c.eyeUpDirection c.fovRadians c.nearDist
        c.farDist) g
  | none => update frame.1 v g

/-- Successive frames on one view, up to the first frame that does not return. -/
def updateSequence : View → Gpu → List (Env × Option CameraSetting) → Outcome
  | v, g, [] => ⟨v, g, Status.returned⟩
  | v, g, frame :: rest =>
    match (updateCall frame v g).status with
    | Status.returned => updateSequence (updateCall frame v g).view (updateCall frame v g).gpu rest
    | _ => updateCall frame v g

/-- The matrix lists copied into camera buffers in a log, in program order. -/
def cameraBlocks : List Event → List (List XMMATRIX)
  | [] => []
  | Event.CameraCopy _ matrices _ :: rest => matrices :: cameraBlocks rest
  | _ :: rest => cameraBlocks rest

/-- The view-projection matrix of a camera: view times projection. -/
def viewProjection (env : Env) (c : CameraSetting) : XMMATRIX :=
  env.math.XMMatrixMultiply
    (env.math.XMMatrixLookAtRH c.eyePosition c.eyeFocus c.eyeUpDirection)
    (env.math.XMMatrixPerspectiveFovRH c.fovRadians env.aspectRatio c.nearDist c.farDist)

/-- The camera block of a camera and a previous view-projection matrix: view,
projection, inverse view, inverse projection, previous view-projection, view times
projection. -/
def cameraBlock (env : Env) (c : CameraSetting) (previous : XMMATRIX) : List XMMATRIX :=
  [env.math.XMMatrixLookAtRH c.eyePosition c.eyeFocus c.eyeUpDirection,
    env.math.XMMatrixPerspectiveFovRH c.fovRadians env.aspectRatio c.nearDist c.farDist,
    env.math.XMMatrixInverse
      (env.math.XMMatrixLookAtRH c.eyePosition c.eyeFocus c.eyeUpDirection),
    env.math.XMMatrixInverse
      (env.math.XMMatrixPerspectiveFovRH c.fovRadians env.aspectRatio c.nearDist c.farDist),
    previous,
    viewProjection env c]

/-- The camera blocks of successive frames: each frame uses its own camera (the one it
sets, or the one in force) and, as previous view-projection, the view-projection of the
frame before it, the first frame using `previous`. -/
def cameraBlocksFrom (c : CameraSetting) (previous : XMMATRIX) :
    List (Env × Option CameraSetting) → List (List XMMATRIX)
  | [] => []
  | frame :: rest =>
    cameraBlock frame.1 (frame.2.getD c) previous
      :: cameraBlocksFrom (frame.2.getD c) (viewProjection frame.1 (frame.2.getD c)) rest

/-- The three acceleration structure buffers of a view are allocated: none of the
handles is null. -/
def asBuffersAllocated (v : View) : Prop :=
  v.topLevelASBuffers.scratch.IsNull = false ∧ v.topLevelASBuffers.result.IsNull = false
    ∧ v.topLevelASBuffers.instanceDesc.IsNull = false

/-- The acceleration structure buffers of a view are allocated unless the three tracked
capacities are still zero. -/
def asBuffersConsistent (v : View) : Prop :=
  asCapacities v = (0, 0, 0) ∨ asBuffersAllocated v

/-- The allocator satisfies the three requests `createTopLevelAS` can make in a frame. -/
def asAllocationsSucceed (env : Env) : Prop :=
  env.scratchAllocation.isSome = true ∧ env.resultAllocation.isSome = true
    ∧ env.instanceDescAllocation.isSome = true

/-- The buffers passed to the acceleration structure builds recorded in a log: scratch,
result and instance descriptors. -/
def buildBuffers : List Event → List (Ptr × Ptr × Ptr)
  | [] => []
  | Event.Record (Cmd.BuildTopLevelAS scratch result instanceDesc _) :: rest =>
    (scratch, result, instanceDesc) :: buildBuffers rest
  | _ :: rest => buildBuffers rest

end View

/-! ## The frame synchronizer of `RT64::Device` (`rt64_device.cpp`) -/

/-- Operations on the command allocator, the command list, the command queue and the
fence, in program order. -/
inductive QueueEvent where
  | AllocatorReset
  | CommandListReset
  | CommandListClose
  | ExecuteCommandLists
  | Signal (value : Nat)
  | SetEventOnCompletion (value : Nat)
  | WaitForSingleObject
  | Present (syncInterval : Int)
  deriving DecidableEq, Repr

/-- The members of `RT64::Device` read and written by the synchronizer, the frame
functions, the pending barriers and the shader set, the log `queue` of the operations
issued on the queue, the fence, the allocator and the swap chain, and the log
`pipelineBuilds` of the shader lists `createRaytracingPipeline` was run with. The fence
value is passed to `Signal` as a 64-bit unsigned integer, so the increment wraps at
`2 ^ 64`. The array `d3dRenderTargets` has the two entries the constructor assigns. A
`D3D12_RESOURCE_BARRIER` is carried as a transition. -/
structure Device where
  d3dCommandListOpen : Bool
  d3dFenceValue : Nat
  queue : List QueueEvent
  width : Int
  height : Int
  d3dSwapChain : Ptr
  d3dRtvHeap : Ptr
  d3dRtvDescriptorSize : Nat
  d3dRenderTargets0 : Ptr
  d3dRenderTargets1 : Ptr
  d3dRenderTargetReadback : AllocatedResource
  d3dFrameIndex : Nat
  lastCommandQueueBarrier : Transition
  lastCommandQueueBarrierActive : Bool
  lastCopyQueueBarrier : Transition
  lastCopyQueueBarrierActive : Bool
  shaders : List Ptr
  d3dRtStateObjectDirty : Bool
  pipelineBuilds : List (List Ptr)
  deriving DecidableEq, Repr

/-- Modelled from the spec: the macro `D3D12_CHECK`, whose definition is outside these
sources. A failed call result is raised as an error at once (GPU call failures are
fatal and raised immediately); a successful one lets the caller continue. -/
def D3D12_CHECK (hr : Int) : Status :=
  if FAILED hr then Status.threw else Status.returned

/-- What the window, the swap chain, the driver and the code outside these sources
(scenes, inspectors) answer during one `Device::draw`: the client rectangle, the call
results, the objects created, and for each call into a scene or an inspector the
commands it records and how it ends. -/
structure FrameEnv where
  vsyncInterval : Int
  clientWidth : Int
  clientHeight : Int
  resizeBuffersResult : Int
  createRtvHeapResult : Int
  createdRtvHeap : Ptr
  rtvDescriptorSize : Nat
  rtvHeapStart : Ptr → Nat
  getBufferResult0 : Int
  swapChainBuffer0 : Ptr
  getBufferResult1 : Int
  swapChainBuffer1 : Ptr
  readbackRowWidth : Nat
  readbackAllocation : Option Allocation
  resizedBackBufferIndex : Nat
  scenesResize : List Event × Status
  scenesUpdate : List Event × Status
  scenesRender : List Event × Status
  inspectorsRender : List Event × Status
  queryInterfaceResult : Int
  presentResult : Int
  backBufferIndex : Nat

/-- The state in which a device call ended, the commands and driver calls it recorded,
and how it ended. -/
structure DeviceOutcome where
  device : Device
  recorded : List Event
  status : Status

/-- Sequencing of two device calls: the second runs only if the first returned. -/
def DeviceOutcome.andThen (o : DeviceOutcome) (next : Device → DeviceOutcome) : DeviceOutcome :=
  match o.status with
  | Status.returned => ⟨(next o.device).device, o.recorded ++ (next o.device).recorded,
      (next o.device).status⟩
  | _ => o

namespace Device

/-- The method `Device::resetCommandList`. -/
def resetCommandList (d : Device) : Device :=
  { d with
    queue := d.queue ++ [QueueEvent.AllocatorReset, QueueEvent.CommandListReset]
    d3dCommandListOpen := true }

/-- The method `Device::submitCommandList`. -/
def submitCommandList (d : Device) : Device :=
  { d with
    queue := d.queue ++ [QueueEvent.CommandListClose, QueueEvent.ExecuteCommandLists]
    d3dCommandListOpen := false }

/-- The method `Device::waitForGPU`. -/
def waitForGPU (d : Device) : Device :=
  { d with
    queue := d.queue ++ [QueueEvent.Signal d.d3dFenceValue,
      QueueEvent.SetEventOnCompletion d.d3dFenceValue, QueueEvent.WaitForSingleObject]
    d3dFenceValue := (d.d3dFenceValue + 1) % 2 ^ 64 }

/-- The end of `Device::loadAssets`: the fence value is set to 1 and the first
`waitForGPU` runs. -/
def loadAssets (d : Device) : Device :=
  waitForGPU { d with d3dFenceValue := 1 }

/-- The three synchronizer operations. -/
inductive SyncOp where
  | resetCommandList
  | submitCommandList
  | waitForGPU
  deriving DecidableEq, Repr

/-- One synchronizer operation on a device. -/
def step (d : Device) : SyncOp → Device
  | SyncOp.resetCommandList => d.resetCommandList
  | SyncOp.submitCommandList => d.submitCommandList
  | SyncOp.waitForGPU => d.waitForGPU

/-- A sequence of synchronizer operations on a device. -/
def run (d : Device) (ops : List SyncOp) : Device := ops.foldl step d

/-- The values signalled on the fence in a log, in order. -/
def signals : List QueueEvent → List Nat
  | [] => []
  | QueueEvent.Signal value :: rest => value :: signals rest
  | _ :: rest => signals rest

/-- The values waited on (`SetEventOnCompletion`) in a log, in order. -/
def awaited : List QueueEvent → List Nat
  | [] => []
  | QueueEvent.SetEventOnCompletion value :: rest => value :: awaited rest
  | _ :: rest => awaited rest

/-- The number of `waitForGPU` operations in a sequence. -/
def waits (ops : List SyncOp) : Nat := ops.count SyncOp.waitForGPU

/-- The members the body of the constructor `Device::Device` assigns before its calls,
and the members with a default constructor; the others keep what the object memory
held. -/
def constructed (memory : Device) : Device :=
  { memory with
    d3dCommandListOpen := true
    lastCommandQueueBarrierActive := false
    lastCopyQueueBarrierActive := false
    d3dRenderTargets0 := nullptr
    d3dRenderTargets1 := nullptr
    d3dRenderTargetReadback := ⟨none⟩
    d3dRtStateObjectDirty := false
    width := 0
    height := 0
    shaders := []
    queue := []
    pipelineBuilds := [] }

/-- The method `Device::getD3D12RenderTarget`: `d3dRenderTargets[d3dFrameIndex]`. -/
def getD3D12RenderTarget (d : Device) : Ptr :=
  if d.d3dFrameIndex = 0 then d.d3dRenderTargets0 else d.d3dRenderTargets1

/-- The method `Device::getD3D12RTV`: the handle at offset `d3dFrameIndex` from the start
of the view heap. It calls through `d3dRtvHeap`: with a null view heap the process stops
there (`none`). -/
def getD3D12RTV (x : FrameEnv) (d : Device) : Option Nat :=
  if d.d3dRtvHeap = nullptr then none
  else some (x.rtvHeapStart d.d3dRtvHeap + d.d3dFrameIndex * d.d3dRtvDescriptorSize)

/-- The method `Device::setLastCommandQueueBarrier`. -/
def setLastCommandQueueBarrier (barrier : Transition) (d : Device) : Device :=
  { d with lastCommandQueueBarrier := barrier, lastCommandQueueBarrierActive := true }

/-- The method `Device::submitCommandQueueBarrier`. -/
def submitCommandQueueBarrier (d : Device) : DeviceOutcome :=
  if d.lastCommandQueueBarrierActive then
    ⟨{ d with lastCommandQueueBarrierActive := false },
     [Event.Record (Cmd.ResourceBarrier [d.lastCommandQueueBarrier])], Status.returned⟩
  else ⟨d, [], Status.returned⟩

/-- The method `Device::setLastCopyQueueBarrier`. -/
def setLastCopyQueueBarrier (barrier : Transition) (d : Device) : Device :=
  { d with lastCopyQueueBarrier := barrier, lastCopyQueueBarrierActive := true }

/-- The method `Device::submitCopyQueueBarrier`. -/
def submitCopyQueueBarrier (d : Device) : DeviceOutcome :=
  if d.lastCopyQueueBarrierActive then
    ⟨{ d with lastCopyQueueBarrierActive := false },
     [Event.Record (Cmd.ResourceBarrier [d.lastCopyQueueBarrier])], Status.returned⟩
  else ⟨d, [], Status.returned⟩

/-- The method `Device::addShader`; `hasHitGroups` is the answer of the shader. A null
shader stops the process (at the `assert`, or at the call through the pointer). -/
def addShader (hasHitGroups : Ptr → Bool) (shader : Ptr) (d : Device) : DeviceOutcome :=
  if shader = nullptr then ⟨d, [], Status.crashed⟩
  else if hasHitGroups shader then
    ⟨{ d with shaders := d.shaders ++ [shader], d3dRtStateObjectDirty := true }, [],
     Status.returned⟩
  else ⟨d, [], Status.returned⟩

/-- The method `Device::removeShader`: every occurrence of the shader is erased. -/
def removeShader (hasHitGroups : Ptr → Bool) (shader : Ptr) (d : Device) : DeviceOutcome :=
  if shader = nullptr then ⟨d, [], Status.crashed⟩
  else if hasHitGroups shader then
    ⟨{ d with
        shaders := d.shaders.filter (fun s => decide (s ≠ shader))
        d3dRtStateObjectDirty := true }, [], Status.returned⟩
  else ⟨d, [], Status.returned⟩

/-- The method `Device::preRender`. After the barrier it obtains the handle of the
render target view from `getD3D12RTV`: with a null `d3dRtvHeap` the process stops there,
the command list reset and the barrier recorded. -/
def preRender (x : FrameEnv) (d : Device) : DeviceOutcome :=
  let d := if d.d3dCommandListOpen then d.submitCommandList.waitForGPU else d
  let d := d.resetCommandList
  let head := [Event.Record Cmd.RSSetViewports, Event.Record Cmd.RSSetScissorRects,
    Event.Record (Cmd.ResourceBarrier
      [⟨d.getD3D12RenderTarget, ResourceState.PRESENT, ResourceState.RENDER_TARGET⟩])]
  match d.getD3D12RTV x with
  | none => ⟨d, head, Status.crashed⟩
  | some rtvHandle =>
    ⟨d, head ++ [Event.Record (Cmd.OMSetRenderTargets rtvHandle),
       Event.Record (Cmd.ClearRenderTargetView rtvHandle)],
     Status.returned⟩

/-- The method `Device::postRender`. `Present` and `GetCurrentBackBufferIndex` are called
through `d3dSwapChain`: with a null swap chain the process stops at `Present`, the
command list submitted. -/
def postRender (x : FrameEnv) (d : Device) : DeviceOutcome :=
  let barrier := [Event.Record (Cmd.ResourceBarrier
    [⟨d.getD3D12RenderTarget, ResourceState.RENDER_TARGET, ResourceState.PRESENT⟩])]
  let d := d.submitCommandList
  if d.d3dSwapChain = nullptr then ⟨d, barrier, Status.crashed⟩
  else
    let d := { d with queue := d.queue ++ [QueueEvent.Present x.vsyncInterval] }
    match D3D12_CHECK x.presentResult with
    | Status.returned =>
      let d := d.waitForGPU
      let d := { d with d3dFrameIndex := x.backBufferIndex }
      ⟨d.resetCommandList, barrier, Status.returned⟩
    | status => ⟨d, barrier, status⟩

/-- One mutation of the shader set. -/
inductive ShaderOp where
  | addShader (shader : Ptr)
  | removeShader (shader : Ptr)
  deriving DecidableEq, Repr

/-- The shader a mutation names. -/
def ShaderOp.shader : ShaderOp → Ptr
  | ShaderOp.addShader shader => shader
  | ShaderOp.removeShader shader => shader

/-- One frame of the synchronizer: `preRender` followed by `postRender`. -/
def frame (x : FrameEnv) (d : Device) : DeviceOutcome :=
  (preRender x d).andThen (postRender x)

/-- Consecutive frames, up to the first that does not return. -/
def frames : Device → List FrameEnv → DeviceOutcome
  | d, [] => ⟨d, [], Status.returned⟩
  | d, x :: rest => (frame x d).andThen (fun d => frames d rest)

/-- The synchronizer operations in a log, in order: `ExecuteCommandLists` marks a
`submitCommandList`, `WaitForSingleObject` a `waitForGPU`, the reset of the command list
a `resetCommandList`. -/
def syncOps : List QueueEvent → List SyncOp
  | [] => []
  | QueueEvent.ExecuteCommandLists :: rest => SyncOp.submitCommandList :: syncOps rest
  | QueueEvent.WaitForSingleObject :: rest => SyncOp.waitForGPU :: syncOps rest
  | QueueEvent.CommandListReset :: rest => SyncOp.resetCommandList :: syncOps rest
  | _ :: rest => syncOps rest

/-- The synchronizer operations of one frame. -/
def frameOps : List SyncOp :=
  [SyncOp.submitCommandList, SyncOp.waitForGPU, SyncOp.resetCommandList,
    SyncOp.submitCommandList, SyncOp.waitForGPU, SyncOp.resetCommandList]

/-- The number of submitted command lists not yet waited for after a sequence of
operations, `n` of them being so at the start; a `waitForGPU` waits for all of them. -/
def unwaited : Nat → List SyncOp → Nat
  | n, [] => n
  | n, SyncOp.submitCommandList :: rest => unwaited (n + 1) rest
  | _, SyncOp.waitForGPU :: rest => unwaited 0 rest
  | n, SyncOp.resetCommandList :: rest => unwaited n rest

/-- Every submit and every reset of the sequence happens when no submitted command list
is un-waited, `n` of them being so at the start. -/
def waitedBeforeReuse : Nat → List SyncOp → Bool
  | _, [] => true
  | n, SyncOp.submitCommandList :: rest => n == 0 && waitedBeforeReuse 1 rest
  | _, SyncOp.waitForGPU :: rest => waitedBeforeReuse 0 rest
  | n, SyncOp.resetCommandList :: rest => n == 0 && waitedBeforeReuse n rest

/-- The commands one frame of a device with one view records, in order: `preRender`,
`View::render`, `postRender`. -/
def renderFrame (x : FrameEnv) (env : Env) (d : Device) (v : View) (g : Gpu) : List Event :=
  (preRender x d).recorded ++ View.recorded g (View.render env v g)
    ++ (postRender x (preRender x d).device).recorded

/-- The transitions of one `ResourceBarrier` command applied to the tracked resource
states; `none` when a transition names a state before that is not the tracked state of
its resource. -/
def applyTransitions : (Ptr → ResourceState) → List Transition → Option (Ptr → ResourceState)
  | states, [] => some states
  | states, t :: rest =>
    if states t.resource = t.before then
      applyTransitions (Function.update states t.resource t.after) rest
    else none

/-- The transition barriers of a log applied in order to the tracked resource states;
`none` when one of them names a state before that is not the tracked state. -/
def trackBarriers : (Ptr → ResourceState) → List Event → Option (Ptr → ResourceState)
  | states, [] => some states
  | states, Event.Record (Cmd.ResourceBarrier transitions) :: rest =>
    match applyTransitions states transitions with
    | some next => trackBarriers next rest
    | none => none
  | states, _ :: rest => trackBarriers states rest

end Device

/-! ## The exported entry points of `rt64_view.cpp` -/

/-- How a call of an exported entry point ends for its caller: it returns a pointer, it
returns from a `void` function, an exception leaves the entry point, or the process
stops. -/
inductive Boundary where
  | returned (value : Ptr)
  | returnedVoid
  | propagated
  | aborted
  deriving DecidableEq, Repr

/-- The entry point `RT64_CreateView`: `memory` is the address `new` obtains for the
view. The body has no `try`: what the constructor throws leaves the entry point. A null
scene stops the process (at the `assert`, or at the call through the pointer in the
constructor). -/
def RT64_CreateView (env : Env) (scenePtr : Ptr) (memory : Ptr) (g : Gpu) : Boundary × Gpu :=
  if scenePtr = nullptr then (Boundary.aborted, g)
  else
    match (View.new env g).status with
    | Status.returned => (Boundary.returned memory, (View.new env g).gpu)
    | Status.threw => (Boundary.propagated, (View.new env g).gpu)
    | Status.crashed => (Boundary.aborted, (View.new env g).gpu)

/-- The entry point `RT64_SetViewPerspective`. A null view stops the process (at the
`assert`, or at the write through the pointer). -/
def RT64_SetViewPerspective (viewPtr : Ptr) (v : View)
    (eyePosition eyeFocus eyeUpDirection : RT64_VECTOR3) (fovRadians nearDist farDist : Nat) :
    Boundary × View :=
  if viewPtr = nullptr then (Boundary.aborted, v)
  else
    (Boundary.returnedVoid,
      View.setPerspectiveLookAt v eyePosition eyeFocus eyeUpDirection fovRadians nearDist farDist)

/-- The entry point `RT64_DestroyView`: `delete` on a null pointer does nothing, and the
destructor releases the output buffers. -/
def RT64_DestroyView (viewPtr : Ptr) (v : View) (g : Gpu) : Boundary × Gpu :=
  if viewPtr = nullptr then (Boundary.returnedVoid, g)
  else (Boundary.returnedVoid, (View.releaseOutputBuffers v g).2)

/-- A math library instance for concrete evaluations: every matrix function returns its
argument or a fixed matrix. -/
def sampleMath : DirectXMath where
  XMMatrixIdentity := ⟨[]⟩
  XMMatrixLookAtRH := fun _ _ _ => ⟨[]⟩
  XMMatrixPerspectiveFovRH := fun _ _ _ _ => ⟨[]⟩
  XMMatrixInverse := fun m => m
  XMMatrixTranspose := fun m => m
  XMMatrixMultiply := fun m _ => m
  greaterThanZero := fun x => decide (0 < x)

/-- A frame environment for concrete evaluations: an 800x600 device, every allocation
succeeding with a distinct address. -/
def sampleEnv (instances : List Instance) : Env where
  instances := instances
  lightsCount := 0
  lightsBuffer := nullptr
  width := 800
  height := 600
  aspectRatio := 0x3FAAAAAB
  d3d12RenderTarget := 900
  math := sampleMath
  NDEBUG := false
  sizeofInstanceProperties := 176
  handleIncrement := 32
  heapCPUStart := fun h => h * 4096
  heapGPUStart := fun h => h * 8192
  gpuVirtualAddress := fun r => r * 65536
  textureResource := fun t => t + 1
  ComputeASBufferSizes := fun gen => (256 * gen.length, 512 * gen.length, 64 * gen.length)
  ComputeSBTSize := ShaderBindingTableGenerator.ComputeSBTSizeFixedStride 64 32 64
  scratchAllocation := some ⟨101, 201⟩
  resultAllocation := some ⟨102, 202⟩
  instanceDescAllocation := some ⟨103, 203⟩
  propsAllocation := some ⟨104, 204⟩
  sbtAllocation := some ⟨105, 205⟩
  createdDescriptorHeap := 300
  mapPropsResult := 0
  mapCameraResult := 0
  rtvDescriptorSize := 32
  rasterAllocation0 := some ⟨106, 206⟩
  rasterAllocation1 := some ⟨107, 207⟩
  rtOutputAllocation := some ⟨108, 208⟩
  hitDistanceAllocation := some ⟨109, 209⟩
  hitColorAllocation := some ⟨110, 210⟩
  hitNormalAllocation := some ⟨111, 211⟩
  hitInstanceIdAllocation := some ⟨112, 212⟩
  createRtvHeapResult0 := 0
  createdRtvHeap0 := 301
  createRtvHeapResult1 := 0
  createdRtvHeap1 := 302
  cameraAllocation := some ⟨113, 213⟩

/-- A driver state for concrete evaluations: empty log, zeroed buffers. -/
def sampleGpu : Gpu := ⟨[], fun _ _ => ⟨⟨[]⟩, ⟨[]⟩, ⟨0, 0, 0, []⟩⟩⟩

/-- A snapshot for concrete evaluations, given its bottom level structure, its
background flag, its diffuse texture index and its index count. -/
def sampleRenderInstance (blas : Ptr) (background diffuseTexIndex : Int) (indexCount : Nat) :
    RenderInstance :=
  ⟨blas, ⟨[]⟩, ⟨background, diffuseTexIndex, -1, []⟩, indexCount, ⟨7000, 72⟩, ⟨8000, 576⟩⟩

/-- A view for concrete evaluations: the given buckets, a descriptor heap of eleven
entries, and allocated camera, instance properties and binding table buffers. -/
def sampleView (rt bg fg : List RenderInstance) : View :=
  { View.constructed sampleMath with
    descriptorHeap := 300
    descriptorHeapEntryCount := 11
    cameraBuffer := ⟨some ⟨113, 213⟩⟩
    cameraBufferSize := 512
    activeInstancesBufferProps := ⟨some ⟨104, 204⟩⟩
    sbtStorage := ⟨some ⟨105, 205⟩⟩
    fovRadians := 0x42340000
    rtInstances := rt
    rasterBgInstances := bg
    rasterFgInstances := fg }

/-- A scene instance for concrete evaluations, given its bottom level structure, its
background flag and its two textures. -/
def sampleInstance (blas : Ptr) (background : Int) (diffuse normal : Ptr) : Instance :=
  ⟨⟨blas, 36, ⟨7000, 72⟩, ⟨8000, 576⟩⟩, ⟨[]⟩, ⟨background, 0, 0, []⟩, diffuse, normal⟩

/-- A math library instance for concrete evaluations that keeps track of how each
matrix was built: every function returns a list that starts with a tag of the function
(0 identity, 1 look-at, 2 perspective, 3 inverse, 4 product, 5 transpose) followed by
its arguments. -/
def tracingMath : DirectXMath where
  XMMatrixIdentity := ⟨[0]⟩
  XMMatrixLookAtRH := fun e f u => ⟨[1, e.x, e.y, e.z, f.x, f.y, f.z, u.x, u.y, u.z]⟩
  XMMatrixPerspectiveFovRH := fun fov aspect near far => ⟨[2, fov, aspect, near, far]⟩
  XMMatrixInverse := fun m => ⟨3 :: m.f⟩
  XMMatrixTranspose := fun m => ⟨5 :: m.f⟩
  XMMatrixMultiply := fun a b => ⟨4 :: (a.f ++ b.f)⟩
  greaterThanZero := fun x => decide (0 < x)

/-- The sample frame environment with the tracing math library. -/
def tracingEnv : Env := { sampleEnv [] with math := tracingMath }

/-- A device for concrete evaluations: an 800x600 window, the command list open, two
render targets, no pending barrier, no shader, the pipeline of the constructor built. -/
def sampleDevice : Device where
  d3dCommandListOpen := true
  d3dFenceValue := 2
  queue := []
  width := 800
  height := 600
  d3dSwapChain := 400
  d3dRtvHeap := 401
  d3dRtvDescriptorSize := 32
  d3dRenderTargets0 := 900
  d3dRenderTargets1 := 901
  d3dRenderTargetReadback := ⟨some ⟨114, 214⟩⟩
  d3dFrameIndex := 0
  lastCommandQueueBarrier := ⟨0, ResourceState.PRESENT, ResourceState.PRESENT⟩
  lastCommandQueueBarrierActive := false
  lastCopyQueueBarrier := ⟨0, ResourceState.PRESENT, ResourceState.PRESENT⟩
  lastCopyQueueBarrierActive := false
  shaders := []
  d3dRtStateObjectDirty := false
  pipelineBuilds := [[]]

/-- The answers of one `draw` for concrete evaluations: the window keeps its size, every
call succeeds, the scenes and inspectors record nothing, the swap chain moves to the
given back buffer. -/
def sampleFrameEnv (backBufferIndex : Nat) : FrameEnv where
  vsyncInterval := 1
  clientWidth := 800
  clientHeight := 600
  resizeBuffersResult := 0
  createRtvHeapResult := 0
  createdRtvHeap := 402
  rtvDescriptorSize := 32
  rtvHeapStart := fun h => h * 4096
  getBufferResult0 := 0
  swapChainBuffer0 := 902
  getBufferResult1 := 0
  swapChainBuffer1 := 903
  readbackRowWidth := 3328
  readbackAllocation := some ⟨115, 215⟩
  resizedBackBufferIndex := 0
  scenesResize := ([], Status.returned)
  scenesUpdate := ([], Status.returned)
  scenesRender := ([], Status.returned)
  inspectorsRender := ([], Status.returned)
  queryInterfaceResult := 0
  presentResult := 0
  backBufferIndex := backBufferIndex

/-- Resource states for concrete evaluations: the raster targets 206 and 207 are
shader-readable, the ray traced output 208 is a copy source, everything else is
presentable. -/
def sampleStates (resource : Ptr) : ResourceState :=
  if resource = 206 ∨ resource = 207 then ResourceState.NON_PIXEL_SHADER_RESOURCE
  else if resource = 208 then ResourceState.COPY_SOURCE
  else ResourceState.PRESENT

/-- A view for concrete evaluations, as the constructor and one `update` on a scene with
one ray traced instance leave it. -/
def sampleUpdatedView : View :=
  (View.update (sampleEnv [sampleInstance 5 0 11 0]) (View.new (sampleEnv []) sampleGpu).view
    sampleGpu).view

/-- A scene instance for concrete evaluations, given its bottom level structure, its
index count, its background flag and its two textures. -/
def sampleMeshInstance (blas : Ptr) (indexCount : Nat) (background : Int)
    (diffuse normal : Ptr) : Instance :=
  ⟨⟨blas, indexCount, ⟨7000, 72⟩, ⟨8000, 576⟩⟩, ⟨[]⟩, ⟨background, 0, 0, []⟩, diffuse, normal⟩

/-- A scene for concrete evaluations with no ray traced instance: one background
instance of 30 indices and one foreground instance of 24 indices. -/
def sampleRasterScene : List Instance :=
  [sampleMeshInstance 0 30 1 11 0, sampleMeshInstance 0 24 0 12 0]

/-- A scene for concrete evaluations with one instance for each bucket: a ray traced
instance of 36 indices, a background instance of 30 and a foreground instance of 24. -/
def sampleMixedScene : List Instance :=
  [sampleMeshInstance 5 36 0 11 0, sampleMeshInstance 0 30 1 12 0,
    sampleMeshInstance 0 24 0 13 0]

/-- The view the constructor and one `update` on the given scene leave, with every
allocation succeeding. -/
def sampleSceneView (scene : List Instance) : View :=
  (View.update (sampleEnv scene) (View.new (sampleEnv []) sampleGpu).view
    (View.new (sampleEnv []) sampleGpu).gpu).view

/-- The answers of one `draw` in which `Present` fails with
`DXGI_ERROR_DEVICE_REMOVED` (`0x887A0005` as a signed 32-bit value) and everything else
is as in the sample. -/
def sampleFailedPresentEnv : FrameEnv :=
  { sampleFrameEnv 1 with presentResult := -2005270523 }

end RT64

/-! # Verified properties -/

namespace RT64

namespace View

/-! ## The snapshot loop -/

theorem pushInstance_usedTextures (v : View) (inst : Instance) :
    (pushInstance v inst).usedTextures = (snapshotInstance v.usedTextures inst).2 := by
  unfold pushInstance
  simp only
  split_ifs <;> rfl

theorem pushInstance_rtInstances (v : View) (inst : Instance) :
    (pushInstance v inst).rtInstances
      = v.rtInstances ++ [(snapshotInstance v.usedTextures inst).1].filter inRayTracedBucket := by
  unfold pushInstance
  simp only
  split_ifs with h1 h2 <;> simp [inRayTracedBucket, h1]

theorem pushInstance_rasterBgInstances (v : View) (inst : Instance) :
    (pushInstance v inst).rasterBgInstances
      = v.rasterBgInstances
        ++ [(snapshotInstance v.usedTextures inst).1].filter inBackgroundBucket := by
  unfold pushInstance
  simp only
  split_ifs with h1 h2
  · simp [inBackgroundBucket, h1]
  · have h1' : (snapshotInstance v.usedTextures inst).1.bottomLevelAS = nullptr := not_not.mp h1
    simp [inBackgroundBucket, h1', h2]
  · have h1' : (snapshotInstance v.usedTextures inst).1.bottomLevelAS = nullptr := not_not.mp h1
    have h2' : (snapshotInstance v.usedTextures inst).1.material.background = 0 := not_not.mp h2
    simp [inBackgroundBucket, h1', h2']

theorem pushInstance_rasterFgInstances (v : View) (inst : Instance) :
    (pushInstance v inst).rasterFgInstances
      = v.rasterFgInstances
        ++ [(snapshotInstance v.usedTextures inst).1].filter inForegroundBucket := by
  unfold pushInstance
  simp only
  split_ifs with h1 h2
  · simp [inForegroundBucket, h1]
  · have h1' : (snapshotInstance v.usedTextures inst).1.bottomLevelAS = nullptr := not_not.mp h1
    simp [inForegroundBucket, h1', h2]
  · have h1' : (snapshotInstance v.usedTextures inst).1.bottomLevelAS = nullptr := not_not.mp h1
    have h2' : (snapshotInstance v.usedTextures inst).1.material.background = 0 := not_not.mp h2
    simp [inForegroundBucket, h1', h2']

/-- The loop extends each bucket by the snapshots that pass the test of that bucket, in
scene order. -/
theorem snapshotInstances_buckets (instances : List Instance) :
    ∀ v : View,
      (snapshotInstances v instances).rtInstances
          = v.rtInstances ++ (snapshots v.usedTextures instances).filter inRayTracedBucket
      ∧ (snapshotInstances v instances).rasterBgInstances
          = v.rasterBgInstances ++ (snapshots v.usedTextures instances).filter inBackgroundBucket
      ∧ (snapshotInstances v instances).rasterFgInstances
          = v.rasterFgInstances
            ++ (snapshots v.usedTextures instances).filter inForegroundBucket := by
  induction instances with
  | nil => intro v; simp [snapshotInstances, snapshots]
  | cons inst rest ih =>
    intro v
    have h := ih (pushInstance v inst)
    simp only [snapshotInstances, List.foldl_cons] at h ⊢
    rw [pushInstance_usedTextures, pushInstance_rtInstances, pushInstance_rasterBgInstances,
      pushInstance_rasterFgInstances] at h
    obtain ⟨h1, h2, h3⟩ := h
    refine ⟨?_, ?_, ?_⟩
    · rw [h1, snapshots, List.filter_cons, List.filter_cons]
      split_ifs <;> simp
    · rw [h2, snapshots, List.filter_cons, List.filter_cons]
      split_ifs <;> simp
    · rw [h3, snapshots, List.filter_cons, List.filter_cons]
      split_ifs <;> simp

theorem snapshots_length (instances : List Instance) :
    ∀ usedTextures : List Ptr, (snapshots usedTextures instances).length = instances.length := by
  induction instances with
  | nil => intro _; rfl
  | cons inst rest ih => intro u; simp [snapshots, ih]

/-- Exactly one bucket test holds of every snapshot. -/
theorem bucket_tests_exclusive (r : RenderInstance) :
    (inRayTracedBucket r = true ∧ inBackgroundBucket r = false ∧ inForegroundBucket r = false)
    ∨ (inRayTracedBucket r = false ∧ inBackgroundBucket r = true ∧ inForegroundBucket r = false)
    ∨ (inRayTracedBucket r = false ∧ inBackgroundBucket r = false
        ∧ inForegroundBucket r = true) := by
  unfold inRayTracedBucket inBackgroundBucket inForegroundBucket
  by_cases h1 : r.bottomLevelAS = nullptr <;> by_cases h2 : r.material.background = 0 <;>
    simp [h1, h2]

/-- Splitting a list by three tests of which exactly one holds of each element gives a
permutation of the list. -/
theorem filter3_perm {α : Type} (p q r : α → Bool)
    (h : ∀ a, (p a = true ∧ q a = false ∧ r a = false) ∨ (p a = false ∧ q a = true ∧ r a = false)
      ∨ (p a = false ∧ q a = false ∧ r a = true))
    (l : List α) : List.Perm (l.filter p ++ l.filter q ++ l.filter r) l := by
  induction l with
  | nil => simp
  | cons x rest ih =>
    rcases h x with ⟨a, b, c⟩ | ⟨a, b, c⟩ | ⟨a, b, c⟩
    · simp only [List.filter_cons, a, b, c, if_true, Bool.false_eq_true, if_false,
        List.cons_append]
      exact List.Perm.cons x ih
    · simp only [List.filter_cons, a, b, c, if_true, Bool.false_eq_true, if_false]
      refine List.Perm.trans ?_ (List.Perm.cons x ih)
      rw [List.append_assoc, List.append_assoc]
      refine List.Perm.trans List.perm_middle ?_
      simp
    · simp only [List.filter_cons, a, b, c, if_true, Bool.false_eq_true, if_false]
      refine List.Perm.trans ?_ (List.Perm.cons x ih)
      exact List.perm_middle

/-- Selecting the numbered elements of a list by a test on the element and dropping
the numbers is selecting the elements by the test. -/
theorem enum_filter_map_snd {α : Type} (p : α → Bool) (l : List α) :
    (l.enum.filter (fun x => p x.2)).map Prod.snd = l.filter p := by
  conv_rhs => rw [← List.enum_map_snd l]
  rw [List.filter_map]
  rfl

/-! ## Calls after the loop leave the buckets alone -/

theorem sameBuckets_refl (v : View) : sameBuckets v v := ⟨rfl, rfl, rfl, rfl⟩

theorem sameBuckets_trans {a b c : View} (h1 : sameBuckets a b) (h2 : sameBuckets b c) :
    sameBuckets a c :=
  ⟨h1.1.trans h2.1, h1.2.1.trans h2.2.1, h1.2.2.1.trans h2.2.2.1, h1.2.2.2.trans h2.2.2.2⟩

theorem andThen_sameBuckets (o : Outcome) (next : View → Gpu → Outcome)
    (h : ∀ v g, sameBuckets (next v g).view v) : sameBuckets (o.andThen next).view o.view := by
  unfold Outcome.andThen
  split
  · exact h _ _
  · exact sameBuckets_refl _

theorem createTopLevelAS_sameBuckets (env : Env) (rt : List RenderInstance) (v : View)
    (g : Gpu) : sameBuckets (createTopLevelAS env rt v g).view v := by
  unfold createTopLevelAS
  simp only
  split_ifs <;> exact ⟨rfl, rfl, rfl, rfl⟩

theorem createInstancePropertiesBuffer_sameBuckets (env : Env) (v : View) (g : Gpu) :
    sameBuckets (createInstancePropertiesBuffer env v g).view v := by
  unfold createInstancePropertiesBuffer
  simp only
  split_ifs <;> exact ⟨rfl, rfl, rfl, rfl⟩

theorem growDescriptorHeap_sameBuckets (env : Env) (v : View) (g : Gpu) :
    sameBuckets (growDescriptorHeap env v g).1 v := by
  unfold growDescriptorHeap
  simp only
  split_ifs <;> exact ⟨rfl, rfl, rfl, rfl⟩

theorem createShaderResourceHeap_sameBuckets (env : Env) (v : View) (g : Gpu) :
    sameBuckets (createShaderResourceHeap env v g).view v := by
  unfold createShaderResourceHeap
  simp only
  split_ifs
  all_goals first
    | exact sameBuckets_refl _
    | exact growDescriptorHeap_sameBuckets env v g

theorem createShaderBindingTable_sameBuckets (env : Env) (v : View) (g : Gpu) :
    sameBuckets (createShaderBindingTable env v g).view v := by
  unfold createShaderBindingTable
  simp only
  split_ifs <;> exact ⟨rfl, rfl, rfl, rfl⟩

theorem updateInstancePropertiesBuffer_sameBuckets (env : Env) (v : View) (g : Gpu) :
    sameBuckets (updateInstancePropertiesBuffer env v g).view v := by
  unfold updateInstancePropertiesBuffer
  simp only
  split_ifs <;> exact ⟨rfl, rfl, rfl, rfl⟩

theorem updateCameraBuffer_sameBuckets (env : Env) (v : View) (g : Gpu) :
    sameBuckets (updateCameraBuffer env v g).view v := by
  unfold updateCameraBuffer
  simp only
  split_ifs <;> exact ⟨rfl, rfl, rfl, rfl⟩

/-- The calls `update` makes after the top level structure leave the buckets alone. -/
theorem pipeline_sameBuckets (env : Env) (o : Outcome) :
    sameBuckets
      (((((o.andThen (createInstancePropertiesBuffer env)).andThen
        (createShaderResourceHeap env)).andThen
        (createShaderBindingTable env)).andThen
        (updateInstancePropertiesBuffer env)).andThen (updateCameraBuffer env)).view
      o.view :=
  sameBuckets_trans
    (andThen_sameBuckets _ _ (updateCameraBuffer_sameBuckets env))
    (sameBuckets_trans
      (andThen_sameBuckets _ _ (updateInstancePropertiesBuffer_sameBuckets env))
      (sameBuckets_trans
        (andThen_sameBuckets _ _ (createShaderBindingTable_sameBuckets env))
        (sameBuckets_trans
          (andThen_sameBuckets _ _ (createShaderResourceHeap_sameBuckets env))
          (andThen_sameBuckets _ _ (createInstancePropertiesBuffer_sameBuckets env)))))

/-! ## The buckets after `update` -/

/-- After `update`, however it ended, each bucket holds the snapshots of the scene
instances that pass the test of that bucket, in scene order. -/
theorem update_buckets (env : Env) (v : View) (g : Gpu) :
    (update env v g).view.rtInstances = (snapshots [] env.instances).filter inRayTracedBucket
    ∧ (update env v g).view.rasterBgInstances
        = (snapshots [] env.instances).filter inBackgroundBucket
    ∧ (update env v g).view.rasterFgInstances
        = (snapshots [] env.instances).filter inForegroundBucket := by
  have hscan := snapshotInstances_buckets env.instances (clearForSnapshot v)
  simp only [clearForSnapshot, List.nil_append] at hscan
  unfold update
  simp only
  split_ifs with hne hrt
  · have hall := sameBuckets_trans (pipeline_sameBuckets env
      (createTopLevelAS env (snapshotInstances (clearForSnapshot v) env.instances).rtInstances
        (snapshotInstances (clearForSnapshot v) env.instances) g))
      (createTopLevelAS_sameBuckets env _ _ g)
    exact ⟨hall.1.trans hscan.1, hall.2.1.trans hscan.2.1, hall.2.2.1.trans hscan.2.2⟩
  · have hall := pipeline_sameBuckets env
      ⟨snapshotInstances (clearForSnapshot v) env.instances, g, Status.returned⟩
    exact ⟨hall.1.trans hscan.1, hall.2.1.trans hscan.2.1, hall.2.2.1.trans hscan.2.2⟩
  · have hempty : env.instances = [] := by
      cases hi : env.instances with
      | nil => rfl
      | cons a l => simp [hi] at hne
    have hall := andThen_sameBuckets ⟨clearBuckets v, g, Status.returned⟩
      (updateCameraBuffer env) (updateCameraBuffer_sameBuckets env)
    rw [hempty]
    exact ⟨hall.1, hall.2.1, hall.2.2.1⟩

theorem snapshotInstance_fields (u : List Ptr) (inst : Instance) :
    (snapshotInstance u inst).1.bottomLevelAS = inst.mesh.bottomLevelASResult
    ∧ (snapshotInstance u inst).1.transform = inst.transform
    ∧ (snapshotInstance u inst).1.material.background = inst.material.background
    ∧ (snapshotInstance u inst).1.material.params = inst.material.params
    ∧ (snapshotInstance u inst).1.indexCount = inst.mesh.indexCount
    ∧ (snapshotInstance u inst).1.indexBufferView = inst.mesh.indexBufferView
    ∧ (snapshotInstance u inst).1.vertexBufferView = inst.mesh.vertexBufferView := by
  unfold snapshotInstance
  simp only
  split_ifs <;> exact ⟨rfl, rfl, rfl, rfl, rfl, rfl, rfl⟩

/-- Position `i` of the snapshot list is the snapshot of scene instance `i`. -/
theorem snapshots_getElem (instances : List Instance) :
    ∀ (u : List Ptr) (i : Nat) (inst : Instance), instances[i]? = some inst →
      ∃ u', (snapshots u instances)[i]? = some (snapshotInstance u' inst).1 := by
  induction instances with
  | nil => intro u i inst h; simp at h
  | cons a rest ih =>
    intro u i inst h
    cases i with
    | zero =>
      simp only [List.getElem?_cons_zero, Option.some.injEq] at h
      exact ⟨u, by simp [snapshots, h]⟩
    | succ j =>
      simp only [List.getElem?_cons_succ] at h
      obtain ⟨u', hu⟩ := ih (snapshotInstance u a).2 j inst h
      exact ⟨u', by simpa [snapshots] using hu⟩

/-- Selecting snapshots by a test on the scene instance they were taken from is the
same as selecting them by the matching test on the snapshot. -/
theorem zip_filter_snapshots (p : Instance → Bool) (q : RenderInstance → Bool)
    (hpq : ∀ u inst, q (snapshotInstance u inst).1 = p inst) (instances : List Instance) :
    ∀ u : List Ptr,
      ((instances.zip (snapshots u instances)).filter (fun x => p x.1)).map Prod.snd
        = (snapshots u instances).filter q := by
  induction instances with
  | nil => intro u; simp [snapshots]
  | cons a rest ih =>
    intro u
    simp only [snapshots, List.zip_cons_cons, List.filter_cons, hpq u a]
    split_ifs
    · simp [ih]
    · exact ih _

/-- C1: after `View::update`, for every scene instance list (empty or not) and however
the call ended, the three buckets partition the scene instances by position. Number the
snapshots the loop takes, one per scene position `0 .. n - 1`: each bucket is the
selection, in order, of the numbered snapshots that pass its test, and the three
selections put end to end are a rearrangement of the numbered list, so every position
is in exactly one bucket exactly once. Without the numbers: the bucket sizes add up to
the number of scene instances, the buckets put end to end are a rearrangement of the
snapshot list, and every snapshot is a member of exactly one bucket. -/
theorem update_buckets_partition (env : Env) (v : View) (g : Gpu) :
    (snapshots [] env.instances).length = env.instances.length
    ∧ (snapshots [] env.instances).enum.map Prod.fst = List.range env.instances.length
    ∧ (update env v g).view.rtInstances
        = ((snapshots [] env.instances).enum.filter
            (fun x => inRayTracedBucket x.2)).map Prod.snd
    ∧ (update env v g).view.rasterBgInstances
        = ((snapshots [] env.instances).enum.filter
            (fun x => inBackgroundBucket x.2)).map Prod.snd
    ∧ (update env v g).view.rasterFgInstances
        = ((snapshots [] env.instances).enum.filter
            (fun x => inForegroundBucket x.2)).map Prod.snd
    ∧ List.Perm
        ((snapshots [] env.instances).enum.filter (fun x => inRayTracedBucket x.2)
          ++ (snapshots [] env.instances).enum.filter (fun x => inBackgroundBucket x.2)
          ++ (snapshots [] env.instances).enum.filter (fun x => inForegroundBucket x.2))
        (snapshots [] env.instances).enum
    ∧ (update env v g).view.rtInstances.length + (update env v g).view.rasterBgInstances.length
        + (update env v g).view.rasterFgInstances.length = env.instances.length
    ∧ List.Perm
        ((update env v g).view.rtInstances ++ (update env v g).view.rasterBgInstances
          ++ (update env v g).view.rasterFgInstances)
        (snapshots [] env.instances)
    ∧ ∀ r, r ∈ snapshots [] env.instances →
        (r ∈ (update env v g).view.rtInstances ∧ r ∉ (update env v g).view.rasterBgInstances
          ∧ r ∉ (update env v g).view.rasterFgInstances)
        ∨ (r ∉ (update env v g).view.rtInstances ∧ r ∈ (update env v g).view.rasterBgInstances
          ∧ r ∉ (update env v g).view.rasterFgInstances)
        ∨ (r ∉ (update env v g).view.rtInstances ∧ r ∉ (update env v g).view.rasterBgInstances
          ∧ r ∈ (update env v g).view.rasterFgInstances) := by
  obtain ⟨h1, h2, h3⟩ := update_buckets env v g
  have hperm := filter3_perm inRayTracedBucket inBackgroundBucket inForegroundBucket
    bucket_tests_exclusive (snapshots [] env.instances)
  have hpermE := filter3_perm (fun x : Nat × RenderInstance => inRayTracedBucket x.2)
    (fun x => inBackgroundBucket x.2) (fun x => inForegroundBucket x.2)
    (fun x => bucket_tests_exclusive x.2) (snapshots [] env.instances).enum
  rw [h1, h2, h3, enum_filter_map_snd, enum_filter_map_snd, enum_filter_map_snd,
    List.enum_map_fst, snapshots_length]
  refine ⟨rfl, rfl, rfl, rfl, rfl, hpermE, ?_, hperm, ?_⟩
  · have hl := hperm.length_eq
    simp only [List.length_append] at hl
    rw [hl, snapshots_length]
  · intro r hr
    simp only [List.mem_filter, hr, true_and]
    rcases bucket_tests_exclusive r with ⟨a, b, c⟩ | ⟨a, b, c⟩ | ⟨a, b, c⟩ <;> simp [a, b, c]

/-- C2: after `View::update`, each bucket is the order-preserving selection from the scene
list: pairing every scene instance with the snapshot taken of it, `rtInstances` is the
snapshots of the instances whose mesh has a non-null bottom level structure,
`rasterBgInstances` those with a null structure and a set background flag,
`rasterFgInstances` those with a null structure and an unset flag; the snapshot at
position `i` carries the mesh data, transform and background flag of scene instance `i`.
This holds for every scene instance list, the non-empty ones included. -/
theorem update_buckets_filter (env : Env) (v : View) (g : Gpu) :
    (update env v g).view.rtInstances
      = ((env.instances.zip (snapshots [] env.instances)).filter
          (fun x => decide (x.1.mesh.bottomLevelASResult ≠ nullptr))).map Prod.snd
    ∧ (update env v g).view.rasterBgInstances
      = ((env.instances.zip (snapshots [] env.instances)).filter
          (fun x => decide (x.1.mesh.bottomLevelASResult = nullptr)
            && decide (x.1.material.background ≠ 0))).map Prod.snd
    ∧ (update env v g).view.rasterFgInstances
      = ((env.instances.zip (snapshots [] env.instances)).filter
          (fun x => decide (x.1.mesh.bottomLevelASResult = nullptr)
            && decide (x.1.material.background = 0))).map Prod.snd
    ∧ (snapshots [] env.instances).length = env.instances.length
    ∧ ∀ (i : Nat) (inst : Instance), env.instances[i]? = some inst →
        ∃ r, (snapshots [] env.instances)[i]? = some r
          ∧ r.bottomLevelAS = inst.mesh.bottomLevelASResult
          ∧ r.transform = inst.transform
          ∧ r.material.background = inst.material.background
          ∧ r.indexCount = inst.mesh.indexCount
          ∧ r.indexBufferView = inst.mesh.indexBufferView
          ∧ r.vertexBufferView = inst.mesh.vertexBufferView := by
  obtain ⟨h1, h2, h3⟩ := update_buckets env v g
  refine ⟨?_, ?_, ?_, snapshots_length _ _, ?_⟩
  · rw [h1]
    refine (zip_filter_snapshots
      (fun x => decide (x.mesh.bottomLevelASResult ≠ nullptr)) inRayTracedBucket ?_ _ _).symm
    intro u inst
    simp [inRayTracedBucket, (snapshotInstance_fields u inst).1]
  · rw [h2]
    refine (zip_filter_snapshots
      (fun x => decide (x.mesh.bottomLevelASResult = nullptr)
        && decide (x.material.background ≠ 0)) inBackgroundBucket ?_ _ _).symm
    intro u inst
    simp [inBackgroundBucket, (snapshotInstance_fields u inst).1,
      (snapshotInstance_fields u inst).2.2.1]
  · rw [h3]
    refine (zip_filter_snapshots
      (fun x => decide (x.mesh.bottomLevelASResult = nullptr)
        && decide (x.material.background = 0)) inForegroundBucket ?_ _ _).symm
    intro u inst
    simp [inForegroundBucket, (snapshotInstance_fields u inst).1,
      (snapshotInstance_fields u inst).2.2.1]
  · intro i inst hi
    obtain ⟨u', hu⟩ := snapshots_getElem env.instances [] i inst hi
    have hf := snapshotInstance_fields u' inst
    exact ⟨_, hu, hf.1, hf.2.1, hf.2.2.1, hf.2.2.2.2.1, hf.2.2.2.2.2.1, hf.2.2.2.2.2.2⟩

/-! ## The instance properties buffer -/

theorem foldl_writeRasterInstance (l : List RenderInstance) :
    ∀ c : Cursor,
      (l.foldl writeRasterInstance c).current = c.current + l.length
      ∧ (∀ k, k < c.current → (l.foldl writeRasterInstance c).mem k = c.mem k)
      ∧ (∀ k, c.current + l.length ≤ k → (l.foldl writeRasterInstance c).mem k = c.mem k)
      ∧ (∀ j r, l[j]? = some r →
          (l.foldl writeRasterInstance c).mem (c.current + j)
            = { c.mem (c.current + j) with material := r.material }) := by
  induction l with
  | nil =>
    intro c
    refine ⟨rfl, fun _ _ => rfl, fun _ _ => rfl, ?_⟩
    intro j r h
    simp at h
  | cons a rest ih =>
    intro c
    obtain ⟨h1, h2, h3, h4⟩ := ih (writeRasterInstance c a)
    have hc : (writeRasterInstance c a).current = c.current + 1 := rfl
    have hm : ∀ k, k ≠ c.current → (writeRasterInstance c a).mem k = c.mem k := by
      intro k hk
      simp [writeRasterInstance, Function.update, hk]
    have hm0 : (writeRasterInstance c a).mem c.current
        = { c.mem c.current with material := a.material } := by
      simp [writeRasterInstance, Function.update]
    simp only [List.foldl_cons, List.length_cons]
    refine ⟨by rw [h1, hc]; omega, ?_, ?_, ?_⟩
    · intro k hk
      rw [h2 k (by rw [hc]; omega), hm k (by omega)]
    · intro k hk
      rw [h3 k (by rw [hc]; omega), hm k (by omega)]
    · intro j r hj
      cases j with
      | zero =>
        simp only [List.getElem?_cons_zero, Option.some.injEq] at hj
        rw [Nat.add_zero, h2 c.current (by rw [hc]; omega), hm0, hj]
      | succ i =>
        simp only [List.getElem?_cons_succ] at hj
        have h := h4 i r hj
        rw [hc] at h
        have e : c.current + 1 + i = c.current + (i + 1) := by omega
        rw [e] at h
        rw [h, hm _ (by omega)]

theorem foldl_writeRtInstance (math : DirectXMath) (l : List RenderInstance) :
    ∀ c : Cursor,
      (l.foldl (writeRtInstance math) c).current = c.current + l.length
      ∧ (∀ k, k < c.current → (l.foldl (writeRtInstance math) c).mem k = c.mem k)
      ∧ (∀ k, c.current + l.length ≤ k → (l.foldl (writeRtInstance math) c).mem k = c.mem k)
      ∧ (∀ j r, l[j]? = some r →
          (l.foldl (writeRtInstance math) c).mem (c.current + j)
            = ⟨r.transform,
               math.XMMatrixTranspose (math.XMMatrixInverse (upper3x3 r.transform)),
               r.material⟩) := by
  induction l with
  | nil =>
    intro c
    refine ⟨rfl, fun _ _ => rfl, fun _ _ => rfl, ?_⟩
    intro j r h
    simp at h
  | cons a rest ih =>
    intro c
    obtain ⟨h1, h2, h3, h4⟩ := ih (writeRtInstance math c a)
    have hc : (writeRtInstance math c a).current = c.current + 1 := rfl
    have hm : ∀ k, k ≠ c.current → (writeRtInstance math c a).mem k = c.mem k := by
      intro k hk
      simp [writeRtInstance, Function.update, hk]
    have hm0 : (writeRtInstance math c a).mem c.current
        = ⟨a.transform, math.XMMatrixTranspose (math.XMMatrixInverse (upper3x3 a.transform)),
            a.material⟩ := by
      simp [writeRtInstance, Function.update]
    simp only [List.foldl_cons, List.length_cons]
    refine ⟨by rw [h1, hc]; omega, ?_, ?_, ?_⟩
    · intro k hk
      rw [h2 k (by rw [hc]; omega), hm k (by omega)]
    · intro k hk
      rw [h3 k (by rw [hc]; omega), hm k (by omega)]
    · intro j r hj
      cases j with
      | zero =>
        simp only [List.getElem?_cons_zero, Option.some.injEq] at hj
        rw [Nat.add_zero, h2 c.current (by rw [hc]; omega), hm0, hj]
      | succ i =>
        simp only [List.getElem?_cons_succ] at hj
        have h := h4 i r hj
        rw [hc] at h
        have e : c.current + 1 + i = c.current + (i + 1) := by omega
        rw [e] at h
        exact h

/-- What the three loops of `updateInstancePropertiesBuffer` leave in the buffer. -/
theorem writeInstanceProperties_spec (math : DirectXMath) (v : View)
    (mem : Nat → InstanceProperties) :
    (writeInstanceProperties math v mem).current
        = v.rtInstances.length + v.rasterBgInstances.length + v.rasterFgInstances.length
    ∧ (∀ j r, v.rtInstances[j]? = some r →
        (writeInstanceProperties math v mem).mem j
          = ⟨r.transform, math.XMMatrixTranspose (math.XMMatrixInverse (upper3x3 r.transform)),
             r.material⟩)
    ∧ (∀ j r, v.rasterBgInstances[j]? = some r →
        (writeInstanceProperties math v mem).mem (v.rtInstances.length + j)
          = { mem (v.rtInstances.length + j) with material := r.material })
    ∧ (∀ j r, v.rasterFgInstances[j]? = some r →
        (writeInstanceProperties math v mem).mem
            (v.rtInstances.length + v.rasterBgInstances.length + j)
          = { mem (v.rtInstances.length + v.rasterBgInstances.length + j) with
              material := r.material })
    ∧ (∀ k, v.rtInstances.length + v.rasterBgInstances.length + v.rasterFgInstances.length ≤ k →
        (writeInstanceProperties math v mem).mem k = mem k) := by
  obtain ⟨a1, a2, a3, a4⟩ := foldl_writeRtInstance math v.rtInstances ⟨mem, 0⟩
  obtain ⟨b1, b2, b3, b4⟩ := foldl_writeRasterInstance v.rasterBgInstances
    (v.rtInstances.foldl (writeRtInstance math) ⟨mem, 0⟩)
  obtain ⟨c1, c2, c3, c4⟩ := foldl_writeRasterInstance v.rasterFgInstances
    (v.rasterBgInstances.foldl writeRasterInstance
      (v.rtInstances.foldl (writeRtInstance math) ⟨mem, 0⟩))
  simp only [Nat.zero_add] at a1 a3 a4
  rw [a1] at b1 b2 b3 b4
  rw [b1] at c1 c2 c3 c4
  unfold writeInstanceProperties
  simp only
  refine ⟨c1, ?_, ?_, ?_, ?_⟩
  · intro j r hj
    have hlt : j < v.rtInstances.length := (List.getElem?_eq_some_iff.mp hj).1
    rw [c2 j (by omega), b2 j hlt, a4 j r hj]
  · intro j r hj
    have hlt : j < v.rasterBgInstances.length := (List.getElem?_eq_some_iff.mp hj).1
    rw [c2 _ (by omega), b4 j r hj, a3 _ (by omega)]
  · intro j r hj
    rw [c4 j r hj, b3 _ (by omega), a3 _ (by omega)]
  · intro k hk
    rw [c3 k hk, b3 k (by omega), a3 k (by omega)]

/-- Position `k` of `rt ++ bg ++ fg` lies in exactly one of the three lists. -/
theorem getElem?_append3 (rt bg fg : List RenderInstance) (k : Nat) (r : RenderInstance)
    (h : (rt ++ bg ++ fg)[k]? = some r) :
    (k < rt.length ∧ rt[k]? = some r)
    ∨ (∃ j, k = rt.length + j ∧ bg[j]? = some r)
    ∨ (∃ j, k = rt.length + bg.length + j ∧ fg[j]? = some r) := by
  by_cases h1 : k < rt.length
  · left
    rw [List.append_assoc, List.getElem?_append_left h1] at h
    exact ⟨h1, h⟩
  · right
    by_cases h2 : k < rt.length + bg.length
    · left
      have h12 : k < (rt ++ bg).length := by rw [List.length_append]; exact h2
      rw [List.getElem?_append_left h12, List.getElem?_append_right (by omega)] at h
      exact ⟨k - rt.length, by omega, h⟩
    · right
      rw [List.getElem?_append_right (by rw [List.length_append]; omega),
        List.length_append] at h
      exact ⟨k - (rt.length + bg.length), by omega, h⟩

/-- C3: when the instance properties buffer is allocated and its `Map` succeeds,
`updateInstancePropertiesBuffer` returns having written exactly
`|rt| + |bg| + |fg|` records: the cursor ends at that count, record `k` holds the
material of element `k` of `rtInstances ++ rasterBgInstances ++ rasterFgInstances`, the
first `|rt|` records also hold the world transform of their instance, the raster records
keep the transform fields they had, and every record from the count on is untouched. -/
theorem updateInstancePropertiesBuffer_records (env : Env) (v : View) (g : Gpu)
    (hbuf : v.activeInstancesBufferProps.Get ≠ nullptr)
    (hmap : FAILED env.mapPropsResult = false) :
    (updateInstancePropertiesBuffer env v g).status = Status.returned
    ∧ (writeInstanceProperties env.math v (g.propsMem v.activeInstancesBufferProps.Get)).current
        = v.rtInstances.length + v.rasterBgInstances.length + v.rasterFgInstances.length
    ∧ (∀ k r, (v.rtInstances ++ v.rasterBgInstances ++ v.rasterFgInstances)[k]? = some r →
        ((updateInstancePropertiesBuffer env v g).gpu.propsMem
          v.activeInstancesBufferProps.Get k).material = r.material)
    ∧ (∀ k r, v.rtInstances[k]? = some r →
        ((updateInstancePropertiesBuffer env v g).gpu.propsMem
          v.activeInstancesBufferProps.Get k).objectToWorld = r.transform)
    ∧ (∀ k, v.rtInstances.length ≤ k →
        ((updateInstancePropertiesBuffer env v g).gpu.propsMem
            v.activeInstancesBufferProps.Get k).objectToWorld
          = (g.propsMem v.activeInstancesBufferProps.Get k).objectToWorld
        ∧ ((updateInstancePropertiesBuffer env v g).gpu.propsMem
            v.activeInstancesBufferProps.Get k).objectToWorldNormal
          = (g.propsMem v.activeInstancesBufferProps.Get k).objectToWorldNormal)
    ∧ (∀ k, v.rtInstances.length + v.rasterBgInstances.length + v.rasterFgInstances.length ≤ k →
        (updateInstancePropertiesBuffer env v g).gpu.propsMem v.activeInstancesBufferProps.Get k
          = g.propsMem v.activeInstancesBufferProps.Get k) := by
  obtain ⟨s1, s2, s3, s4, s5⟩ :=
    writeInstanceProperties_spec env.math v (g.propsMem v.activeInstancesBufferProps.Get)
  have hmem : (updateInstancePropertiesBuffer env v g).gpu.propsMem
      v.activeInstancesBufferProps.Get
      = (writeInstanceProperties env.math v (g.propsMem v.activeInstancesBufferProps.Get)).mem := by
    unfold updateInstancePropertiesBuffer
    simp [hbuf, hmap]
  have hst : (updateInstancePropertiesBuffer env v g).status = Status.returned := by
    unfold updateInstancePropertiesBuffer
    simp [hbuf, hmap]
  rw [hmem]
  refine ⟨hst, s1, ?_, ?_, ?_, s5⟩
  · intro k r hk
    rcases getElem?_append3 _ _ _ k r hk with ⟨_, h⟩ | ⟨j, hj, h⟩ | ⟨j, hj, h⟩
    · rw [s2 k r h]
    · rw [hj, s3 j r h]
    · rw [hj, s4 j r h]
  · intro k r hk
    rw [s2 k r hk]
  · intro k hk
    by_cases h2 : k < v.rtInstances.length + v.rasterBgInstances.length
    · obtain ⟨r, hr⟩ : ∃ r, v.rasterBgInstances[k - v.rtInstances.length]? = some r :=
        ⟨_, List.getElem?_eq_getElem (by omega)⟩
      have h := s3 _ r hr
      rw [show v.rtInstances.length + (k - v.rtInstances.length) = k by omega] at h
      rw [h]
      exact ⟨rfl, rfl⟩
    · by_cases h3 : k < v.rtInstances.length + v.rasterBgInstances.length
          + v.rasterFgInstances.length
      · obtain ⟨r, hr⟩ : ∃ r, v.rasterFgInstances[k - (v.rtInstances.length
            + v.rasterBgInstances.length)]? = some r :=
          ⟨_, List.getElem?_eq_getElem (by omega)⟩
        have h := s4 _ r hr
        rw [show v.rtInstances.length + v.rasterBgInstances.length
          + (k - (v.rtInstances.length + v.rasterBgInstances.length)) = k by omega] at h
        rw [h]
        exact ⟨rfl, rfl⟩
      · rw [s5 k (by omega)]
        exact ⟨rfl, rfl⟩

/-- Witness of C3: a view with one ray traced, one background and one foreground
snapshot; the call returns and record 1 holds the material of the background snapshot. -/
theorem updateInstancePropertiesBuffer_records_witness :
    (sampleView [sampleRenderInstance 5 0 0 36] [sampleRenderInstance 0 1 1 30]
        [sampleRenderInstance 0 0 2 24]).activeInstancesBufferProps.Get ≠ nullptr
    ∧ FAILED (sampleEnv []).mapPropsResult = false
    ∧ (updateInstancePropertiesBuffer (sampleEnv [])
        (sampleView [sampleRenderInstance 5 0 0 36] [sampleRenderInstance 0 1 1 30]
          [sampleRenderInstance 0 0 2 24]) sampleGpu).status = Status.returned
    ∧ ((updateInstancePropertiesBuffer (sampleEnv [])
        (sampleView [sampleRenderInstance 5 0 0 36] [sampleRenderInstance 0 1 1 30]
          [sampleRenderInstance 0 0 2 24]) sampleGpu).gpu.propsMem 204 1).material
        = (sampleRenderInstance 0 1 1 30).material :=
  ⟨by decide, by decide,
    (updateInstancePropertiesBuffer_records (sampleEnv [])
      (sampleView [sampleRenderInstance 5 0 0 36] [sampleRenderInstance 0 1 1 30]
        [sampleRenderInstance 0 0 2 24]) sampleGpu (by decide) (by decide)).1,
    (updateInstancePropertiesBuffer_records (sampleEnv [])
      (sampleView [sampleRenderInstance 5 0 0 36] [sampleRenderInstance 0 1 1 30]
        [sampleRenderInstance 0 0 2 24]) sampleGpu (by decide) (by decide)).2.2.1 1
      (sampleRenderInstance 0 1 1 30) rfl⟩

/-! ## The commands recorded by `render` -/

theorem emit_log (g : Gpu) (es : List Event) : (g.emit es).log = g.log ++ es := rfl

theorem rootConstants_append (a b : List Event) :
    rootConstants (a ++ b) = rootConstants a ++ rootConstants b := by
  induction a with
  | nil => rfl
  | cons e rest ih =>
    cases e with
    | Record c => cases c <;> simp [rootConstants, ih]
    | _ => simp [rootConstants, ih]

theorem drawsWithConstant_append (a b : List Event) :
    ∀ last, drawsWithConstant (a ++ b) last
      = drawsWithConstant a last ++ drawsWithConstant b (lastConstant a last) := by
  induction a with
  | nil => intro last; rfl
  | cons e rest ih =>
    intro last
    cases e with
    | Record c => cases c <;> simp [drawsWithConstant, lastConstant, ih]
    | _ => simp [drawsWithConstant, lastConstant, ih]

theorem drawInstances_log (l : List RenderInstance) :
    ∀ (start : Nat) (g : Gpu),
      (drawInstances l (start % 2 ^ 32) g).1.log = g.log ++ drawEvents l start
      ∧ (drawInstances l (start % 2 ^ 32) g).2 = (start + l.length) % 2 ^ 32 := by
  induction l with
  | nil => intro start g; simp [drawInstances, drawEvents]
  | cons r rest ih =>
    intro start g
    have e : toUINT (start % 2 ^ 32 + 1) = (start + 1) % 2 ^ 32 := by
      unfold toUINT
      omega
    simp only [drawInstances, e, drawEvents, List.length_cons]
    obtain ⟨h1, h2⟩ := ih (start + 1)
      (g.emit [Event.Record (Cmd.SetGraphicsRoot32BitConstant 0 (start % 2 ^ 32) 0),
        Event.Record (Cmd.IASetVertexBuffers r.vertexBufferView),
        Event.Record (Cmd.IASetIndexBuffer r.indexBufferView),
        Event.Record (Cmd.DrawIndexedInstanced r.indexCount)])
    refine ⟨?_, ?_⟩
    · rw [h1, emit_log, List.append_assoc]
    · rw [h2]
      congr 1
      omega

theorem rootConstants_drawEvents (l : List RenderInstance) :
    ∀ start, rootConstants (drawEvents l start)
      = (List.range' start l.length).map (fun c => c % 2 ^ 32) := by
  induction l with
  | nil => intro start; rfl
  | cons r rest ih =>
    intro start
    simp [drawEvents, rootConstants, ih, List.range'_succ]

theorem drawsWithConstant_drawEvents (l : List RenderInstance) :
    ∀ start last,
      (∀ j r, l[j]? = some r →
        (drawsWithConstant (drawEvents l start) last)[j]?
          = some ((start + j) % 2 ^ 32, r.indexCount))
      ∧ (drawsWithConstant (drawEvents l start) last).length = l.length := by
  induction l with
  | nil =>
    intro start last
    refine ⟨?_, rfl⟩
    intro j r h
    simp at h
  | cons a rest ih =>
    intro start last
    obtain ⟨h1, h2⟩ := ih (start + 1) (start % 2 ^ 32)
    have e : drawsWithConstant (drawEvents (a :: rest) start) last
        = (start % 2 ^ 32, a.indexCount)
          :: drawsWithConstant (drawEvents rest (start + 1)) (start % 2 ^ 32) := by
      simp [drawEvents, drawsWithConstant]
    rw [e]
    refine ⟨?_, by rw [List.length_cons, h2, List.length_cons]⟩
    intro j r hj
    cases j with
    | zero =>
      simp only [List.getElem?_cons_zero, Option.some.injEq] at hj
      simp [hj]
    | succ i =>
      simp only [List.getElem?_cons_succ] at hj ⊢
      rw [h1 i r hj]
      congr 2
      omega

theorem rasterize_log (v : View) (g : Gpu) (hrtv0 : v.rasterRtvHeaps0 ≠ nullptr)
    (hrtv1 : v.rasterRtvHeaps1 ≠ nullptr) :
    (rasterize v g).1.log = g.log ++ rasterEvents v ∧ (rasterize v g).2 = true := by
  have h0 : ¬ v.rasterRtvHeaps0 = nullptr := hrtv0
  have h1 : ¬ v.rasterRtvHeaps1 = nullptr := hrtv1
  unfold rasterize rasterPass rasterEvents toUINT
  simp only [h0, h1, if_false]
  refine ⟨?_, trivial⟩
  obtain ⟨a1, a2⟩ := drawInstances_log v.rasterBgInstances v.rtInstances.length
    ((g.emit [Event.Record (Cmd.ResourceBarrier
      [⟨v.rasterResources0.Get, ResourceState.NON_PIXEL_SHADER_RESOURCE,
          ResourceState.RENDER_TARGET⟩,
       ⟨v.rasterResources1.Get, ResourceState.NON_PIXEL_SHADER_RESOURCE,
          ResourceState.RENDER_TARGET⟩])]).emit
      [Event.Record (Cmd.OMSetRenderTargets v.rasterRtvHeaps0),
        Event.Record (Cmd.ClearRenderTargetView v.rasterRtvHeaps0),
        Event.Record Cmd.IASetPrimitiveTopology])
  rw [a2]
  obtain ⟨b1, _⟩ := drawInstances_log v.rasterFgInstances
    (v.rtInstances.length + v.rasterBgInstances.length)
    ((drawInstances v.rasterBgInstances (v.rtInstances.length % 2 ^ 32)
      ((g.emit [Event.Record (Cmd.ResourceBarrier
        [⟨v.rasterResources0.Get, ResourceState.NON_PIXEL_SHADER_RESOURCE,
            ResourceState.RENDER_TARGET⟩,
         ⟨v.rasterResources1.Get, ResourceState.NON_PIXEL_SHADER_RESOURCE,
            ResourceState.RENDER_TARGET⟩])]).emit
        [Event.Record (Cmd.OMSetRenderTargets v.rasterRtvHeaps0),
          Event.Record (Cmd.ClearRenderTargetView v.rasterRtvHeaps0),
          Event.Record Cmd.IASetPrimitiveTopology])).1.emit
      [Event.Record (Cmd.OMSetRenderTargets v.rasterRtvHeaps1),
        Event.Record (Cmd.ClearRenderTargetView v.rasterRtvHeaps1),
        Event.Record Cmd.IASetPrimitiveTopology])
  rw [emit_log, b1, emit_log, a1, emit_log, emit_log]
  simp only [List.append_assoc]

/-- With a descriptor heap, `render` appends its head, the rasterization events and its
tail to the log. -/
theorem render_log (env : Env) (v : View) (g : Gpu) (hheap : v.descriptorHeap ≠ nullptr)
    (hrtv0 : v.rasterRtvHeaps0 ≠ nullptr) (hrtv1 : v.rasterRtvHeaps1 ≠ nullptr) :
    (render env v g).gpu.log
      = g.log ++ (renderHead env v ++ rasterEvents v ++ renderTail env v) := by
  unfold render copyToRenderTarget renderHead renderTail
  simp only [hheap, if_false]
  have hr := fun g0 => rasterize_log v g0 hrtv0 hrtv1
  simp only [(hr _).2, Bool.true_eq_false, if_false]
  split_ifs <;> simp [emit_log, (hr _).1, List.append_assoc]

theorem recorded_render (env : Env) (v : View) (g : Gpu) (hheap : v.descriptorHeap ≠ nullptr)
    (hrtv0 : v.rasterRtvHeaps0 ≠ nullptr) (hrtv1 : v.rasterRtvHeaps1 ≠ nullptr) :
    recorded g (render env v g) = renderHead env v ++ rasterEvents v ++ renderTail env v := by
  unfold recorded
  rw [render_log env v g hheap hrtv0 hrtv1, List.drop_left]

theorem renderTail_quiet (env : Env) (v : View) :
    rootConstants (renderTail env v) = []
    ∧ ∀ last, drawsWithConstant (renderTail env v) last = [] := by
  unfold renderTail
  split_ifs <;> exact ⟨rfl, fun _ => rfl⟩

/-- The root constants `render` records: the 32-bit values of `|rt|`, `|rt| + 1`, ... for
the background bucket, then those of `|rt| + |bg|`, ... for the foreground bucket. -/
theorem render_rootConstants (env : Env) (v : View) (g : Gpu)
    (hheap : v.descriptorHeap ≠ nullptr)
    (hrtv0 : v.rasterRtvHeaps0 ≠ nullptr) (hrtv1 : v.rasterRtvHeaps1 ≠ nullptr) :
    rootConstants (recorded g (render env v g))
      = (List.range' v.rtInstances.length v.rasterBgInstances.length).map (fun c => c % 2 ^ 32)
        ++ (List.range' (v.rtInstances.length + v.rasterBgInstances.length)
            v.rasterFgInstances.length).map (fun c => c % 2 ^ 32) := by
  rw [recorded_render env v g hheap hrtv0 hrtv1]
  simp only [rootConstants_append, (renderTail_quiet env v).1, rasterEvents, renderHead,
    rootConstants_drawEvents, List.append_nil]
  simp [rootConstants]

/-- The draws `render` records, with the root constant in force at each: those of the
background bucket first, then those of the foreground bucket. -/
theorem render_draws (env : Env) (v : View) (g : Gpu) (last : Nat)
    (hheap : v.descriptorHeap ≠ nullptr)
    (hrtv0 : v.rasterRtvHeaps0 ≠ nullptr) (hrtv1 : v.rasterRtvHeaps1 ≠ nullptr) :
    (∀ j r, v.rasterBgInstances[j]? = some r →
      (drawsWithConstant (recorded g (render env v g)) last)[j]?
        = some ((v.rtInstances.length + j) % 2 ^ 32, r.indexCount))
    ∧ (∀ j r, v.rasterFgInstances[j]? = some r →
      (drawsWithConstant (recorded g (render env v g)) last)[v.rasterBgInstances.length + j]?
        = some ((v.rtInstances.length + v.rasterBgInstances.length + j) % 2 ^ 32,
            r.indexCount)) := by
  have e : ∃ l2, drawsWithConstant (recorded g (render env v g)) last
      = drawsWithConstant (drawEvents v.rasterBgInstances v.rtInstances.length) last
        ++ drawsWithConstant (drawEvents v.rasterFgInstances
            (v.rtInstances.length + v.rasterBgInstances.length)) l2 := by
    refine ⟨lastConstant (drawEvents v.rasterBgInstances v.rtInstances.length) last, ?_⟩
    rw [recorded_render env v g hheap hrtv0 hrtv1]
    simp only [drawsWithConstant_append, (renderTail_quiet env v).2, rasterEvents, renderHead,
      List.append_nil]
    simp [drawsWithConstant, lastConstant]
  obtain ⟨l2, he⟩ := e
  rw [he]
  obtain ⟨b1, b2⟩ := drawsWithConstant_drawEvents v.rasterBgInstances v.rtInstances.length last
  obtain ⟨f1, _⟩ := drawsWithConstant_drawEvents v.rasterFgInstances
    (v.rtInstances.length + v.rasterBgInstances.length) l2
  refine ⟨?_, ?_⟩
  · intro j r hj
    have hlt : j < v.rasterBgInstances.length := (List.getElem?_eq_some_iff.mp hj).1
    rw [List.getElem?_append_left (by rw [b2]; exact hlt)]
    exact b1 j r hj
  · intro j r hj
    rw [List.getElem?_append_right (by rw [b2]; omega), b2]
    rw [show v.rasterBgInstances.length + j - v.rasterBgInstances.length = j by omega]
    exact f1 j r hj

theorem recorded_render_null (env : Env) (v : View) (g : Gpu)
    (hheap : v.descriptorHeap = nullptr) : recorded g (render env v g) = [] := by
  unfold recorded render
  simp [hheap]

theorem map_mod_range' (start n : Nat) (h : start + n ≤ 2 ^ 32) :
    (List.range' start n).map (fun c => c % 2 ^ 32) = List.range' start n := by
  conv_rhs => rw [← List.map_id (List.range' start n)]
  apply List.map_congr_left
  intro c hc
  rw [List.mem_range'_1] at hc
  exact Nat.mod_eq_of_lt (by omega)

theorem updateInstancePropertiesBuffer_mem (env : Env) (v : View) (g : Gpu)
    (hbuf : v.activeInstancesBufferProps.Get ≠ nullptr)
    (hmap : FAILED env.mapPropsResult = false) :
    (updateInstancePropertiesBuffer env v g).gpu.propsMem v.activeInstancesBufferProps.Get
      = (writeInstanceProperties env.math v
          (g.propsMem v.activeInstancesBufferProps.Get)).mem := by
  unfold updateInstancePropertiesBuffer
  simp [hbuf, hmap]

/-- With a descriptor heap and a null view heap for the first raster target, `render`
stops in the first turn of its loop, after the head commands and the first barrier. -/
theorem render_null_rtv0 (env : Env) (v : View) (g : Gpu) (hheap : v.descriptorHeap ≠ nullptr)
    (hrtv0 : v.rasterRtvHeaps0 = nullptr) :
    (render env v g).status = Status.crashed
    ∧ (render env v g).gpu.log = g.log ++ (renderHead env v
        ++ [Event.Record (Cmd.ResourceBarrier
            [⟨v.rasterResources0.Get, ResourceState.NON_PIXEL_SHADER_RESOURCE,
                ResourceState.RENDER_TARGET⟩,
             ⟨v.rasterResources1.Get, ResourceState.NON_PIXEL_SHADER_RESOURCE,
                ResourceState.RENDER_TARGET⟩])]) := by
  unfold render rasterize rasterPass renderHead
  simp [hheap, hrtv0, emit_log]

/-- With a descriptor heap, a view heap for the first raster target and a null view
heap for the second, `render` stops in the second turn of its loop, after the draws of
the background bucket. -/
theorem render_null_rtv1 (env : Env) (v : View) (g : Gpu) (hheap : v.descriptorHeap ≠ nullptr)
    (hrtv0 : v.rasterRtvHeaps0 ≠ nullptr) (hrtv1 : v.rasterRtvHeaps1 = nullptr) :
    (render env v g).status = Status.crashed
    ∧ (render env v g).gpu.log = g.log ++ (renderHead env v
        ++ [Event.Record (Cmd.ResourceBarrier
            [⟨v.rasterResources0.Get, ResourceState.NON_PIXEL_SHADER_RESOURCE,
                ResourceState.RENDER_TARGET⟩,
             ⟨v.rasterResources1.Get, ResourceState.NON_PIXEL_SHADER_RESOURCE,
                ResourceState.RENDER_TARGET⟩])]
        ++ [Event.Record (Cmd.OMSetRenderTargets v.rasterRtvHeaps0),
            Event.Record (Cmd.ClearRenderTargetView v.rasterRtvHeaps0),
            Event.Record Cmd.IASetPrimitiveTopology]
        ++ drawEvents v.rasterBgInstances v.rtInstances.length) := by
  have h0 : ¬ v.rasterRtvHeaps0 = nullptr := hrtv0
  unfold render rasterize rasterPass renderHead toUINT
  simp only [hheap, h0, hrtv1, if_false, if_true]
  refine ⟨trivial, ?_⟩
  simp only [(drawInstances_log v.rasterBgInstances v.rtInstances.length _).1, emit_log,
    List.append_assoc]

/-- C4 (amended): in `View::render` the running index is set to `rtInstances.size()`
once, before the loop over the two buckets, and never reset. Without a descriptor heap
`render` records nothing. With one, each turn of the loop first calls through the view
heap of its raster target: with a null first view heap `render` stops with no draw
recorded; with a null second view heap it stops after the draws of the background
bucket, the `j`-th under the 32-bit value of `|rt| + j`; with both view heaps, the root
constant in force at the draw of the `j`-th background instance is the 32-bit value of
`|rt| + j`, and at the draw of the `j`-th foreground instance the 32-bit value of
`|rt| + |bg| + j`. -/
theorem render_bucket_draw_constants (env : Env) (v : View) (g : Gpu) (last : Nat) :
    (v.descriptorHeap = nullptr → recorded g (render env v g) = [])
    ∧ (v.descriptorHeap ≠ nullptr → v.rasterRtvHeaps0 = nullptr →
        (render env v g).status = Status.crashed
        ∧ drawsWithConstant (recorded g (render env v g)) last = [])
    ∧ (v.descriptorHeap ≠ nullptr → v.rasterRtvHeaps0 ≠ nullptr →
        v.rasterRtvHeaps1 = nullptr →
        (render env v g).status = Status.crashed
        ∧ (drawsWithConstant (recorded g (render env v g)) last).length
            = v.rasterBgInstances.length
        ∧ (∀ j r, v.rasterBgInstances[j]? = some r →
          (drawsWithConstant (recorded g (render env v g)) last)[j]?
            = some ((v.rtInstances.length + j) % 2 ^ 32, r.indexCount)))
    ∧ (v.descriptorHeap ≠ nullptr → v.rasterRtvHeaps0 ≠ nullptr →
        v.rasterRtvHeaps1 ≠ nullptr →
        (∀ j r, v.rasterBgInstances[j]? = some r →
          (drawsWithConstant (recorded g (render env v g)) last)[j]?
            = some ((v.rtInstances.length + j) % 2 ^ 32, r.indexCount))
        ∧ (∀ j r, v.rasterFgInstances[j]? = some r →
          (drawsWithConstant (recorded g (render env v g)) last)[v.rasterBgInstances.length + j]?
            = some ((v.rtInstances.length + v.rasterBgInstances.length + j) % 2 ^ 32,
                r.indexCount))) := by
  refine ⟨recorded_render_null env v g, ?_, ?_, render_draws env v g last⟩
  · intro hheap hrtv0
    obtain ⟨hs, hl⟩ := render_null_rtv0 env v g hheap hrtv0
    refine ⟨hs, ?_⟩
    unfold recorded
    rw [hl, List.drop_left]
    simp [renderHead, drawsWithConstant]
  · intro hheap hrtv0 hrtv1
    obtain ⟨hs, hl⟩ := render_null_rtv1 env v g hheap hrtv0 hrtv1
    obtain ⟨b1, b2⟩ :=
      drawsWithConstant_drawEvents v.rasterBgInstances v.rtInstances.length last
    have e : drawsWithConstant (recorded g (render env v g)) last
        = drawsWithConstant (drawEvents v.rasterBgInstances v.rtInstances.length) last := by
      unfold recorded
      rw [hl, List.drop_left]
      simp [renderHead, drawsWithConstant, drawsWithConstant_append, lastConstant]
    rw [e]
    exact ⟨hs, b2, b1⟩

/-- Witness of C4 (amended): on the view the constructor and one `update` leave for a
scene of one background instance (30 indices) and one foreground instance (24 indices),
the two draws are recorded under the constants 0 and 1. -/
theorem render_bucket_draw_constants_witness :
    (sampleSceneView sampleRasterScene).descriptorHeap ≠ nullptr
    ∧ (sampleSceneView sampleRasterScene).rasterRtvHeaps0 ≠ nullptr
    ∧ (sampleSceneView sampleRasterScene).rasterRtvHeaps1 ≠ nullptr
    ∧ (drawsWithConstant (recorded sampleGpu (render (sampleEnv sampleRasterScene)
        (sampleSceneView sampleRasterScene) sampleGpu)) 0)[0]? = some (0, 30)
    ∧ (drawsWithConstant (recorded sampleGpu (render (sampleEnv sampleRasterScene)
        (sampleSceneView sampleRasterScene) sampleGpu)) 0)[1]? = some (1, 24) :=
  ⟨by decide, by decide, by decide,
   ((render_bucket_draw_constants (sampleEnv sampleRasterScene)
      (sampleSceneView sampleRasterScene) sampleGpu 0).2.2.2
      (by decide) (by decide) (by decide)).1 0 (sampleRenderInstance 0 1 0 30) (by decide),
   ((render_bucket_draw_constants (sampleEnv sampleRasterScene)
      (sampleSceneView sampleRasterScene) sampleGpu 0).2.2.2
      (by decide) (by decide) (by decide)).2 0 (sampleRenderInstance 0 0 1 24) (by decide)⟩

/-- C4, as stated, fails on a view built by the constructor and one `update` that both
returned, for a scene with no ray traced instance, one background instance (30 indices)
and one foreground instance (24 indices): `render` returns, and the draw of foreground
instance 0 (the second draw of the frame) is recorded under root constant 1, not under
`rtInstances.size() + 0 = 0`. -/
theorem render_foreground_constant_counterexample :
    (View.new (sampleEnv []) sampleGpu).status = Status.returned
    ∧ (View.update (sampleEnv sampleRasterScene) (View.new (sampleEnv []) sampleGpu).view
        (View.new (sampleEnv []) sampleGpu).gpu).status = Status.returned
    ∧ (sampleSceneView sampleRasterScene).rtInstances.length = 0
    ∧ (sampleSceneView sampleRasterScene).rasterBgInstances.map (fun r => r.indexCount) = [30]
    ∧ (sampleSceneView sampleRasterScene).rasterFgInstances.map (fun r => r.indexCount) = [24]
    ∧ (render (sampleEnv sampleRasterScene) (sampleSceneView sampleRasterScene)
        sampleGpu).status = Status.returned
    ∧ (drawsWithConstant (recorded sampleGpu (render (sampleEnv sampleRasterScene)
        (sampleSceneView sampleRasterScene) sampleGpu)) 0)
      = [(0, 30), (1, 24)]
    ∧ (drawsWithConstant (recorded sampleGpu (render (sampleEnv sampleRasterScene)
        (sampleSceneView sampleRasterScene) sampleGpu)) 0)[1]?
      ≠ some ((sampleSceneView sampleRasterScene).rtInstances.length + 0, 24) := by
  decide

/-- C5: for every view whose `render` is not cut short by the missing-heap guard while
raster instances exist (`update` leaves no other), whose two raster view heaps exist
(`render` calls through them; the constructor creates them), with at most `2 ^ 32`
instances in the three buckets, an allocated instance properties buffer and a successful
`Map`: the root constants recorded by one `render` are exactly `|rt|, |rt| + 1, ...,
|rt| + |bg| + |fg| - 1` in order; the draw of the `j`-th background instance is recorded
under constant `|rt| + j` and the record of that index written by
`updateInstancePropertiesBuffer` holds that instance's material; likewise the `j`-th
foreground instance and `|rt| + |bg| + j`. -/
theorem render_constants_match_records (env : Env) (v : View) (g gu : Gpu) (last : Nat)
    (hguard : v.descriptorHeap ≠ nullptr
      ∨ (v.rasterBgInstances = [] ∧ v.rasterFgInstances = []))
    (hrtv0 : v.rasterRtvHeaps0 ≠ nullptr) (hrtv1 : v.rasterRtvHeaps1 ≠ nullptr)
    (hsize : v.rtInstances.length + v.rasterBgInstances.length + v.rasterFgInstances.length
      ≤ 2 ^ 32)
    (hbuf : v.activeInstancesBufferProps.Get ≠ nullptr)
    (hmap : FAILED env.mapPropsResult = false) :
    rootConstants (recorded g (render env v g))
      = List.range' v.rtInstances.length
          (v.rasterBgInstances.length + v.rasterFgInstances.length)
    ∧ (∀ j r, v.rasterBgInstances[j]? = some r →
        (drawsWithConstant (recorded g (render env v g)) last)[j]?
          = some (v.rtInstances.length + j, r.indexCount)
        ∧ ((updateInstancePropertiesBuffer env v gu).gpu.propsMem
            v.activeInstancesBufferProps.Get (v.rtInstances.length + j)).material
          = r.material)
    ∧ (∀ j r, v.rasterFgInstances[j]? = some r →
        (drawsWithConstant (recorded g (render env v g)) last)[v.rasterBgInstances.length + j]?
          = some (v.rtInstances.length + v.rasterBgInstances.length + j, r.indexCount)
        ∧ ((updateInstancePropertiesBuffer env v gu).gpu.propsMem
            v.activeInstancesBufferProps.Get
            (v.rtInstances.length + v.rasterBgInstances.length + j)).material
          = r.material) := by
  obtain ⟨_, _, s3, s4, _⟩ :=
    writeInstanceProperties_spec env.math v (gu.propsMem v.activeInstancesBufferProps.Get)
  rw [updateInstancePropertiesBuffer_mem env v gu hbuf hmap]
  by_cases hheap : v.descriptorHeap = nullptr
  · obtain ⟨hb, hf⟩ := hguard.resolve_left (not_not.mpr hheap)
    rw [recorded_render_null env v g hheap, hb, hf]
    refine ⟨by simp [rootConstants], ?_, ?_⟩ <;>
    · intro j r hj
      simp at hj
  · obtain ⟨d1, d2⟩ := render_draws env v g last hheap hrtv0 hrtv1
    refine ⟨?_, ?_, ?_⟩
    · rw [render_rootConstants env v g hheap hrtv0 hrtv1, map_mod_range' _ _ (by omega),
        map_mod_range' _ _ (by omega), List.range'_append_1, Nat.add_comm]
    · intro j r hj
      have hlt : j < v.rasterBgInstances.length := (List.getElem?_eq_some_iff.mp hj).1
      rw [d1 j r hj, Nat.mod_eq_of_lt (by omega), s3 j r hj]
      exact ⟨rfl, rfl⟩
    · intro j r hj
      have hlt : j < v.rasterFgInstances.length := (List.getElem?_eq_some_iff.mp hj).1
      rw [d2 j r hj, Nat.mod_eq_of_lt (by omega), s4 j r hj]
      exact ⟨rfl, rfl⟩

/-- Witness of C5: on the view the constructor and one `update` (both returning) leave
for a scene of one ray traced, one background and one foreground instance, `render`
returns and the root constants of the frame are 1 and 2. -/
theorem render_constants_match_records_witness :
    (View.new (sampleEnv []) sampleGpu).status = Status.returned
    ∧ (View.update (sampleEnv sampleMixedScene) (View.new (sampleEnv []) sampleGpu).view
        (View.new (sampleEnv []) sampleGpu).gpu).status = Status.returned
    ∧ (sampleSceneView sampleMixedScene).descriptorHeap ≠ nullptr
    ∧ (sampleSceneView sampleMixedScene).rasterRtvHeaps0 ≠ nullptr
    ∧ (sampleSceneView sampleMixedScene).rasterRtvHeaps1 ≠ nullptr
    ∧ (sampleSceneView sampleMixedScene).activeInstancesBufferProps.Get ≠ nullptr
    ∧ FAILED (sampleEnv sampleMixedScene).mapPropsResult = false
    ∧ (render (sampleEnv sampleMixedScene) (sampleSceneView sampleMixedScene)
        sampleGpu).status = Status.returned
    ∧ rootConstants (recorded sampleGpu (render (sampleEnv sampleMixedScene)
        (sampleSceneView sampleMixedScene) sampleGpu))
      = List.range' (sampleSceneView sampleMixedScene).rtInstances.length
          ((sampleSceneView sampleMixedScene).rasterBgInstances.length
            + (sampleSceneView sampleMixedScene).rasterFgInstances.length)
    ∧ List.range' (sampleSceneView sampleMixedScene).rtInstances.length
          ((sampleSceneView sampleMixedScene).rasterBgInstances.length
            + (sampleSceneView sampleMixedScene).rasterFgInstances.length) = [1, 2] :=
  ⟨by decide, by decide, by decide, by decide, by decide, by decide, by decide, by decide,
    (render_constants_match_records (sampleEnv sampleMixedScene)
      (sampleSceneView sampleMixedScene) sampleGpu sampleGpu 0
      (Or.inl (by decide)) (by decide) (by decide) (by decide) (by decide) (by decide)).1,
    by decide⟩

/-! ## The binding table and the top level structure -/

theorem foldl_addHitGroups (heapPointer : Nat) (l : List RenderInstance) :
    ∀ h : ShaderBindingTableGenerator,
      l.foldl (addHitGroups heapPointer) h
        = { h with hitGroup := h.hitGroup ++ hitGroupRecords heapPointer l } := by
  induction l with
  | nil => intro h; simp [hitGroupRecords]
  | cons r rest ih =>
    intro h
    rw [List.foldl_cons, ih]
    simp [addHitGroups, ShaderBindingTableGenerator.AddHitGroup, hitGroupRecords]

theorem registerPrograms_eq (heapPointer : Nat) (v : View) :
    registerPrograms heapPointer v
      = ⟨[⟨ProgramName.TraceRayGen, [heapPointer]⟩], [⟨ProgramName.ShadowMiss, []⟩],
          hitGroupRecords heapPointer v.rtInstances⟩ := by
  unfold registerPrograms
  simp only
  rw [foldl_addHitGroups]
  simp [ShaderBindingTableGenerator.Reset, ShaderBindingTableGenerator.AddRayGenerationProgram,
    ShaderBindingTableGenerator.AddMissProgram]

theorem hitGroupRecords_length (heapPointer : Nat) (l : List RenderInstance) :
    (hitGroupRecords heapPointer l).length = 2 * l.length := by
  induction l with
  | nil => rfl
  | cons r rest ih => simp only [hitGroupRecords, List.length_cons, ih]; omega

theorem hitGroupRecords_shape (heapPointer : Nat) (l : List RenderInstance) :
    (hitGroupRecords heapPointer l).map recordShape = hitGroupShape l.length := by
  induction l with
  | nil => rfl
  | cons r rest ih => simp [hitGroupRecords, hitGroupShape, recordShape, ih]

theorem hitGroupRecords_getElem (heapPointer : Nat) (l : List RenderInstance) :
    ∀ i r, l[i]? = some r →
      (hitGroupRecords heapPointer l)[2 * i]?
        = some ⟨ProgramName.SurfaceHitGroup,
            [r.vertexBufferView.BufferLocation, r.indexBufferView.BufferLocation, heapPointer]⟩
      ∧ (hitGroupRecords heapPointer l)[2 * i + 1]?
        = some ⟨ProgramName.ShadowHitGroup,
            [r.vertexBufferView.BufferLocation, r.indexBufferView.BufferLocation,
              heapPointer]⟩ := by
  induction l with
  | nil => intro i r h; simp at h
  | cons a rest ih =>
    intro i r h
    cases i with
    | zero =>
      simp only [List.getElem?_cons_zero, Option.some.injEq] at h
      simp [hitGroupRecords, h]
    | succ j =>
      simp only [List.getElem?_cons_succ] at h
      have e1 : 2 * (j + 1) = 2 * j + 1 + 1 := by omega
      rw [e1]
      simp only [hitGroupRecords, List.getElem?_cons_succ]
      exact ih j r h

theorem createShaderBindingTable_sbtHelper (env : Env) (v : View) (g : Gpu)
    (hheap : v.descriptorHeap ≠ nullptr) :
    (createShaderBindingTable env v g).status = Status.returned
    ∧ (createShaderBindingTable env v g).view.sbtHelper
        = registerPrograms (env.heapGPUStart v.descriptorHeap) v := by
  unfold createShaderBindingTable
  simp only [hheap, if_false]
  refine ⟨trivial, ?_⟩
  split_ifs <;> rfl

theorem addInstances_eq (l : List RenderInstance) :
    ∀ i generator, addInstances l i generator = generator ++ tlasEntries l i := by
  induction l with
  | nil => intro i generator; simp [addInstances, tlasEntries]
  | cons r rest ih =>
    intro i generator
    simp [addInstances, tlasEntries, ih, toUINT]

theorem tlasEntries_length (l : List RenderInstance) :
    ∀ i, (tlasEntries l i).length = l.length := by
  induction l with
  | nil => intro i; rfl
  | cons r rest ih => intro i; simp [tlasEntries, ih]

theorem tlasEntries_getElem (l : List RenderInstance) :
    ∀ (start i : Nat) (r : RenderInstance), l[i]? = some r →
      (tlasEntries l start)[i]?
        = some (⟨r.bottomLevelAS, r.transform, (start + i) % 2 ^ 32,
            (2 * (start + i)) % 2 ^ 32⟩ : TLASInstance) := by
  induction l with
  | nil => intro start i r h; simp at h
  | cons a rest ih =>
    intro start i r h
    cases i with
    | zero =>
      simp only [List.getElem?_cons_zero, Option.some.injEq] at h
      simp [tlasEntries, h]
    | succ j =>
      simp only [List.getElem?_cons_succ] at h
      simp only [tlasEntries, List.getElem?_cons_succ]
      rw [ih (start + 1) j r h]
      have e : start + 1 + j = start + (j + 1) := by omega
      rw [e]

theorem createTopLevelAS_generator (env : Env) (rt : List RenderInstance) (v : View) (g : Gpu) :
    (createTopLevelAS env rt v g).view.topLevelASGenerator = tlasEntries rt 0
    ∧ (createTopLevelAS env rt v g).status = Status.returned := by
  unfold createTopLevelAS
  simp only [addInstances_eq, List.nil_append]
  refine ⟨?_, trivial⟩
  split_ifs <;> rfl

/-- C6: for a ray traced bucket of `N` instances and a view with a descriptor heap,
`createShaderBindingTable` returns with exactly one ray generation record, one miss
record and `2 * N` hit group records in its helper: per instance, in bucket order, a
surface record followed by a shadow record. The records are determined by the bucket
and the heap pointer alone, whatever the helper held from earlier frames, and their
composition (program and argument count of every record) is a function of `N` alone;
so is the size of the table for fixed strides, `rayGen + miss + hitGroup * (2 * N)`. -/
theorem createShaderBindingTable_record_composition (env : Env) (v : View) (g : Gpu)
    (hheap : v.descriptorHeap ≠ nullptr) :
    (createShaderBindingTable env v g).status = Status.returned
    ∧ (createShaderBindingTable env v g).view.sbtHelper.rayGen
        = [⟨ProgramName.TraceRayGen, [env.heapGPUStart v.descriptorHeap]⟩]
    ∧ (createShaderBindingTable env v g).view.sbtHelper.miss = [⟨ProgramName.ShadowMiss, []⟩]
    ∧ (createShaderBindingTable env v g).view.sbtHelper.hitGroup
        = hitGroupRecords (env.heapGPUStart v.descriptorHeap) v.rtInstances
    ∧ (createShaderBindingTable env v g).view.sbtHelper.hitGroup.length
        = 2 * v.rtInstances.length
    ∧ (createShaderBindingTable env v g).view.sbtHelper.rayGen.map recordShape
        = [(ProgramName.TraceRayGen, 1)]
    ∧ (createShaderBindingTable env v g).view.sbtHelper.miss.map recordShape
        = [(ProgramName.ShadowMiss, 0)]
    ∧ (createShaderBindingTable env v g).view.sbtHelper.hitGroup.map recordShape
        = hitGroupShape v.rtInstances.length
    ∧ ∀ rayGenStride missStride hitGroupStride : Nat,
        ShaderBindingTableGenerator.ComputeSBTSizeFixedStride rayGenStride missStride
            hitGroupStride (createShaderBindingTable env v g).view.sbtHelper
          = rayGenStride + missStride + hitGroupStride * (2 * v.rtInstances.length) := by
  obtain ⟨hst, hh⟩ := createShaderBindingTable_sbtHelper env v g hheap
  rw [hh, registerPrograms_eq]
  refine ⟨hst, rfl, rfl, rfl, hitGroupRecords_length _ _, rfl, rfl,
    hitGroupRecords_shape _ _, ?_⟩
  intro a b c
  simp [ShaderBindingTableGenerator.ComputeSBTSizeFixedStride, hitGroupRecords_length]

/-- Witness of C6: a bucket of two instances gives one ray generation record, one miss
record and four hit group records. -/
theorem createShaderBindingTable_record_composition_witness :
    (sampleView [sampleRenderInstance 5 0 0 36, sampleRenderInstance 6 0 1 30] []
        []).descriptorHeap ≠ nullptr
    ∧ (createShaderBindingTable (sampleEnv [])
        (sampleView [sampleRenderInstance 5 0 0 36, sampleRenderInstance 6 0 1 30] [] [])
        sampleGpu).view.sbtHelper.hitGroup.length = 2 * 2 :=
  ⟨by decide,
    (createShaderBindingTable_record_composition (sampleEnv [])
      (sampleView [sampleRenderInstance 5 0 0 36, sampleRenderInstance 6 0 1 30] [] [])
      sampleGpu (by decide)).2.2.2.2.1⟩

/-- C7: for a ray traced bucket of `N` instances (`N` at most `2 ^ 31`, so that `2 * i`
fits the 32-bit hit group index), `createTopLevelAS` registers exactly `N` entries, entry
`i` carrying the bottom level structure and transform of instance `i`, instance index
`i` and hit group index `2 * i`; in the hit group section that `createShaderBindingTable`
builds from the same bucket, position `2 * i` holds the surface record of instance `i`
and position `2 * i + 1` its shadow record, the section having `2 * N` records. For
`N = 1` this is one top level entry and one hit group pair. -/
theorem createTopLevelAS_entries_match_hit_groups (env : Env) (v : View) (g g' : Gpu)
    (hsize : v.rtInstances.length ≤ 2 ^ 31) (hheap : v.descriptorHeap ≠ nullptr) :
    (createTopLevelAS env v.rtInstances v g).view.topLevelASGenerator.length
        = v.rtInstances.length
    ∧ (createShaderBindingTable env v g').view.sbtHelper.hitGroup.length
        = 2 * v.rtInstances.length
    ∧ ∀ (i : Nat) (r : RenderInstance), v.rtInstances[i]? = some r →
        (createTopLevelAS env v.rtInstances v g).view.topLevelASGenerator[i]?
          = some ⟨r.bottomLevelAS, r.transform, i, 2 * i⟩
        ∧ (createShaderBindingTable env v g').view.sbtHelper.hitGroup[2 * i]?
          = some ⟨ProgramName.SurfaceHitGroup,
              [r.vertexBufferView.BufferLocation, r.indexBufferView.BufferLocation,
                env.heapGPUStart v.descriptorHeap]⟩
        ∧ (createShaderBindingTable env v g').view.sbtHelper.hitGroup[2 * i + 1]?
          = some ⟨ProgramName.ShadowHitGroup,
              [r.vertexBufferView.BufferLocation, r.indexBufferView.BufferLocation,
                env.heapGPUStart v.descriptorHeap]⟩ := by
  rw [(createTopLevelAS_generator env v.rtInstances v g).1,
    (createShaderBindingTable_sbtHelper env v g' hheap).2, registerPrograms_eq]
  refine ⟨tlasEntries_length _ _, hitGroupRecords_length _ _, ?_⟩
  intro i r hi
  have hlt : i < v.rtInstances.length := (List.getElem?_eq_some_iff.mp hi).1
  obtain ⟨h1, h2⟩ := hitGroupRecords_getElem (env.heapGPUStart v.descriptorHeap)
    v.rtInstances i r hi
  refine ⟨?_, h1, h2⟩
  rw [tlasEntries_getElem v.rtInstances 0 i r hi, Nat.zero_add,
    Nat.mod_eq_of_lt (by omega), Nat.mod_eq_of_lt (by omega)]

/-- Witness of C7: a bucket of one instance gives one top level entry, with instance
index 0 and hit group index 0, and one hit group pair. -/
theorem createTopLevelAS_entries_match_hit_groups_witness :
    (sampleView [sampleRenderInstance 5 0 0 36] [] []).rtInstances.length ≤ 2 ^ 31
    ∧ (sampleView [sampleRenderInstance 5 0 0 36] [] []).descriptorHeap ≠ nullptr
    ∧ (createTopLevelAS (sampleEnv []) [sampleRenderInstance 5 0 0 36]
        (sampleView [sampleRenderInstance 5 0 0 36] [] []) sampleGpu).view.topLevelASGenerator.length
        = 1
    ∧ (createShaderBindingTable (sampleEnv [])
        (sampleView [sampleRenderInstance 5 0 0 36] [] []) sampleGpu).view.sbtHelper.hitGroup.length
        = 2 * 1 :=
  ⟨by decide, by decide,
    (createTopLevelAS_entries_match_hit_groups (sampleEnv [])
      (sampleView [sampleRenderInstance 5 0 0 36] [] []) sampleGpu sampleGpu
      (by decide) (by decide)).1,
    (createTopLevelAS_entries_match_hit_groups (sampleEnv [])
      (sampleView [sampleRenderInstance 5 0 0 36] [] []) sampleGpu sampleGpu
      (by decide) (by decide)).2.1⟩

/-! ## Tracked capacities -/

theorem recorded_of_log (g : Gpu) (o : Outcome) (es : List Event)
    (h : o.gpu.log = g.log ++ es) : recorded g o = es := by
  unfold recorded
  rw [h, List.drop_left]

/-- A quantity that no call lowers, given an invariant the calls keep, is
non-decreasing along every sequence of calls. -/
theorem chain_callSequence {α : Type} (call : α → View → Gpu → Outcome) (Inv : View → Prop)
    (f : View → Nat)
    (hstep : ∀ a v g, Inv v → Inv (call a v g).view ∧ f v ≤ f (call a v g).view) :
    ∀ (l : List α) (v : View) (g : Gpu), Inv v →
      List.Chain (fun a b => a ≤ b) (f v) ((callSequence call v g l).map (fun o => f o.view)) := by
  intro l
  induction l with
  | nil => intro v g _; exact List.Chain.nil
  | cons a rest ih =>
    intro v g hv
    obtain ⟨h1, h2⟩ := hstep a v g hv
    simp only [callSequence, List.map_cons]
    exact List.Chain.cons h2 (ih _ _ h1)

/-- The two cases of `createTopLevelAS`: the buffers are kept when every required size
fits, and all three are replaced at exactly the required sizes otherwise. -/
theorem createTopLevelAS_buffers (env : Env) (rt : List RenderInstance) (v : View) (g : Gpu) :
    (¬ (v.topLevelASBuffers.scratchSize < (requiredASSizes env rt).1
          ∨ v.topLevelASBuffers.resultSize < (requiredASSizes env rt).2.1
          ∨ v.topLevelASBuffers.instanceDescSize < (requiredASSizes env rt).2.2) →
        (createTopLevelAS env rt v g).view.topLevelASBuffers = v.topLevelASBuffers)
    ∧ ((v.topLevelASBuffers.scratchSize < (requiredASSizes env rt).1
          ∨ v.topLevelASBuffers.resultSize < (requiredASSizes env rt).2.1
          ∨ v.topLevelASBuffers.instanceDescSize < (requiredASSizes env rt).2.2) →
        (createTopLevelAS env rt v g).view.topLevelASBuffers
          = ⟨⟨env.scratchAllocation⟩, (requiredASSizes env rt).1,
             ⟨env.resultAllocation⟩, (requiredASSizes env rt).2.1,
             ⟨env.instanceDescAllocation⟩, (requiredASSizes env rt).2.2⟩) := by
  unfold createTopLevelAS requiredASSizes
  simp only
  refine ⟨?_, ?_⟩
  · intro h
    rw [if_neg h]
  · intro h
    rw [if_pos h]
    rfl

theorem requiredASSizes_withASSizes (sizesOf : Nat → Nat × Nat × Nat) (env : Env)
    (rt : List RenderInstance) :
    requiredASSizes (withASSizes sizesOf env) rt = sizesOf rt.length := by
  unfold requiredASSizes withASSizes
  simp only [addInstances_eq, List.nil_append, tlasEntries_length]

/-- With sizes that grow with the instance count, a call keeps the capacities among
the sizes of some instance count and lowers none of them. -/
theorem topLevelASCall_monotone (sizesOf : Nat → Nat × Nat × Nat)
    (hmono : ∀ a b, a ≤ b → (sizesOf a).1 ≤ (sizesOf b).1 ∧ (sizesOf a).2.1 ≤ (sizesOf b).2.1
      ∧ (sizesOf a).2.2 ≤ (sizesOf b).2.2)
    (frame : Env × List RenderInstance) (v : View) (g : Gpu) (hv : capacitiesFrom sizesOf v) :
    capacitiesFrom sizesOf (topLevelASCall (withASSizes sizesOf frame.1, frame.2) v g).view
    ∧ v.topLevelASBuffers.scratchSize
        ≤ (topLevelASCall (withASSizes sizesOf frame.1, frame.2) v g).view.topLevelASBuffers.scratchSize
    ∧ v.topLevelASBuffers.resultSize
        ≤ (topLevelASCall (withASSizes sizesOf frame.1, frame.2) v g).view.topLevelASBuffers.resultSize
    ∧ v.topLevelASBuffers.instanceDescSize
        ≤ (topLevelASCall (withASSizes sizesOf frame.1, frame.2) v g).view.topLevelASBuffers.instanceDescSize := by
  obtain ⟨hkeep, hgrow⟩ := createTopLevelAS_buffers (withASSizes sizesOf frame.1) frame.2 v g
  rw [requiredASSizes_withASSizes] at hkeep hgrow
  unfold topLevelASCall
  simp only
  by_cases hneed : v.topLevelASBuffers.scratchSize < (sizesOf frame.2.length).1
      ∨ v.topLevelASBuffers.resultSize < (sizesOf frame.2.length).2.1
      ∨ v.topLevelASBuffers.instanceDescSize < (sizesOf frame.2.length).2.2
  · have hb := hgrow hneed
    refine ⟨Or.inr ⟨frame.2.length, ?_⟩, ?_⟩
    · unfold asCapacities
      rw [hb]
    · rw [hb]
      simp only
      rcases hv with h0 | ⟨n, hn⟩
      · unfold asCapacities at h0
        simp only [Prod.mk.injEq] at h0
        omega
      · unfold asCapacities at hn
        have e1 : v.topLevelASBuffers.scratchSize = (sizesOf n).1 := by rw [← hn]
        have e2 : v.topLevelASBuffers.resultSize = (sizesOf n).2.1 := by rw [← hn]
        have e3 : v.topLevelASBuffers.instanceDescSize = (sizesOf n).2.2 := by rw [← hn]
        rw [e1, e2, e3] at hneed ⊢
        by_cases hle : frame.2.length ≤ n
        · have := hmono _ _ hle
          omega
        · exact hmono _ _ (by omega)
  · have hb := hkeep hneed
    refine ⟨?_, ?_⟩
    · unfold capacitiesFrom asCapacities at hv ⊢
      rw [hb]
      exact hv
    · rw [hb]
      exact ⟨le_refl _, le_refl _, le_refl _⟩

/-- C8 (amended): a `createTopLevelAS` call keeps the three buffers and capacities when
no required size exceeds its capacity, and otherwise replaces all three at exactly the
sizes required by that call; so a capacity is not lowered by a call whose required
size for it is at least its current value, and it can be lowered only by a call that
reallocates because another required size exceeds its capacity. When the required sizes
are a function of the instance count that does not decrease in any component, then from
zero capacities each of the three capacities is non-decreasing along every sequence of
calls. -/
theorem createTopLevelAS_capacities (env : Env) (rt : List RenderInstance) (v : View) (g : Gpu) :
    (¬ (v.topLevelASBuffers.scratchSize < (requiredASSizes env rt).1
          ∨ v.topLevelASBuffers.resultSize < (requiredASSizes env rt).2.1
          ∨ v.topLevelASBuffers.instanceDescSize < (requiredASSizes env rt).2.2) →
        (createTopLevelAS env rt v g).view.topLevelASBuffers = v.topLevelASBuffers)
    ∧ ((v.topLevelASBuffers.scratchSize < (requiredASSizes env rt).1
          ∨ v.topLevelASBuffers.resultSize < (requiredASSizes env rt).2.1
          ∨ v.topLevelASBuffers.instanceDescSize < (requiredASSizes env rt).2.2) →
        asCapacities (createTopLevelAS env rt v g).view = requiredASSizes env rt)
    ∧ (v.topLevelASBuffers.scratchSize ≤ (requiredASSizes env rt).1 →
        v.topLevelASBuffers.scratchSize
          ≤ (createTopLevelAS env rt v g).view.topLevelASBuffers.scratchSize)
    ∧ (v.topLevelASBuffers.resultSize ≤ (requiredASSizes env rt).2.1 →
        v.topLevelASBuffers.resultSize
          ≤ (createTopLevelAS env rt v g).view.topLevelASBuffers.resultSize)
    ∧ (v.topLevelASBuffers.instanceDescSize ≤ (requiredASSizes env rt).2.2 →
        v.topLevelASBuffers.instanceDescSize
          ≤ (createTopLevelAS env rt v g).view.topLevelASBuffers.instanceDescSize)
    ∧ ∀ sizesOf : Nat → Nat × Nat × Nat,
        (∀ a b, a ≤ b → (sizesOf a).1 ≤ (sizesOf b).1 ∧ (sizesOf a).2.1 ≤ (sizesOf b).2.1
          ∧ (sizesOf a).2.2 ≤ (sizesOf b).2.2) →
        asCapacities v = (0, 0, 0) →
        ∀ frames : List (Env × List RenderInstance),
          List.Chain (fun a b => a ≤ b) v.topLevelASBuffers.scratchSize
            ((callSequence (fun frame => topLevelASCall (withASSizes sizesOf frame.1, frame.2))
              v g frames).map (fun o => o.view.topLevelASBuffers.scratchSize))
          ∧ List.Chain (fun a b => a ≤ b) v.topLevelASBuffers.resultSize
            ((callSequence (fun frame => topLevelASCall (withASSizes sizesOf frame.1, frame.2))
              v g frames).map (fun o => o.view.topLevelASBuffers.resultSize))
          ∧ List.Chain (fun a b => a ≤ b) v.topLevelASBuffers.instanceDescSize
            ((callSequence (fun frame => topLevelASCall (withASSizes sizesOf frame.1, frame.2))
              v g frames).map (fun o => o.view.topLevelASBuffers.instanceDescSize)) := by
  obtain ⟨hkeep, hgrow⟩ := createTopLevelAS_buffers env rt v g
  have hcases : ∀ (P : AccelerationStructureBuffers → Prop),
      P v.topLevelASBuffers →
      P ⟨⟨env.scratchAllocation⟩, (requiredASSizes env rt).1, ⟨env.resultAllocation⟩,
        (requiredASSizes env rt).2.1, ⟨env.instanceDescAllocation⟩,
        (requiredASSizes env rt).2.2⟩ →
      P (createTopLevelAS env rt v g).view.topLevelASBuffers := by
    intro P h1 h2
    by_cases hneed : v.topLevelASBuffers.scratchSize < (requiredASSizes env rt).1
        ∨ v.topLevelASBuffers.resultSize < (requiredASSizes env rt).2.1
        ∨ v.topLevelASBuffers.instanceDescSize < (requiredASSizes env rt).2.2
    · rw [hgrow hneed]; exact h2
    · rw [hkeep hneed]; exact h1
  refine ⟨hkeep, ?_, ?_, ?_, ?_, ?_⟩
  · intro hneed
    unfold asCapacities
    rw [hgrow hneed]
  · intro h
    exact hcases (fun b => v.topLevelASBuffers.scratchSize ≤ b.scratchSize) (le_refl _) h
  · intro h
    exact hcases (fun b => v.topLevelASBuffers.resultSize ≤ b.resultSize) (le_refl _) h
  · intro h
    exact hcases (fun b => v.topLevelASBuffers.instanceDescSize ≤ b.instanceDescSize)
      (le_refl _) h
  · intro sizesOf hmono hzero frames
    refine ⟨?_, ?_, ?_⟩
    · exact chain_callSequence _ (capacitiesFrom sizesOf) (fun w => w.topLevelASBuffers.scratchSize)
        (fun a w g' hw => ⟨(topLevelASCall_monotone sizesOf hmono a w g' hw).1,
          (topLevelASCall_monotone sizesOf hmono a w g' hw).2.1⟩) frames v g (Or.inl hzero)
    · exact chain_callSequence _ (capacitiesFrom sizesOf) (fun w => w.topLevelASBuffers.resultSize)
        (fun a w g' hw => ⟨(topLevelASCall_monotone sizesOf hmono a w g' hw).1,
          (topLevelASCall_monotone sizesOf hmono a w g' hw).2.2.1⟩) frames v g (Or.inl hzero)
    · exact chain_callSequence _ (capacitiesFrom sizesOf)
        (fun w => w.topLevelASBuffers.instanceDescSize)
        (fun a w g' hw => ⟨(topLevelASCall_monotone sizesOf hmono a w g' hw).1,
          (topLevelASCall_monotone sizesOf hmono a w g' hw).2.2.2⟩) frames v g (Or.inl hzero)

/-- C8, as stated, fails: on a view without buffers, a call requiring sizes
(1024, 1024, 1024) followed by a call requiring (2048, 512, 512) leaves the capacities
(2048, 512, 512); the second call reallocates because of the scratch size and lowers
`resultSize` and `instanceDescSize` from 1024 to 512. -/
theorem createTopLevelAS_capacity_counterexample :
    (callSequence topLevelASCall (sampleView [sampleRenderInstance 5 0 0 36] [] []) sampleGpu
        [(withASSizes (fun _ => (1024, 1024, 1024)) (sampleEnv []),
            [sampleRenderInstance 5 0 0 36]),
          (withASSizes (fun _ => (2048, 512, 512)) (sampleEnv []),
            [sampleRenderInstance 5 0 0 36])]).map (fun o => asCapacities o.view)
      = [(1024, 1024, 1024), (2048, 512, 512)]
    ∧ ¬ List.Chain (fun a b => a ≤ b)
        (sampleView [sampleRenderInstance 5 0 0 36] [] []).topLevelASBuffers.resultSize
        ((callSequence topLevelASCall (sampleView [sampleRenderInstance 5 0 0 36] [] [])
          sampleGpu
          [(withASSizes (fun _ => (1024, 1024, 1024)) (sampleEnv []),
              [sampleRenderInstance 5 0 0 36]),
            (withASSizes (fun _ => (2048, 512, 512)) (sampleEnv []),
              [sampleRenderInstance 5 0 0 36])]).map
          (fun o => o.view.topLevelASBuffers.resultSize)) := by
  refine ⟨by decide, ?_⟩
  have h : (callSequence topLevelASCall (sampleView [sampleRenderInstance 5 0 0 36] [] [])
      sampleGpu
      [(withASSizes (fun _ => (1024, 1024, 1024)) (sampleEnv []),
          [sampleRenderInstance 5 0 0 36]),
        (withASSizes (fun _ => (2048, 512, 512)) (sampleEnv []),
          [sampleRenderInstance 5 0 0 36])]).map
      (fun o => o.view.topLevelASBuffers.resultSize) = [1024, 512] := by decide
  rw [h]
  intro hc
  have h2 := (List.chain_cons.mp (List.chain_cons.mp hc).2).1
  omega

/-- C9: a `createShaderBindingTable` call never lowers `sbtStorageSize`, whatever its
status, so the size is non-decreasing along every sequence of calls on one view (the
other members of the view changing freely between calls). With a descriptor heap the
call returns and leaves `sbtStorageSize` at least the table size it computed. The
storage is released and reallocated only when that size exceeds `sbtStorageSize`: then
the call records the release of the old storage, one allocation of the computed size
and the table generation, and sets `sbtStorageSize` to the computed size; otherwise it
keeps storage and size and records the table generation alone (nothing at all when the
heap is missing). -/
theorem createShaderBindingTable_storage_grows (env : Env) (v : View) (g : Gpu)
    (frames : List (Env × View)) :
    v.sbtStorageSize ≤ (createShaderBindingTable env v g).view.sbtStorageSize
    ∧ List.Chain (fun a b => a ≤ b) v.sbtStorageSize
        ((callSequence shaderBindingTableCall v g frames).map (fun o => o.view.sbtStorageSize))
    ∧ (v.descriptorHeap ≠ nullptr →
        (createShaderBindingTable env v g).status = Status.returned
        ∧ computedSBTSize env v ≤ (createShaderBindingTable env v g).view.sbtStorageSize)
    ∧ (v.descriptorHeap ≠ nullptr → v.sbtStorageSize < computedSBTSize env v →
        (createShaderBindingTable env v g).view.sbtStorageSize = computedSBTSize env v
        ∧ (createShaderBindingTable env v g).view.sbtStorage = ⟨env.sbtAllocation⟩
        ∧ recorded g (createShaderBindingTable env v g)
          = v.sbtStorage.Release.2
            ++ [Event.AllocateBuffer HeapType.UPLOAD (computedSBTSize env v) ResourceFlags.NONE
                  ResourceState.GENERIC_READ env.sbtAllocation,
                Event.GenerateSBT (AllocatedResource.Get ⟨env.sbtAllocation⟩)])
    ∧ (v.descriptorHeap ≠ nullptr → ¬ v.sbtStorageSize < computedSBTSize env v →
        (createShaderBindingTable env v g).view.sbtStorageSize = v.sbtStorageSize
        ∧ (createShaderBindingTable env v g).view.sbtStorage = v.sbtStorage
        ∧ recorded g (createShaderBindingTable env v g) = [Event.GenerateSBT v.sbtStorage.Get])
    ∧ (v.descriptorHeap = nullptr →
        (createShaderBindingTable env v g).view.sbtStorageSize = v.sbtStorageSize
        ∧ (createShaderBindingTable env v g).view.sbtStorage = v.sbtStorage
        ∧ recorded g (createShaderBindingTable env v g) = []) := by
  have hgrow : ∀ (e : Env) (w : View) (g' : Gpu), w.descriptorHeap ≠ nullptr →
      w.sbtStorageSize < computedSBTSize e w →
      (createShaderBindingTable e w g').status = Status.returned
      ∧ (createShaderBindingTable e w g').view.sbtStorageSize = computedSBTSize e w
      ∧ (createShaderBindingTable e w g').view.sbtStorage = ⟨e.sbtAllocation⟩
      ∧ recorded g' (createShaderBindingTable e w g')
        = w.sbtStorage.Release.2
          ++ [Event.AllocateBuffer HeapType.UPLOAD (computedSBTSize e w) ResourceFlags.NONE
                ResourceState.GENERIC_READ e.sbtAllocation,
              Event.GenerateSBT (AllocatedResource.Get ⟨e.sbtAllocation⟩)] := by
    intro e w g' hh hlt
    unfold computedSBTSize at hlt
    refine ⟨?_, ?_, ?_, ?_⟩
    · unfold createShaderBindingTable; simp [hh]
    · unfold createShaderBindingTable computedSBTSize; simp [hh, hlt]
    · unfold createShaderBindingTable; simp [hh, hlt, Device.allocateBuffer]
    · apply recorded_of_log
      unfold createShaderBindingTable computedSBTSize
      simp [hh, hlt, emit_log, Device.allocateBuffer]
  have hkeep : ∀ (e : Env) (w : View) (g' : Gpu), w.descriptorHeap ≠ nullptr →
      ¬ w.sbtStorageSize < computedSBTSize e w →
      (createShaderBindingTable e w g').status = Status.returned
      ∧ (createShaderBindingTable e w g').view.sbtStorageSize = w.sbtStorageSize
      ∧ (createShaderBindingTable e w g').view.sbtStorage = w.sbtStorage
      ∧ recorded g' (createShaderBindingTable e w g') = [Event.GenerateSBT w.sbtStorage.Get] := by
    intro e w g' hh hlt
    unfold computedSBTSize at hlt
    refine ⟨?_, ?_, ?_, ?_⟩
    · unfold createShaderBindingTable; simp [hh]
    · unfold createShaderBindingTable; simp [hh, hlt]
    · unfold createShaderBindingTable; simp [hh, hlt]
    · apply recorded_of_log
      unfold createShaderBindingTable
      simp [hh, hlt, emit_log]
  have hnull : ∀ (e : Env) (w : View) (g' : Gpu), w.descriptorHeap = nullptr →
      (createShaderBindingTable e w g').view.sbtStorageSize = w.sbtStorageSize
      ∧ (createShaderBindingTable e w g').view.sbtStorage = w.sbtStorage
      ∧ recorded g' (createShaderBindingTable e w g') = [] := by
    intro e w g' hh
    refine ⟨?_, ?_, ?_⟩
    · unfold createShaderBindingTable; simp [hh]
    · unfold createShaderBindingTable; simp [hh]
    · apply recorded_of_log
      unfold createShaderBindingTable
      simp [hh]
  have hmono : ∀ (e : Env) (w : View) (g' : Gpu),
      w.sbtStorageSize ≤ (createShaderBindingTable e w g').view.sbtStorageSize := by
    intro e w g'
    by_cases hh : w.descriptorHeap = nullptr
    · rw [(hnull e w g' hh).1]
    · by_cases hlt : w.sbtStorageSize < computedSBTSize e w
      · rw [(hgrow e w g' hh hlt).2.1]; omega
      · rw [(hkeep e w g' hh hlt).2.1]
  refine ⟨hmono env v g, ?_, ?_, ?_, ?_, hnull env v g⟩
  · exact chain_callSequence shaderBindingTableCall (fun _ => True) (fun w => w.sbtStorageSize)
      (fun a w g' _ => ⟨trivial, hmono a.1
        { a.2 with sbtStorage := w.sbtStorage, sbtStorageSize := w.sbtStorageSize } g'⟩)
      frames v g trivial
  · intro hh
    by_cases hlt : v.sbtStorageSize < computedSBTSize env v
    · exact ⟨(hgrow env v g hh hlt).1, by rw [(hgrow env v g hh hlt).2.1]⟩
    · exact ⟨(hkeep env v g hh hlt).1, by rw [(hkeep env v g hh hlt).2.1]; omega⟩
  · intro hh hlt
    exact (hgrow env v g hh hlt).2
  · intro hh hlt
    exact (hkeep env v g hh hlt).2

theorem heapLifetimeEvents_emit (g : Gpu) (es : List Event) :
    heapLifetimeEvents (g.emit es).log = heapLifetimeEvents g.log ++ heapLifetimeEvents es := by
  unfold heapLifetimeEvents
  rw [emit_log, List.filter_append]

theorem heapLifetimeEvents_write (k : DescriptorKind) (r : Ptr) (h : Nat) :
    heapLifetimeEvents [Event.WriteDescriptor k r h] = [] := rfl

theorem writeTextureDescriptors_quiet (env : Env) (l : List Ptr) :
    ∀ (handle : Nat) (g : Gpu),
      heapLifetimeEvents (writeTextureDescriptors env l handle g).1.log
        = heapLifetimeEvents g.log := by
  induction l with
  | nil => intro handle g; rfl
  | cons t rest ih =>
    intro handle g
    unfold writeTextureDescriptors
    split_ifs
    · rfl
    · rw [ih, heapLifetimeEvents_emit, heapLifetimeEvents_write, List.append_nil]

/-- When the `assert` on the texture count passes or is compiled out, the view
`createShaderResourceHeap` leaves is the one its heap growth step leaves, and the
descriptor writes that follow add no heap release or creation to the log. -/
theorem createShaderResourceHeap_grown (env : Env) (v : View) (g : Gpu)
    (hassert : env.NDEBUG = true ∨ v.usedTextures.length ≤ 1024) :
    (createShaderResourceHeap env v g).view = (growDescriptorHeap env v g).1
    ∧ heapLifetimeEvents (createShaderResourceHeap env v g).gpu.log
        = heapLifetimeEvents (growDescriptorHeap env v g).2.log := by
  have hpass : ¬ (env.NDEBUG = false ∧ ¬ (v.usedTextures.length ≤ 1024)) := by
    rintro ⟨h1, h2⟩
    rcases hassert with h | h
    · rw [h1] at h; exact Bool.noConfusion h
    · exact h2 h
  unfold createShaderResourceHeap
  simp only [hpass, if_false]
  refine ⟨?_, ?_⟩
  · split_ifs <;> rfl
  · split_ifs <;>
      simp only [writeTextureDescriptors_quiet, heapLifetimeEvents_emit,
        heapLifetimeEvents_write, List.append_nil]

theorem entryCount_eq (n : Nat) (h : 11 + n < 2 ^ 32) : toUINT (11 + toUINT n) = 11 + n := by
  unfold toUINT
  omega

theorem entryCount_le (n : Nat) : toUINT (11 + toUINT n) ≤ 11 + n := by
  unfold toUINT
  omega

/-- C10: a `createShaderResourceHeap` call never lowers `descriptorHeapEntryCount`,
whatever its status, so the count is non-decreasing along every sequence of calls on
one view with arbitrary used texture lists (the other members of the view changing
freely between calls). The heap is recreated only when `11 + usedTextures.size()`
exceeds the count: otherwise heap and count are kept and the call records no heap
release or creation. A call that gets past the `assert` (at most 1024 textures, or a
build with `NDEBUG`) with `11 + usedTextures.size()` inside the 32-bit `entryCount`
leaves the count at least `11 + usedTextures.size()`; when that number exceeds the count
it releases the old heap if there is one, creates one heap of that many entries and
sets the count to it. Without `NDEBUG`, more than 1024 textures stop the call at the
`assert` with nothing changed. -/
theorem createShaderResourceHeap_capacity_grows (env : Env) (v : View) (g : Gpu)
    (frames : List (Env × View)) :
    v.descriptorHeapEntryCount ≤ (createShaderResourceHeap env v g).view.descriptorHeapEntryCount
    ∧ List.Chain (fun a b => a ≤ b) v.descriptorHeapEntryCount
        ((callSequence shaderResourceHeapCall v g frames).map
          (fun o => o.view.descriptorHeapEntryCount))
    ∧ (¬ v.descriptorHeapEntryCount < 11 + v.usedTextures.length →
        (createShaderResourceHeap env v g).view.descriptorHeapEntryCount
          = v.descriptorHeapEntryCount
        ∧ (createShaderResourceHeap env v g).view.descriptorHeap = v.descriptorHeap
        ∧ heapLifetimeEvents (createShaderResourceHeap env v g).gpu.log
          = heapLifetimeEvents g.log)
    ∧ (env.NDEBUG = true ∨ v.usedTextures.length ≤ 1024 →
        11 + v.usedTextures.length < 2 ^ 32 →
        11 + v.usedTextures.length
          ≤ (createShaderResourceHeap env v g).view.descriptorHeapEntryCount)
    ∧ (env.NDEBUG = true ∨ v.usedTextures.length ≤ 1024 →
        11 + v.usedTextures.length < 2 ^ 32 →
        v.descriptorHeapEntryCount < 11 + v.usedTextures.length →
        (createShaderResourceHeap env v g).view.descriptorHeapEntryCount
          = 11 + v.usedTextures.length
        ∧ (createShaderResourceHeap env v g).view.descriptorHeap = env.createdDescriptorHeap
        ∧ heapLifetimeEvents (createShaderResourceHeap env v g).gpu.log
          = heapLifetimeEvents g.log
            ++ (if v.descriptorHeap ≠ nullptr then [Event.DescriptorHeapRelease v.descriptorHeap]
                else [])
            ++ [Event.CreateDescriptorHeap (11 + v.usedTextures.length)
                  env.createdDescriptorHeap])
    ∧ (env.NDEBUG = false → ¬ v.usedTextures.length ≤ 1024 →
        (createShaderResourceHeap env v g).status = Status.crashed
        ∧ (createShaderResourceHeap env v g).view.descriptorHeapEntryCount
          = v.descriptorHeapEntryCount
        ∧ (createShaderResourceHeap env v g).view.descriptorHeap = v.descriptorHeap
        ∧ (createShaderResourceHeap env v g).gpu.log = g.log) := by
  have hfail : ∀ (e : Env) (w : View) (g' : Gpu), e.NDEBUG = false →
      ¬ w.usedTextures.length ≤ 1024 →
      (createShaderResourceHeap e w g').status = Status.crashed
      ∧ (createShaderResourceHeap e w g').view.descriptorHeapEntryCount
        = w.descriptorHeapEntryCount
      ∧ (createShaderResourceHeap e w g').view.descriptorHeap = w.descriptorHeap
      ∧ (createShaderResourceHeap e w g').gpu.log = g'.log := by
    intro e w g' hd h
    unfold createShaderResourceHeap
    simp [hd, h]
  have hgrow : ∀ (e : Env) (w : View) (g' : Gpu),
      e.NDEBUG = true ∨ w.usedTextures.length ≤ 1024 →
      w.descriptorHeapEntryCount < toUINT (11 + toUINT w.usedTextures.length) →
      (createShaderResourceHeap e w g').view.descriptorHeapEntryCount
        = toUINT (11 + toUINT w.usedTextures.length)
      ∧ (createShaderResourceHeap e w g').view.descriptorHeap = e.createdDescriptorHeap
      ∧ heapLifetimeEvents (createShaderResourceHeap e w g').gpu.log
        = heapLifetimeEvents g'.log
          ++ (if w.descriptorHeap ≠ nullptr then [Event.DescriptorHeapRelease w.descriptorHeap]
              else [])
          ++ [Event.CreateDescriptorHeap (toUINT (11 + toUINT w.usedTextures.length))
                e.createdDescriptorHeap] := by
    intro e w g' ha hlt
    obtain ⟨hv, hl⟩ := createShaderResourceHeap_grown e w g' ha
    rw [hv, hl]
    unfold growDescriptorHeap
    simp only [hlt, if_true]
    refine ⟨trivial, trivial, ?_⟩
    split_ifs
    · rw [heapLifetimeEvents_emit, heapLifetimeEvents_emit]
      rfl
    · rw [heapLifetimeEvents_emit, List.append_nil]
      rfl
  have hkeep : ∀ (e : Env) (w : View) (g' : Gpu),
      e.NDEBUG = true ∨ w.usedTextures.length ≤ 1024 →
      ¬ w.descriptorHeapEntryCount < toUINT (11 + toUINT w.usedTextures.length) →
      (createShaderResourceHeap e w g').view.descriptorHeapEntryCount
        = w.descriptorHeapEntryCount
      ∧ (createShaderResourceHeap e w g').view.descriptorHeap = w.descriptorHeap
      ∧ heapLifetimeEvents (createShaderResourceHeap e w g').gpu.log
        = heapLifetimeEvents g'.log := by
    intro e w g' ha hlt
    obtain ⟨hv, hl⟩ := createShaderResourceHeap_grown e w g' ha
    rw [hv, hl]
    unfold growDescriptorHeap
    simp only [hlt, if_false]
    exact ⟨trivial, trivial, trivial⟩
  have hsplit : ∀ (e : Env) (w : View),
      (e.NDEBUG = true ∨ w.usedTextures.length ≤ 1024)
      ∨ (e.NDEBUG = false ∧ ¬ w.usedTextures.length ≤ 1024) := by
    intro e w
    cases hd : e.NDEBUG
    · by_cases h : w.usedTextures.length ≤ 1024
      · exact Or.inl (Or.inr h)
      · exact Or.inr ⟨rfl, h⟩
    · exact Or.inl (Or.inl rfl)
  have hmono : ∀ (e : Env) (w : View) (g' : Gpu),
      w.descriptorHeapEntryCount
        ≤ (createShaderResourceHeap e w g').view.descriptorHeapEntryCount := by
    intro e w g'
    rcases hsplit e w with ha | ⟨hd, ha⟩
    · by_cases hlt : w.descriptorHeapEntryCount < toUINT (11 + toUINT w.usedTextures.length)
      · rw [(hgrow e w g' ha hlt).1]; omega
      · rw [(hkeep e w g' ha hlt).1]
    · rw [(hfail e w g' hd ha).2.1]
  refine ⟨hmono env v g, ?_, ?_, ?_, ?_, hfail env v g⟩
  · exact chain_callSequence shaderResourceHeapCall (fun _ => True)
      (fun w => w.descriptorHeapEntryCount)
      (fun a w g' _ => ⟨trivial, hmono a.1
        { a.2 with descriptorHeap := w.descriptorHeap,
                   descriptorHeapEntryCount := w.descriptorHeapEntryCount } g'⟩)
      frames v g trivial
  · intro hlt
    have hlt' : ¬ v.descriptorHeapEntryCount < toUINT (11 + toUINT v.usedTextures.length) := by
      have := entryCount_le v.usedTextures.length
      omega
    rcases hsplit env v with ha | ⟨hd, ha⟩
    · exact hkeep env v g ha hlt'
    · obtain ⟨_, h2, h3, h4⟩ := hfail env v g hd ha
      exact ⟨h2, h3, by rw [h4]⟩
  · intro ha hfit
    by_cases hlt : v.descriptorHeapEntryCount < toUINT (11 + toUINT v.usedTextures.length)
    · rw [(hgrow env v g ha hlt).1, entryCount_eq _ hfit]
    · rw [(hkeep env v g ha hlt).1]
      rw [entryCount_eq _ hfit] at hlt
      omega
  · intro ha hfit hlt
    rw [← entryCount_eq _ hfit] at hlt ⊢
    exact hgrow env v g ha hlt

/-! ## A returned `update` leaves a view that `render` does not cut short -/

theorem andThen_status (o : Outcome) (next : View → Gpu → Outcome)
    (h : (o.andThen next).status = Status.returned) : o.status = Status.returned := by
  unfold Outcome.andThen at h
  cases hs : o.status <;> simp_all

theorem andThen_eq (o : Outcome) (next : View → Gpu → Outcome)
    (h : o.status = Status.returned) : o.andThen next = next o.view o.gpu := by
  unfold Outcome.andThen
  rw [h]

theorem andThen_descriptorHeap (o : Outcome) (next : View → Gpu → Outcome)
    (h : ∀ v g, (next v g).view.descriptorHeap = v.descriptorHeap) :
    (o.andThen next).view.descriptorHeap = o.view.descriptorHeap := by
  unfold Outcome.andThen
  split
  · exact h _ _
  · rfl

theorem createShaderResourceHeap_returned_heap (env : Env) (v : View) (g : Gpu)
    (h : (createShaderResourceHeap env v g).status = Status.returned) :
    (createShaderResourceHeap env v g).view.descriptorHeap ≠ nullptr := by
  unfold createShaderResourceHeap at h ⊢
  simp only at h ⊢
  split_ifs at h ⊢ <;> simp_all

theorem createShaderBindingTable_descriptorHeap (env : Env) (v : View) (g : Gpu) :
    (createShaderBindingTable env v g).view.descriptorHeap = v.descriptorHeap := by
  unfold createShaderBindingTable
  simp only
  split_ifs <;> rfl

theorem updateInstancePropertiesBuffer_view (env : Env) (v : View) (g : Gpu) :
    (updateInstancePropertiesBuffer env v g).view = v := by
  unfold updateInstancePropertiesBuffer
  simp only
  split_ifs <;> rfl

theorem updateCameraBuffer_descriptorHeap (env : Env) (v : View) (g : Gpu) :
    (updateCameraBuffer env v g).view.descriptorHeap = v.descriptorHeap := by
  unfold updateCameraBuffer
  simp only
  split_ifs <;> rfl

theorem pipeline_returned_heap (env : Env) (o : Outcome)
    (h : (((((o.andThen (createInstancePropertiesBuffer env)).andThen
        (createShaderResourceHeap env)).andThen
        (createShaderBindingTable env)).andThen
        (updateInstancePropertiesBuffer env)).andThen (updateCameraBuffer env)).status
      = Status.returned) :
    (((((o.andThen (createInstancePropertiesBuffer env)).andThen
        (createShaderResourceHeap env)).andThen
        (createShaderBindingTable env)).andThen
        (updateInstancePropertiesBuffer env)).andThen (updateCameraBuffer env)).view.descriptorHeap
      ≠ nullptr := by
  generalize o.andThen (createInstancePropertiesBuffer env) = o2 at h ⊢
  have h5 := andThen_status _ _ h
  have h4 := andThen_status _ _ h5
  have h3 := andThen_status _ _ h4
  have h2 := andThen_status _ _ h3
  rw [andThen_descriptorHeap _ _ (updateCameraBuffer_descriptorHeap env),
    andThen_descriptorHeap _ _
      (fun v g => by rw [updateInstancePropertiesBuffer_view]),
    andThen_descriptorHeap _ _ (createShaderBindingTable_descriptorHeap env)]
  rw [andThen_eq _ _ h2] at h3 ⊢
  exact createShaderResourceHeap_returned_heap env _ _ h3

/-- After an `update` that returned, the view has a descriptor heap or no raster
instance: `render` is not cut short while there is something to rasterize. -/
theorem update_returned_guard (env : Env) (v : View) (g : Gpu)
    (h : (update env v g).status = Status.returned) :
    (update env v g).view.descriptorHeap ≠ nullptr
    ∨ ((update env v g).view.rasterBgInstances = []
        ∧ (update env v g).view.rasterFgInstances = []) := by
  by_cases hne : env.instances = []
  · right
    obtain ⟨_, h2, h3⟩ := update_buckets env v g
    rw [h2, h3, hne]
    exact ⟨rfl, rfl⟩
  · left
    have hb : (!env.instances.isEmpty) = true := by
      cases hi : env.instances with
      | nil => exact absurd hi hne
      | cons a l => rfl
    unfold update at h ⊢
    simp only [hb, if_true] at h ⊢
    exact pipeline_returned_heap env _ h

end View

/-! ## Resource handles and allocation -/

/-- C18: `Release` on an `AllocatedResource` is idempotent. After one `Release` the
handle is null (`IsNull` is true, `Get` returns the null pointer); a second `Release`
releases nothing and leaves the handle as it is; `Release` on a handle that is already
null releases nothing and leaves it as it is. A handle that holds an allocation
releases that allocation and its resource, once each, on the first `Release`. -/
theorem AllocatedResource.Release_idempotent (h : AllocatedResource) :
    h.Release.1.IsNull = true
    ∧ h.Release.1.Get = nullptr
    ∧ h.Release.1.Release = (h.Release.1, [])
    ∧ (h.IsNull = true → h.Release = (h, []))
    ∧ (∀ a, h.d3dMaAllocation = some a →
        h.Release.2 = [Event.AllocationRelease a, Event.ResourceRelease a.resource]) := by
  cases h with
  | mk alloc =>
    cases alloc with
    | none =>
      refine ⟨rfl, rfl, rfl, fun _ => rfl, ?_⟩
      intro a ha
      exact Option.noConfusion ha
    | some a =>
      refine ⟨rfl, rfl, rfl, ?_, ?_⟩
      · intro hn
        exact Bool.noConfusion hn
      · intro b hb
        cases hb
        rfl

/-- C19, the code at the failing input: when the allocator leaves `allocation` null
(the request cannot be satisfied), `allocateBuffer` and `allocateResource` return a
handle all the same, and that handle is null; the call result of `CreateResource` is
never inspected, so there is no path on which the functions raise an error. -/
theorem Device.allocate_returns_null_handle :
    (Device.allocateBuffer none HeapType.DEFAULT (2 ^ 40) ResourceFlags.ALLOW_UNORDERED_ACCESS
        ResourceState.UNORDERED_ACCESS).1.IsNull = true
    ∧ (Device.allocateResource none HeapType.DEFAULT 1920 1080 ResourceFlags.ALLOW_RENDER_TARGET
        ResourceState.NON_PIXEL_SHADER_RESOURCE).1.IsNull = true := by
  decide

/-! ## The fence counter -/

namespace Device

theorem signals_append (a b : List QueueEvent) : signals (a ++ b) = signals a ++ signals b := by
  induction a with
  | nil => rfl
  | cons e rest ih => cases e <;> simp [signals, ih]

theorem awaited_append (a b : List QueueEvent) : awaited (a ++ b) = awaited a ++ awaited b := by
  induction a with
  | nil => rfl
  | cons e rest ih => cases e <;> simp [awaited, ih]

/-- Along a sequence of operations the signalled values, and the awaited values, are
the successive values from the fence value at the start, one per `waitForGPU`, as long
as they stay below `2 ^ 64`; the fence value ends that many above its start. -/
theorem run_signals (ops : List SyncOp) :
    ∀ d : Device, d.d3dFenceValue + waits ops < 2 ^ 64 →
      signals (d.run ops).queue = signals d.queue ++ List.range' d.d3dFenceValue (waits ops)
      ∧ awaited (d.run ops).queue = awaited d.queue ++ List.range' d.d3dFenceValue (waits ops)
      ∧ (d.run ops).d3dFenceValue = d.d3dFenceValue + waits ops := by
  induction ops with
  | nil =>
    intro d _
    simp [run, waits]
  | cons op rest ih =>
    intro d hd
    cases op with
    | resetCommandList =>
      have hw : waits (SyncOp.resetCommandList :: rest) = waits rest := by
        simp [waits]
      rw [hw] at hd ⊢
      obtain ⟨h1, h2, h3⟩ := ih d.resetCommandList hd
      refine ⟨?_, ?_, ?_⟩
      · exact h1.trans (by simp [resetCommandList, signals_append, signals])
      · exact h2.trans (by simp [resetCommandList, awaited_append, awaited])
      · exact h3
    | submitCommandList =>
      have hw : waits (SyncOp.submitCommandList :: rest) = waits rest := by
        simp [waits]
      rw [hw] at hd ⊢
      obtain ⟨h1, h2, h3⟩ := ih d.submitCommandList hd
      refine ⟨?_, ?_, ?_⟩
      · exact h1.trans (by simp [submitCommandList, signals_append, signals])
      · exact h2.trans (by simp [submitCommandList, awaited_append, awaited])
      · exact h3
    | waitForGPU =>
      have hw : waits (SyncOp.waitForGPU :: rest) = waits rest + 1 := by
        simp [waits]
      rw [hw] at hd ⊢
      have hf : d.waitForGPU.d3dFenceValue = d.d3dFenceValue + 1 := by
        show (d.d3dFenceValue + 1) % 2 ^ 64 = d.d3dFenceValue + 1
        exact Nat.mod_eq_of_lt (by omega)
      obtain ⟨h1, h2, h3⟩ := ih d.waitForGPU (by rw [hf]; omega)
      rw [hf] at h1 h2 h3
      have hq : d.waitForGPU.queue = d.queue ++ [QueueEvent.Signal d.d3dFenceValue,
          QueueEvent.SetEventOnCompletion d.d3dFenceValue, QueueEvent.WaitForSingleObject] := rfl
      rw [hq, signals_append] at h1
      rw [hq, awaited_append] at h2
      refine ⟨?_, ?_, ?_⟩
      · show signals (d.waitForGPU.run rest).queue = _
        rw [h1, List.range'_succ]
        simp [signals]
      · show awaited (d.waitForGPU.run rest).queue = _
        rw [h2, List.range'_succ]
        simp [awaited]
      · show (d.waitForGPU.run rest).d3dFenceValue = _
        rw [h3]
        omega

/-- C20: each `waitForGPU` signals and waits on the fence value `v` it finds on entry
and leaves the fence value at `v + 1` (a 64-bit counter: below `2 ^ 64`), which is
strictly greater; `submitCommandList` and `resetCommandList` leave the fence value
unchanged. `loadAssets` sets the value to 1 before the first `waitForGPU`; from a fence
value of 1, along any sequence of the three operations the `waitForGPU` calls signal,
and wait on, exactly the values `1, 2, ..., k` in order, and the fence value ends at
`k + 1`. -/
theorem fence_counter (d : Device) (ops : List SyncOp) :
    d.waitForGPU.queue
        = d.queue ++ [QueueEvent.Signal d.d3dFenceValue,
            QueueEvent.SetEventOnCompletion d.d3dFenceValue, QueueEvent.WaitForSingleObject]
    ∧ (d.d3dFenceValue + 1 < 2 ^ 64 →
        d.waitForGPU.d3dFenceValue = d.d3dFenceValue + 1
        ∧ d.d3dFenceValue < d.waitForGPU.d3dFenceValue)
    ∧ d.submitCommandList.d3dFenceValue = d.d3dFenceValue
    ∧ d.resetCommandList.d3dFenceValue = d.d3dFenceValue
    ∧ d.loadAssets = waitForGPU { d with d3dFenceValue := 1 }
    ∧ (d.d3dFenceValue = 1 → 1 + waits ops < 2 ^ 64 →
        signals (d.run ops).queue = signals d.queue ++ List.range' 1 (waits ops)
        ∧ awaited (d.run ops).queue = awaited d.queue ++ List.range' 1 (waits ops)
        ∧ (d.run ops).d3dFenceValue = waits ops + 1) := by
  refine ⟨rfl, ?_, rfl, rfl, rfl, ?_⟩
  · intro h
    have hf : d.waitForGPU.d3dFenceValue = d.d3dFenceValue + 1 := by
      show (d.d3dFenceValue + 1) % 2 ^ 64 = d.d3dFenceValue + 1
      exact Nat.mod_eq_of_lt h
    rw [hf]
    exact ⟨rfl, Nat.lt_succ_self _⟩
  · intro h1 hk
    obtain ⟨a, b, c⟩ := run_signals ops d (by rw [h1]; exact hk)
    rw [h1] at a b c
    exact ⟨a, b, by rw [c]; omega⟩

end Device

/-! ## The used texture list -/

namespace View

theorem snapshotInstance_usedTextures (u : List Ptr) (inst : Instance) :
    (snapshotInstance u inst).2 = u ++ instanceTextures inst := by
  unfold snapshotInstance instanceTextures
  simp only
  split_ifs <;> simp

theorem snapshotInstances_usedTextures (instances : List Instance) :
    ∀ v : View,
      (snapshotInstances v instances).usedTextures = v.usedTextures ++ textureUses instances := by
  induction instances with
  | nil => intro v; simp [snapshotInstances, textureUses]
  | cons inst rest ih =>
    intro v
    have h := ih (pushInstance v inst)
    simp only [snapshotInstances, List.foldl_cons] at h ⊢
    rw [h, pushInstance_usedTextures, snapshotInstance_usedTextures, textureUses,
      List.append_assoc]

/-- After `update`, however it ended, the used texture list is the list of texture
uses of the scene instances; with no scene instance it is left as it was. -/
theorem update_usedTextures (env : Env) (v : View) (g : Gpu) :
    (update env v g).view.usedTextures
      = if env.instances = [] then v.usedTextures else textureUses env.instances := by
  have hscan := snapshotInstances_usedTextures env.instances (clearForSnapshot v)
  simp only [clearForSnapshot, List.nil_append] at hscan
  by_cases he : env.instances = []
  · rw [if_pos he]
    unfold update
    simp only [he, List.isEmpty_nil, Bool.not_true, Bool.false_eq_true, if_false]
    exact (andThen_sameBuckets ⟨clearBuckets v, g, Status.returned⟩
      (updateCameraBuffer env) (updateCameraBuffer_sameBuckets env)).2.2.2
  · rw [if_neg he]
    have hb : (!env.instances.isEmpty) = true := by
      cases hi : env.instances with
      | nil => exact absurd hi he
      | cons a l => rfl
    unfold update
    simp only [hb, if_true]
    split_ifs with hrt
    · have hall := sameBuckets_trans (pipeline_sameBuckets env
        (createTopLevelAS env (snapshotInstances (clearForSnapshot v) env.instances).rtInstances
          (snapshotInstances (clearForSnapshot v) env.instances) g))
        (createTopLevelAS_sameBuckets env _ _ g)
      exact hall.2.2.2.trans hscan
    · have hall := pipeline_sameBuckets env
        ⟨snapshotInstances (clearForSnapshot v) env.instances, g, Status.returned⟩
      exact hall.2.2.2.trans hscan

theorem textureUses_length (instances : List Instance) :
    (textureUses instances).length
      = instances.length
        + (instances.filter (fun inst => decide (inst.normalTexture ≠ nullptr))).length := by
  induction instances with
  | nil => rfl
  | cons inst rest ih =>
    by_cases hn : inst.normalTexture = nullptr
    · simp [textureUses, instanceTextures, ih, List.filter_cons, hn]
      omega
    · simp [textureUses, instanceTextures, ih, List.filter_cons, hn]
      omega

theorem textureUses_count (t : Ptr) (instances : List Instance) :
    (textureUses instances).count t = textureUseCount t instances := by
  induction instances with
  | nil => rfl
  | cons inst rest ih =>
    simp only [textureUses, instanceTextures, List.count_append, ih, textureUseCount,
      List.count_cons]
    by_cases hn : inst.normalTexture = nullptr
    · simp [hn]
    · have e : (inst.normalTexture ≠ nullptr ∧ inst.normalTexture = t)
          ↔ inst.normalTexture = t := ⟨fun h => h.2, fun h => ⟨hn, h⟩⟩
      rw [if_pos hn]
      simp only [List.count_cons, List.count_nil, beq_iff_eq, e]
      omega

end View

namespace View

/-- C16 (amended): `View::update` appends to the used texture list without looking for
duplicates. After an `update` on a non-empty scene the list is, in scene order, the
diffuse texture of each instance followed by its normal texture when it has one; its
length is the number of instances plus the number of instances with a normal texture,
and a texture occurs in it once per use, so a texture shared by several instances
occurs several times. With no scene instance the list is left as it was. -/
theorem update_usedTextures_uses (env : Env) (v : View) (g : Gpu) :
    (update env v g).view.usedTextures
      = (if env.instances = [] then v.usedTextures else textureUses env.instances)
    ∧ (textureUses env.instances).length
      = env.instances.length
        + (env.instances.filter (fun inst => decide (inst.normalTexture ≠ nullptr))).length
    ∧ ∀ t, (textureUses env.instances).count t = textureUseCount t env.instances :=
  ⟨update_usedTextures env v g, textureUses_length env.instances,
    fun t => textureUses_count t env.instances⟩

/-- C16, as stated, fails: two instances that share the diffuse texture 11 and have no
normal texture leave the used texture list `[11, 11]`, the same texture at positions 0
and 1. -/
theorem update_usedTextures_counterexample :
    (update (sampleEnv [sampleInstance 5 0 11 0, sampleInstance 0 0 11 0])
        (sampleView [] [] []) sampleGpu).view.usedTextures = [11, 11]
    ∧ (update (sampleEnv [sampleInstance 5 0 11 0, sampleInstance 0 0 11 0])
        (sampleView [] [] []) sampleGpu).view.usedTextures[0]? = some 11
    ∧ (update (sampleEnv [sampleInstance 5 0 11 0, sampleInstance 0 0 11 0])
        (sampleView [] [] []) sampleGpu).view.usedTextures[1]? = some 11 := by
  decide

theorem toInt_of_lt (n : Nat) (h : n < 2 ^ 31) : toInt n = (n : Int) := by
  unfold toInt
  have e : n % 2 ^ 32 = n := Nat.mod_eq_of_lt (by omega)
  rw [e, if_pos h]

/-- The snapshot at position `i` is taken with some used texture list `u'`, and the
final used texture list continues `u'` with the textures of instance `i`. -/
theorem snapshots_textures (instances : List Instance) :
    ∀ (u : List Ptr) (i : Nat) (inst : Instance), instances[i]? = some inst →
      ∃ u' rest, (snapshots u instances)[i]? = some (snapshotInstance u' inst).1
        ∧ u ++ textureUses instances = u' ++ instanceTextures inst ++ rest := by
  induction instances with
  | nil => intro u i inst h; simp at h
  | cons a l ih =>
    intro u i inst h
    cases i with
    | zero =>
      simp only [List.getElem?_cons_zero, Option.some.injEq] at h
      refine ⟨u, textureUses l, by simp [snapshots, h], ?_⟩
      rw [← h, textureUses, List.append_assoc]
    | succ j =>
      simp only [List.getElem?_cons_succ] at h
      obtain ⟨u', rest, h1, h2⟩ := ih (snapshotInstance u a).2 j inst h
      refine ⟨u', rest, by simpa [snapshots] using h1, ?_⟩
      rw [← h2, snapshotInstance_usedTextures, textureUses, List.append_assoc]

theorem snapshotInstance_indices (u : List Ptr) (inst : Instance) :
    (snapshotInstance u inst).1.material.diffuseTexIndex = toInt u.length
    ∧ (inst.normalTexture = nullptr → (snapshotInstance u inst).1.material.normalTexIndex = -1)
    ∧ (inst.normalTexture ≠ nullptr →
        (snapshotInstance u inst).1.material.normalTexIndex = toInt (u.length + 1)) := by
  unfold snapshotInstance
  simp only
  split_ifs with h
  · exact ⟨rfl, fun h' => absurd h' h, fun _ => by simp⟩
  · exact ⟨rfl, fun _ => rfl, fun h' => absurd (not_not.mp h) h'⟩

/-- C17: after `View::update` on a non-empty scene whose texture uses fit the 32-bit
signed index (at most `2 ^ 31` of them), for every scene position `i` the snapshot taken
of instance `i` is in one of the three buckets and: its `diffuseTexIndex` is a position
of the used texture list that holds the diffuse texture of the instance; its
`normalTexIndex` is `-1` exactly when the instance has no normal texture; otherwise its
`normalTexIndex` is a position of the list that holds the normal texture of the
instance. The buckets hold nothing but these snapshots, so every stored index is within
the bounds of the list. -/
theorem update_texture_indices (env : Env) (v : View) (g : Gpu)
    (hne : env.instances ≠ []) (hfit : (textureUses env.instances).length ≤ 2 ^ 31) :
    (∀ r, r ∈ (update env v g).view.rtInstances ++ (update env v g).view.rasterBgInstances
          ++ (update env v g).view.rasterFgInstances →
        r ∈ snapshots [] env.instances)
    ∧ ∀ (i : Nat) (inst : Instance), env.instances[i]? = some inst →
        ∃ r, (snapshots [] env.instances)[i]? = some r
          ∧ r ∈ (update env v g).view.rtInstances ++ (update env v g).view.rasterBgInstances
              ++ (update env v g).view.rasterFgInstances
          ∧ (∃ k : Nat, r.material.diffuseTexIndex = (k : Int)
              ∧ (update env v g).view.usedTextures[k]? = some inst.diffuseTexture)
          ∧ (r.material.normalTexIndex = -1 ↔ inst.normalTexture = nullptr)
          ∧ (inst.normalTexture ≠ nullptr →
              ∃ k : Nat, r.material.normalTexIndex = (k : Int)
                ∧ (update env v g).view.usedTextures[k]? = some inst.normalTexture) := by
  obtain ⟨h1, h2, h3⟩ := update_buckets env v g
  have hperm := filter3_perm inRayTracedBucket inBackgroundBucket inForegroundBucket
    bucket_tests_exclusive (snapshots [] env.instances)
  have hused : (update env v g).view.usedTextures = textureUses env.instances := by
    rw [update_usedTextures, if_neg hne]
  rw [h1, h2, h3, hused]
  refine ⟨fun r hr => hperm.mem_iff.mp hr, ?_⟩
  intro i inst hi
  obtain ⟨u', rest, hs, hu⟩ := snapshots_textures env.instances [] i inst hi
  rw [List.nil_append] at hu
  obtain ⟨d, n0, n1⟩ := snapshotInstance_indices u' inst
  have hlen : (textureUses env.instances).length
      = u'.length + (instanceTextures inst).length + rest.length := by
    rw [hu, List.length_append, List.length_append]
  refine ⟨_, hs, hperm.mem_iff.mpr (List.getElem?_mem hs), ?_, ?_, ?_⟩
  · refine ⟨u'.length, ?_, ?_⟩
    · rw [d]
      apply toInt_of_lt
      have : 1 ≤ (instanceTextures inst).length := by
        unfold instanceTextures
        simp
      omega
    · rw [hu, List.append_assoc, List.getElem?_append_right (le_refl _), Nat.sub_self]
      unfold instanceTextures
      simp
  · constructor
    · intro hm
      by_contra hnn
      rw [n1 hnn] at hm
      have hl : (instanceTextures inst).length = 2 := by
        unfold instanceTextures
        simp [hnn]
      rw [toInt_of_lt _ (by omega)] at hm
      omega
    · exact n0
  · intro hnn
    have hl : instanceTextures inst = [inst.diffuseTexture, inst.normalTexture] := by
      unfold instanceTextures
      simp [hnn]
    rw [hl] at hu hlen
    refine ⟨u'.length + 1, ?_, ?_⟩
    · rw [n1 hnn]
      apply toInt_of_lt
      simp only [List.length_cons, List.length_nil] at hlen
      omega
    · rw [hu, List.append_assoc, List.getElem?_append_right (by omega)]
      simp

/-- Witness of C17: a scene of two instances, the first with a normal texture; the
snapshot of the first instance has diffuse index 0 holding texture 11. -/
theorem update_texture_indices_witness :
    (sampleEnv [sampleInstance 5 0 11 12, sampleInstance 0 0 13 0]).instances ≠ []
    ∧ (textureUses (sampleEnv [sampleInstance 5 0 11 12, sampleInstance 0 0 13 0]).instances).length
        ≤ 2 ^ 31
    ∧ ∃ r, (snapshots [] (sampleEnv [sampleInstance 5 0 11 12,
          sampleInstance 0 0 13 0]).instances)[0]? = some r
      ∧ (∃ k : Nat, r.material.diffuseTexIndex = (k : Int)
          ∧ (update (sampleEnv [sampleInstance 5 0 11 12, sampleInstance 0 0 13 0])
              (sampleView [] [] []) sampleGpu).view.usedTextures[k]? = some 11) :=
  ⟨by decide, by decide,
    match (update_texture_indices (sampleEnv [sampleInstance 5 0 11 12, sampleInstance 0 0 13 0])
      (sampleView [] [] []) sampleGpu (by decide) (by decide)).2 0
      (sampleInstance 5 0 11 12) rfl with
    | ⟨r, hr, _, hd, _, _⟩ => ⟨r, hr, hd⟩⟩

end View

/-! ## The empty scene and the binding table across frames -/

namespace View

theorem andThen_field {β : Type} (f : View → β) (o : Outcome) (next : View → Gpu → Outcome)
    (h : ∀ v g, f (next v g).view = f v) : f (o.andThen next).view = f o.view := by
  unfold Outcome.andThen
  split
  · exact h _ _
  · rfl

theorem dispatches_append (a b : List Event) :
    dispatches (a ++ b) = dispatches a ++ dispatches b := by
  unfold dispatches
  rw [List.filter_append]

theorem dispatches_drawEvents (l : List RenderInstance) :
    ∀ start, dispatches (drawEvents l start) = [] := by
  induction l with
  | nil => intro start; rfl
  | cons r rest ih =>
    intro start
    rw [drawEvents, dispatches_append, ih]
    rfl

/-- With an empty ray traced bucket `render` records no ray dispatch. -/
theorem render_no_dispatch (env : Env) (v : View) (g : Gpu) (hrt : v.rtInstances = []) :
    dispatches (render env v g).gpu.log = dispatches g.log := by
  by_cases hheap : v.descriptorHeap = nullptr
  · unfold render
    simp [hheap]
  · have hhead : dispatches (renderHead env v) = [] := rfl
    by_cases hrtv0 : v.rasterRtvHeaps0 = nullptr
    · rw [(render_null_rtv0 env v g hheap hrtv0).2, dispatches_append, dispatches_append,
        hhead]
      simp [dispatches, isDispatch]
    by_cases hrtv1 : v.rasterRtvHeaps1 = nullptr
    · rw [(render_null_rtv1 env v g hheap hrtv0 hrtv1).2]
      simp only [dispatches_append, dispatches_drawEvents, hhead, List.append_nil]
      simp [dispatches, isDispatch]
    rw [render_log env v g hheap hrtv0 hrtv1]
    have htail : dispatches (renderTail env v) = [] := by
      unfold renderTail
      simp only [hrt, List.isEmpty_nil, Bool.not_true, Bool.false_eq_true, if_false]
      rfl
    have hraster : dispatches (rasterEvents v) = [] := by
      unfold rasterEvents
      simp only [dispatches_append, dispatches_drawEvents, List.append_nil]
      rfl
    rw [dispatches_append, dispatches_append, dispatches_append, htail, hraster, hhead]
    simp

/-- What `updateCameraBuffer` leaves of the members it does not own, and what it
records: nothing, or one copy into the camera buffer. -/
theorem updateCameraBuffer_frame (env : Env) (v : View) (g : Gpu) :
    (updateCameraBuffer env v g).view.topLevelASBuffers = v.topLevelASBuffers
    ∧ (updateCameraBuffer env v g).view.topLevelASGenerator = v.topLevelASGenerator
    ∧ (updateCameraBuffer env v g).view.sbtHelper = v.sbtHelper
    ∧ (updateCameraBuffer env v g).view.sbtStorage = v.sbtStorage
    ∧ (updateCameraBuffer env v g).view.sbtStorageSize = v.sbtStorageSize
    ∧ (recorded g (updateCameraBuffer env v g) = []
        ∨ recorded g (updateCameraBuffer env v g)
            = [Event.CameraCopy v.cameraBuffer.Get (cameraMatrices env v) v.cameraBufferSize])
    ∧ ((updateCameraBuffer env v g).status = Status.returned →
        recorded g (updateCameraBuffer env v g)
            = [Event.CameraCopy v.cameraBuffer.Get (cameraMatrices env v) v.cameraBufferSize]) := by
  unfold updateCameraBuffer
  simp only
  split_ifs
  · refine ⟨rfl, rfl, rfl, rfl, rfl, Or.inl ?_, ?_⟩
    · exact recorded_of_log _ _ _ (by simp)
    · intro h; exact h.elim
  · refine ⟨rfl, rfl, rfl, rfl, rfl, Or.inl ?_, ?_⟩
    · exact recorded_of_log _ _ _ (by simp)
    · intro h; exact h.elim
  · refine ⟨rfl, rfl, rfl, rfl, rfl, Or.inl ?_, ?_⟩
    · exact recorded_of_log _ _ _ (by simp)
    · intro h; exact h.elim
  · refine ⟨rfl, rfl, rfl, rfl, rfl, Or.inr ?_, fun _ => ?_⟩
    · exact recorded_of_log _ _ _ rfl
    · exact recorded_of_log _ _ _ rfl

theorem update_of_empty (env : Env) (v : View) (g : Gpu) (hempty : env.instances = []) :
    update env v g = updateCameraBuffer env (clearBuckets v) g := by
  unfold update
  simp only [hempty, List.isEmpty_nil, Bool.not_true, Bool.false_eq_true, if_false]
  rfl

/-- C12: for a scene with zero instances and any prior view state, `View::update` is
the three `clear()` calls followed by `updateCameraBuffer`: all three buckets are left
empty, `createTopLevelAS` does not run (the acceleration structure buffers, their
capacities and the generator are unchanged, and the call records nothing but the camera
copy), and `updateCameraBuffer` runs, recording its copy into the camera buffer when it
returns. A following `View::render` records no `DispatchRays` command. -/
theorem update_empty_scene (env : Env) (v : View) (g : Gpu) (env' : Env) (g' : Gpu)
    (hempty : env.instances = []) :
    update env v g = updateCameraBuffer env (clearBuckets v) g
    ∧ (update env v g).view.rtInstances = []
    ∧ (update env v g).view.rasterBgInstances = []
    ∧ (update env v g).view.rasterFgInstances = []
    ∧ (update env v g).view.topLevelASBuffers = v.topLevelASBuffers
    ∧ (update env v g).view.topLevelASGenerator = v.topLevelASGenerator
    ∧ (recorded g (update env v g) = []
        ∨ recorded g (update env v g)
            = [Event.CameraCopy v.cameraBuffer.Get (cameraMatrices env v) v.cameraBufferSize])
    ∧ ((update env v g).status = Status.returned →
        recorded g (update env v g)
            = [Event.CameraCopy v.cameraBuffer.Get (cameraMatrices env v) v.cameraBufferSize])
    ∧ dispatches (render env' (update env v g).view g').gpu.log = dispatches g'.log := by
  obtain ⟨b1, b2, b3⟩ := update_buckets env v g
  have hrt : (update env v g).view.rtInstances = [] := by rw [b1, hempty]; rfl
  have hbg : (update env v g).view.rasterBgInstances = [] := by rw [b2, hempty]; rfl
  have hfg : (update env v g).view.rasterFgInstances = [] := by rw [b3, hempty]; rfl
  refine ⟨update_of_empty env v g hempty, hrt, hbg, hfg, ?_, ?_, ?_, ?_,
    render_no_dispatch env' _ g' hrt⟩
  all_goals rw [update_of_empty env v g hempty]
  · exact (updateCameraBuffer_frame env (clearBuckets v) g).1
  · exact (updateCameraBuffer_frame env (clearBuckets v) g).2.1
  · exact (updateCameraBuffer_frame env (clearBuckets v) g).2.2.2.2.2.1
  · exact (updateCameraBuffer_frame env (clearBuckets v) g).2.2.2.2.2.2

/-- Witness of C12: an empty scene on the view the constructor and one `update` on a
scene with one ray traced instance left; the following `render` returns. -/
theorem update_empty_scene_witness :
    (sampleEnv []).instances = []
    ∧ sampleUpdatedView.rtInstances.length = 1
    ∧ (update (sampleEnv []) sampleUpdatedView sampleGpu).view.rtInstances = []
    ∧ (render (sampleEnv []) (update (sampleEnv []) sampleUpdatedView sampleGpu).view
        sampleGpu).status = Status.returned
    ∧ dispatches (render (sampleEnv [])
        (update (sampleEnv []) sampleUpdatedView sampleGpu).view sampleGpu).gpu.log
      = dispatches sampleGpu.log :=
  ⟨rfl, by decide,
    (update_empty_scene (sampleEnv []) sampleUpdatedView sampleGpu (sampleEnv []) sampleGpu
      rfl).2.1,
    by decide,
    (update_empty_scene (sampleEnv []) sampleUpdatedView sampleGpu (sampleEnv []) sampleGpu
      rfl).2.2.2.2.2.2.2.2⟩

end View

namespace View

/-- When the calls `update` makes after the top level structure all return, the binding
table helper holds the registrations `createShaderBindingTable` made from the ray
traced bucket of the final view. -/
theorem pipeline_returned_sbt (env : Env) (o : Outcome)
    (h : (((((o.andThen (createInstancePropertiesBuffer env)).andThen
        (createShaderResourceHeap env)).andThen
        (createShaderBindingTable env)).andThen
        (updateInstancePropertiesBuffer env)).andThen (updateCameraBuffer env)).status
      = Status.returned) :
    ∃ heapPointer,
      (((((o.andThen (createInstancePropertiesBuffer env)).andThen
        (createShaderResourceHeap env)).andThen
        (createShaderBindingTable env)).andThen
        (updateInstancePropertiesBuffer env)).andThen (updateCameraBuffer env)).view.sbtHelper
      = ⟨[⟨ProgramName.TraceRayGen, [heapPointer]⟩], [⟨ProgramName.ShadowMiss, []⟩],
          hitGroupRecords heapPointer
            (((((o.andThen (createInstancePropertiesBuffer env)).andThen
              (createShaderResourceHeap env)).andThen
              (createShaderBindingTable env)).andThen
              (updateInstancePropertiesBuffer env)).andThen
              (updateCameraBuffer env)).view.rtInstances⟩ := by
  generalize o.andThen (createInstancePropertiesBuffer env) = o2 at h ⊢
  have h5 := andThen_status _ _ h
  have h4 := andThen_status _ _ h5
  have h3 := andThen_status _ _ h4
  have hheap : (o2.andThen (createShaderResourceHeap env)).view.descriptorHeap ≠ nullptr := by
    have h2 := andThen_status _ _ h3
    rw [andThen_eq _ _ h2] at h3 ⊢
    exact createShaderResourceHeap_returned_heap env _ _ h3
  generalize o2.andThen (createShaderResourceHeap env) = o3 at h h5 h4 h3 hheap ⊢
  refine ⟨env.heapGPUStart o3.view.descriptorHeap, ?_⟩
  have hrt : ((((o3.andThen (createShaderBindingTable env)).andThen
      (updateInstancePropertiesBuffer env)).andThen (updateCameraBuffer env)).view.rtInstances)
      = o3.view.rtInstances := by
    rw [andThen_field (fun w => w.rtInstances) _ _
        (fun w g => (updateCameraBuffer_sameBuckets env w g).1),
      andThen_field (fun w => w.rtInstances) _ _
        (fun w g => (updateInstancePropertiesBuffer_sameBuckets env w g).1),
      andThen_field (fun w => w.rtInstances) _ _
        (fun w g => (createShaderBindingTable_sameBuckets env w g).1)]
  rw [hrt, andThen_field (fun w => w.sbtHelper) _ _
      (fun w g => (updateCameraBuffer_frame env w g).2.2.1),
    andThen_field (fun w => w.sbtHelper) _ _
      (fun w g => by rw [updateInstancePropertiesBuffer_view]),
    andThen_eq _ _ h3, (createShaderBindingTable_sbtHelper env _ _ hheap).2, registerPrograms_eq]

/-- C13 (amended): `View::update` rebuilds the shader binding table only inside its
branch for a non-empty scene. After an `update` on a non-empty scene instance list that
returned, the table helper holds one ray generation record, one miss record and
`2 * rtInstances.size()` hit group records, built from the current ray traced bucket.
With an empty scene instance list `update` clears the buckets and leaves the binding
table helper, its storage and its storage size exactly as they were. -/
theorem update_binding_table (env : Env) (v : View) (g : Gpu) :
    (env.instances ≠ [] → (update env v g).status = Status.returned →
      (update env v g).view.sbtHelper.hitGroup.length
          = 2 * (update env v g).view.rtInstances.length
      ∧ (update env v g).view.sbtHelper.rayGen.length = 1
      ∧ (update env v g).view.sbtHelper.miss.length = 1
      ∧ ∃ heapPointer, (update env v g).view.sbtHelper.hitGroup
          = hitGroupRecords heapPointer (update env v g).view.rtInstances)
    ∧ (env.instances = [] →
      (update env v g).view.rtInstances = []
      ∧ (update env v g).view.sbtHelper = v.sbtHelper
      ∧ (update env v g).view.sbtStorage = v.sbtStorage
      ∧ (update env v g).view.sbtStorageSize = v.sbtStorageSize) := by
  refine ⟨?_, ?_⟩
  · intro hne hret
    have hb : (!env.instances.isEmpty) = true := by
      cases hi : env.instances with
      | nil => exact absurd hi hne
      | cons a l => rfl
    unfold update at hret ⊢
    simp only [hb, if_true] at hret ⊢
    obtain ⟨hp, hsbt⟩ := pipeline_returned_sbt env _ hret
    rw [hsbt]
    exact ⟨hitGroupRecords_length _ _, rfl, rfl, hp, rfl⟩
  · intro hempty
    obtain ⟨b1, _, _⟩ := update_buckets env v g
    refine ⟨by rw [b1, hempty]; rfl, ?_, ?_, ?_⟩
    all_goals rw [update_of_empty env v g hempty]
    · exact (updateCameraBuffer_frame env (clearBuckets v) g).2.2.1
    · exact (updateCameraBuffer_frame env (clearBuckets v) g).2.2.2.1
    · exact (updateCameraBuffer_frame env (clearBuckets v) g).2.2.2.2.1

/-- C13, as stated, fails: a frame with one ray traced instance followed by a frame
with an empty scene. The second `update` returns with an empty ray traced bucket and
the two hit group records of the first frame still in the table helper. -/
theorem update_binding_table_counterexample :
    (update (sampleEnv [])
        (update (sampleEnv [sampleInstance 5 0 11 0]) (View.new (sampleEnv []) sampleGpu).view
          sampleGpu).view sampleGpu).status = Status.returned
    ∧ (update (sampleEnv [])
        (update (sampleEnv [sampleInstance 5 0 11 0]) (View.new (sampleEnv []) sampleGpu).view
          sampleGpu).view sampleGpu).view.rtInstances.length = 0
    ∧ (update (sampleEnv [])
        (update (sampleEnv [sampleInstance 5 0 11 0]) (View.new (sampleEnv []) sampleGpu).view
          sampleGpu).view sampleGpu).view.sbtHelper.hitGroup.length = 2 := by
  decide

end View

/-! ## The slot layout of the shader resource heap -/

namespace View

theorem descriptorWrites_append (a b : List Event) :
    descriptorWrites (a ++ b) = descriptorWrites a ++ descriptorWrites b := by
  induction a with
  | nil => rfl
  | cons e rest ih => cases e <;> simp [descriptorWrites, ih]

theorem descriptorWrites_emit (g : Gpu) (es : List Event) :
    descriptorWrites (g.emit es).log = descriptorWrites g.log ++ descriptorWrites es := by
  rw [emit_log, descriptorWrites_append]

theorem descriptorWrites_write (k : DescriptorKind) (r : Ptr) (h : Nat) :
    descriptorWrites [Event.WriteDescriptor k r h] = [(k, r, h)] := rfl

theorem slotHandle_zero (env : Env) (heap : Ptr) :
    slotHandle env heap 0 = env.heapCPUStart heap := by
  unfold slotHandle
  omega

theorem slotHandle_succ (env : Env) (heap : Ptr) (k : Nat) :
    slotHandle env heap k + env.handleIncrement = slotHandle env heap (k + 1) := by
  unfold slotHandle
  rw [Nat.succ_mul, Nat.add_assoc]

theorem writeTextureDescriptors_writes (env : Env) (heap : Ptr) (l : List Ptr) :
    ∀ (k : Nat) (g : Gpu),
      (writeTextureDescriptors env l (slotHandle env heap k) g).2 = true →
      descriptorWrites (writeTextureDescriptors env l (slotHandle env heap k) g).1.log
        = descriptorWrites g.log ++ textureSlots env heap l k := by
  induction l with
  | nil => intro k g _; simp [writeTextureDescriptors, textureSlots]
  | cons t rest ih =>
    intro k g h
    unfold writeTextureDescriptors at h ⊢
    split_ifs at h ⊢ with ht
    rw [slotHandle_succ] at h ⊢
    rw [ih _ _ h, descriptorWrites_emit, descriptorWrites_write, textureSlots,
      List.append_assoc]
    rfl

theorem textureSlots_mem (env : Env) (heap : Ptr) (l : List Ptr) :
    ∀ (k i : Nat) (t : Ptr), l[i]? = some t →
      (DescriptorKind.SRV_TEXTURE2D, env.textureResource t, slotHandle env heap (k + i))
        ∈ textureSlots env heap l k := by
  induction l with
  | nil => intro k i t h; simp at h
  | cons a rest ih =>
    intro k i t h
    cases i with
    | zero =>
      simp only [List.getElem?_cons_zero, Option.some.injEq] at h
      subst h
      exact List.mem_cons_self _ _
    | succ j =>
      simp only [List.getElem?_cons_succ] at h
      have := ih (k + 1) j t h
      rw [show k + (j + 1) = k + 1 + j by omega]
      exact List.mem_cons_of_mem _ this

theorem growDescriptorHeap_writes (env : Env) (v : View) (g : Gpu) :
    descriptorWrites (growDescriptorHeap env v g).2.log = descriptorWrites g.log := by
  unfold growDescriptorHeap
  simp only
  split_ifs <;> simp [descriptorWrites_emit, descriptorWrites]

end View

namespace View

theorem createShaderResourceHeap_writes (env : Env) (v : View) (g : Gpu)
    (hpass : ¬ (env.NDEBUG = false ∧ ¬ (v.usedTextures.length ≤ 1024)))
    (hret : (createShaderResourceHeap env v g).status = Status.returned) :
    descriptorWrites (createShaderResourceHeap env v g).gpu.log
      = descriptorWrites g.log ++ heapSlots env (createShaderResourceHeap env v g).view := by
  have hw := growDescriptorHeap_writes env v g
  unfold createShaderResourceHeap at hret ⊢
  simp only [hpass, if_false] at hret ⊢
  generalize growDescriptorHeap env v g = gr at hret hw ⊢
  rw [← slotHandle_zero] at hret ⊢
  simp only [slotHandle_succ] at hret ⊢
  split_ifs at hret ⊢
  all_goals
    rw [writeTextureDescriptors_writes _ _ _ _ _ (by assumption)]
    clear hret
    simp [descriptorWrites_emit, descriptorWrites_write, heapSlots, *]

end View

namespace View

/-- C11: a `createShaderResourceHeap` call that returns writes its descriptors at the
heap slots 0 output, 1 hit distance, 2 hit color, 3 hit normal, 4 hit instance id,
5 raster target 0, 6 raster target 1, 7 acceleration structure, 8 camera buffer,
9 lights buffer, 10 instance properties buffer and 11 + i for used texture i, slot k
being the heap start plus k handle increments. Slot 7 is left unwritten when the top
level structure is null and slot 9 when the scene has no lights, and the slots after
them keep their numbers. The highest slot, 10 + T for T used textures, is below
`descriptorHeapEntryCount`. In a build with `NDEBUG` the 32-bit `entryCount` is assumed
not to wrap (without `NDEBUG` the `assert` bounds T by 1024). -/
theorem createShaderResourceHeap_slot_order (env : Env) (v : View) (g : Gpu)
    (hret : (createShaderResourceHeap env v g).status = Status.returned)
    (hT : env.NDEBUG = true → 11 + v.usedTextures.length < 2 ^ 32) :
    descriptorWrites (createShaderResourceHeap env v g).gpu.log
        = descriptorWrites g.log ++ heapSlots env (createShaderResourceHeap env v g).view
    ∧ (createShaderResourceHeap env v g).view.usedTextures = v.usedTextures
    ∧ (∀ (i : Nat) (t : Ptr), v.usedTextures[i]? = some t →
        (DescriptorKind.SRV_TEXTURE2D, env.textureResource t,
          slotHandle env (createShaderResourceHeap env v g).view.descriptorHeap (11 + i))
          ∈ descriptorWrites (createShaderResourceHeap env v g).gpu.log)
    ∧ 10 + v.usedTextures.length
        < (createShaderResourceHeap env v g).view.descriptorHeapEntryCount := by
  have hpass : ¬ (env.NDEBUG = false ∧ ¬ (v.usedTextures.length ≤ 1024)) := by
    intro hc
    unfold createShaderResourceHeap at hret
    rw [if_pos hc] at hret
    exact Status.noConfusion hret
  have hassert : env.NDEBUG = true ∨ v.usedTextures.length ≤ 1024 := by
    by_cases hn : env.NDEBUG = true
    · exact Or.inl hn
    · by_cases hl : v.usedTextures.length ≤ 1024
      · exact Or.inr hl
      · exact absurd ⟨by simpa using hn, hl⟩ hpass
  have hlen : 11 + v.usedTextures.length < 2 ^ 32 := by
    rcases hassert with h | h
    · exact hT h
    · omega
  have hview := (createShaderResourceHeap_grown env v g hassert).1
  have hu : (createShaderResourceHeap env v g).view.usedTextures = v.usedTextures := by
    rw [hview]
    exact (growDescriptorHeap_sameBuckets env v g).2.2.2
  have hwrites := createShaderResourceHeap_writes env v g hpass hret
  refine ⟨hwrites, hu, ?_, ?_⟩
  · intro i t hi
    rw [hwrites]
    refine List.mem_append_right _ ?_
    unfold heapSlots
    refine List.mem_append_right _ ?_
    rw [hu]
    exact textureSlots_mem env _ _ 11 i t hi
  · rw [hview]
    unfold growDescriptorHeap
    simp only
    rw [entryCount_eq _ hlen]
    split_ifs
    all_goals
      first
      | (show 10 + v.usedTextures.length < 11 + v.usedTextures.length; omega)
      | (show 10 + v.usedTextures.length < v.descriptorHeapEntryCount; omega)

/-- C11 at a concrete call: two used textures, no top level structure, no lights; the
camera buffer view still lands in slot 8, the instance properties view in slot 10 and
the textures in slots 11 and 12. -/
theorem createShaderResourceHeap_slot_order_witness :
    descriptorWrites (createShaderResourceHeap (sampleEnv [])
        { sampleView [] [] [] with usedTextures := [41, 42] } sampleGpu).gpu.log
      = [(DescriptorKind.UAV_TEXTURE2D, 0, 300 * 4096),
         (DescriptorKind.UAV_BUFFER 6240000, 0, 300 * 4096 + 1 * 32),
         (DescriptorKind.UAV_BUFFER 6240000, 0, 300 * 4096 + 2 * 32),
         (DescriptorKind.UAV_BUFFER 6240000, 0, 300 * 4096 + 3 * 32),
         (DescriptorKind.UAV_BUFFER 6240000, 0, 300 * 4096 + 4 * 32),
         (DescriptorKind.SRV_TEXTURE2D, 0, 300 * 4096 + 5 * 32),
         (DescriptorKind.SRV_TEXTURE2D, 0, 300 * 4096 + 6 * 32),
         (DescriptorKind.CBV (213 * 65536) 512, 0, 300 * 4096 + 8 * 32),
         (DescriptorKind.SRV_BUFFER 0, 204, 300 * 4096 + 10 * 32),
         (DescriptorKind.SRV_TEXTURE2D, 42, 300 * 4096 + 11 * 32),
         (DescriptorKind.SRV_TEXTURE2D, 43, 300 * 4096 + 12 * 32)]
    ∧ 10 + 2 < (createShaderResourceHeap (sampleEnv [])
        { sampleView [] [] [] with usedTextures := [41, 42] } sampleGpu).view.descriptorHeapEntryCount :=
  ⟨((createShaderResourceHeap_slot_order (sampleEnv [])
      { sampleView [] [] [] with usedTextures := [41, 42] } sampleGpu (by decide)
      (fun h => absurd h (by decide))).1).trans (by decide),
   (createShaderResourceHeap_slot_order (sampleEnv [])
      { sampleView [] [] [] with usedTextures := [41, 42] } sampleGpu (by decide)
      (fun h => absurd h (by decide))).2.2.2⟩

end View

/-! ## Buffer sizes -/

namespace View

end View

namespace View

end View

namespace View

theorem bufferAllocations_append (a b : List Event) :
    bufferAllocations (a ++ b) = bufferAllocations a ++ bufferAllocations b := by
  induction a with
  | nil => rfl
  | cons e rest ih => cases e <;> simp [bufferAllocations, ih]

theorem bufferAllocations_Release (r : AllocatedResource) :
    bufferAllocations r.Release.2 = [] := by
  unfold AllocatedResource.Release
  split <;> rfl

theorem uavBufferViews_append (a b : List (DescriptorKind × Ptr × Nat)) :
    uavBufferViews (a ++ b) = uavBufferViews a ++ uavBufferViews b := by
  induction a with
  | nil => rfl
  | cons e rest ih =>
    obtain ⟨k, r, h⟩ := e
    cases k <;> simp [uavBufferViews, ih]

theorem uavBufferViews_textureSlots (env : Env) (heap : Ptr) (l : List Ptr) :
    ∀ k : Nat, uavBufferViews (textureSlots env heap l k) = [] := by
  induction l with
  | nil => intro k; rfl
  | cons t rest ih => intro k; simp [textureSlots, uavBufferViews, ih]

theorem hitCount_eq (z : Int) (h0 : 0 ≤ z) (h1 : z ≤ 2 ^ 31 - 1) :
    intToUINT64 (wrapInt32 z) = z.toNat ∧ intToUINT z = z.toNat := by
  unfold intToUINT64 wrapInt32 intToUINT
  constructor <;> omega

theorem createOutputBuffers_log (env : Env) (v : View) (g : Gpu) :
    bufferAllocations (createOutputBuffers env v g).gpu.log
      = bufferAllocations g.log ++
        [((intToUINT64 (wrapInt32 (env.width * env.height * MaxQueries)) * 4) % 2 ^ 64,
            env.hitDistanceAllocation),
         ((intToUINT64 (wrapInt32 (env.width * env.height * MaxQueries)) * 8) % 2 ^ 64,
            env.hitColorAllocation),
         ((intToUINT64 (wrapInt32 (env.width * env.height * MaxQueries)) * 8) % 2 ^ 64,
            env.hitNormalAllocation),
         ((intToUINT64 (wrapInt32 (env.width * env.height * MaxQueries)) * 2) % 2 ^ 64,
            env.hitInstanceIdAllocation)] := by
  unfold createOutputBuffers releaseOutputBuffers
  simp only
  split_ifs <;>
    simp only [emit_log, bufferAllocations_append, bufferAllocations_Release,
      Device.allocateBuffer, Device.allocateResource, bufferAllocations, List.append_nil,
      List.nil_append, List.cons_append, List.append_assoc]

end View

namespace View

theorem growDescriptorHeap_hitResources (env : Env) (v : View) (g : Gpu) :
    (growDescriptorHeap env v g).1.rtHitDistanceResource = v.rtHitDistanceResource
    ∧ (growDescriptorHeap env v g).1.rtHitColorResource = v.rtHitColorResource
    ∧ (growDescriptorHeap env v g).1.rtHitNormalResource = v.rtHitNormalResource
    ∧ (growDescriptorHeap env v g).1.rtHitInstanceIdResource = v.rtHitInstanceIdResource := by
  unfold growDescriptorHeap
  simp only
  split_ifs <;> exact ⟨rfl, rfl, rfl, rfl⟩

theorem uavBufferViews_heapSlots (env : Env) (v : View) :
    uavBufferViews (heapSlots env v)
      = [(intToUINT (env.width * env.height * MaxQueries), v.rtHitDistanceResource.Get),
         (intToUINT (env.width * env.height * MaxQueries), v.rtHitColorResource.Get),
         (intToUINT (env.width * env.height * MaxQueries), v.rtHitNormalResource.Get),
         (intToUINT (env.width * env.height * MaxQueries), v.rtHitInstanceIdResource.Get)] := by
  unfold heapSlots
  simp only [uavBufferViews_append, uavBufferViews_textureSlots]
  split_ifs <;> simp [uavBufferViews]

/-- C15: on a device of width `w > 0` and height `h > 0` with `w * h * 13` at most
`2 ^ 31 - 1`, `createOutputBuffers` allocates exactly four buffers, for hit distance,
color, normal and instance id, of 4, 8, 8 and 2 bytes times `w * h * 13`; every
`createShaderResourceHeap` call that returns writes exactly four buffer views with
unordered access, on these four resources, each declaring `w * h * 13` elements; and
for 1920 by 1080 this count is 26,956,800. -/
theorem hit_query_buffer_sizes (env : Env) (v : View) (g : Gpu) (v' : View) (g' : Gpu)
    (hw : 0 < env.width) (hh : 0 < env.height)
    (hbound : env.width * env.height * 13 ≤ 2 ^ 31 - 1) :
    bufferAllocations (createOutputBuffers env v g).gpu.log
      = bufferAllocations g.log ++
        [(4 * (env.width * env.height * 13).toNat, env.hitDistanceAllocation),
         (8 * (env.width * env.height * 13).toNat, env.hitColorAllocation),
         (8 * (env.width * env.height * 13).toNat, env.hitNormalAllocation),
         (2 * (env.width * env.height * 13).toNat, env.hitInstanceIdAllocation)]
    ∧ ((createShaderResourceHeap env v' g').status = Status.returned →
        uavBufferViews (descriptorWrites (createShaderResourceHeap env v' g').gpu.log)
          = uavBufferViews (descriptorWrites g'.log) ++
            [((env.width * env.height * 13).toNat, v'.rtHitDistanceResource.Get),
             ((env.width * env.height * 13).toNat, v'.rtHitColorResource.Get),
             ((env.width * env.height * 13).toNat, v'.rtHitNormalResource.Get),
             ((env.width * env.height * 13).toNat, v'.rtHitInstanceIdResource.Get)])
    ∧ (env.width = 1920 → env.height = 1080 →
        (env.width * env.height * MaxQueries).toNat = 26956800) := by
  have hM : MaxQueries = 13 := by decide
  have h0 : 0 ≤ env.width * env.height * 13 :=
    Int.mul_nonneg (Int.mul_nonneg (Int.le_of_lt hw) (Int.le_of_lt hh)) (by decide)
  obtain ⟨e64, e32⟩ := hitCount_eq _ h0 hbound
  refine ⟨?_, ?_, ?_⟩
  · rw [createOutputBuffers_log, hM, e64]
    generalize env.width * env.height * 13 = z at h0 hbound
    have a4 : z.toNat * 4 % 2 ^ 64 = 4 * z.toNat := by omega
    have a8 : z.toNat * 8 % 2 ^ 64 = 8 * z.toNat := by omega
    have a2 : z.toNat * 2 % 2 ^ 64 = 2 * z.toNat := by omega
    rw [a4, a8, a2]
  · intro hret
    have hpass : ¬ (env.NDEBUG = false ∧ ¬ (v'.usedTextures.length ≤ 1024)) := by
      intro hc
      unfold createShaderResourceHeap at hret
      rw [if_pos hc] at hret
      exact Status.noConfusion hret
    have hassert : env.NDEBUG = true ∨ v'.usedTextures.length ≤ 1024 := by
      by_cases hn : env.NDEBUG = true
      · exact Or.inl hn
      · by_cases hl : v'.usedTextures.length ≤ 1024
        · exact Or.inr hl
        · exact absurd ⟨by simpa using hn, hl⟩ hpass
    obtain ⟨r1, r2, r3, r4⟩ := growDescriptorHeap_hitResources env v' g'
    rw [createShaderResourceHeap_writes env v' g' hpass hret, uavBufferViews_append,
      uavBufferViews_heapSlots, (createShaderResourceHeap_grown env v' g' hassert).1,
      r1, r2, r3, r4, hM, e32]
  · intro e1 e2
    rw [e1, e2]
    decide

/-- C15 at 1920 by 1080: the four buffers have 107,827,200, 215,654,400, 215,654,400
and 53,913,600 bytes, which is 4, 8, 8 and 2 times 26,956,800. -/
theorem hit_query_buffer_sizes_witness :
    bufferAllocations (createOutputBuffers
        { sampleEnv [] with width := 1920, height := 1080 }
        (View.constructed sampleMath) sampleGpu).gpu.log
      = [(107827200, some ⟨109, 209⟩), (215654400, some ⟨110, 210⟩),
         (215654400, some ⟨111, 211⟩), (53913600, some ⟨112, 212⟩)]
    ∧ uavBufferViews (descriptorWrites (createShaderResourceHeap
        { sampleEnv [] with width := 1920, height := 1080 }
        (View.new { sampleEnv [] with width := 1920, height := 1080 } sampleGpu).view
        sampleGpu).gpu.log)
      = [(26956800, 209), (26956800, 210), (26956800, 211), (26956800, 212)] :=
  ⟨((hit_query_buffer_sizes { sampleEnv [] with width := 1920, height := 1080 }
      (View.constructed sampleMath) sampleGpu
      (View.new { sampleEnv [] with width := 1920, height := 1080 } sampleGpu).view sampleGpu
      (by decide) (by decide) (by decide)).1).trans (by decide),
   ((hit_query_buffer_sizes { sampleEnv [] with width := 1920, height := 1080 }
      (View.constructed sampleMath) sampleGpu
      (View.new { sampleEnv [] with width := 1920, height := 1080 } sampleGpu).view sampleGpu
      (by decide) (by decide) (by decide)).2.1 (by decide)).trans (by decide)⟩

end View

/-! ## The camera, the output buffers and the acceleration structure handles -/

namespace View

/-- C30, the code at the failing input: `createCameraBuffer` sets `cameraBufferSize` to
`ROUND_UP(6 * sizeof(XMMATRIX), 256)`, which is 512, while the six matrices of the source
vector hold 384 bytes; the copy that `updateCameraBuffer` makes on the first `update` of
a newly constructed view has the six matrices as its source and 512 bytes as length. -/
theorem updateCameraBuffer_copy_length :
    (∀ (env : Env) (v : View) (g : Gpu),
      (createCameraBuffer env v g).view.cameraBufferSize = 512
      ∧ (cameraMatrices env v).length * sizeofXMMATRIX = 384)
    ∧ recorded (View.new (sampleEnv []) sampleGpu).gpu
        (update (sampleEnv []) (View.new (sampleEnv []) sampleGpu).view
          (View.new (sampleEnv []) sampleGpu).gpu)
      = [Event.CameraCopy 213
          (cameraMatrices (sampleEnv []) (View.new (sampleEnv []) sampleGpu).view) 512]
    ∧ 6 * sizeofXMMATRIX < 512 := by
  refine ⟨fun env v g => ⟨?_, ?_⟩, ?_, ?_⟩
  · show toUINT (ROUND_UP (6 * sizeofXMMATRIX) D3D12_CONSTANT_BUFFER_DATA_PLACEMENT_ALIGNMENT)
      = 512
    decide
  · simp [cameraMatrices, sizeofXMMATRIX]
  · decide
  · decide

/-- C25: `setPerspectiveLookAt` stores its six arguments in the six camera members of
the view and changes no other member: putting the six old values back gives the view it
started from, and in particular the buckets, the used textures, the tracked capacities
and the previous view-projection matrix are unchanged. It has no access to the command
list. The matrices the next `updateCameraBuffer` builds are the look-at matrix of the
new eye position, focus and up direction and the perspective matrix of the new field of
view, near and far distances. -/
theorem setPerspectiveLookAt_pure (env : Env) (v : View)
    (eyePosition eyeFocus eyeUpDirection : RT64_VECTOR3) (fovRadians nearDist farDist : Nat) :
    (setPerspectiveLookAt v eyePosition eyeFocus eyeUpDirection fovRadians nearDist
        farDist).eyePosition = eyePosition
    ∧ (setPerspectiveLookAt v eyePosition eyeFocus eyeUpDirection fovRadians nearDist
        farDist).eyeFocus = eyeFocus
    ∧ (setPerspectiveLookAt v eyePosition eyeFocus eyeUpDirection fovRadians nearDist
        farDist).eyeUpDirection = eyeUpDirection
    ∧ (setPerspectiveLookAt v eyePosition eyeFocus eyeUpDirection fovRadians nearDist
        farDist).fovRadians = fovRadians
    ∧ (setPerspectiveLookAt v eyePosition eyeFocus eyeUpDirection fovRadians nearDist
        farDist).nearDist = nearDist
    ∧ (setPerspectiveLookAt v eyePosition eyeFocus eyeUpDirection fovRadians nearDist
        farDist).farDist = farDist
    ∧ setPerspectiveLookAt
        (setPerspectiveLookAt v eyePosition eyeFocus eyeUpDirection fovRadians nearDist farDist)
        v.eyePosition v.eyeFocus v.eyeUpDirection v.fovRadians v.nearDist v.farDist = v
    ∧ sameBuckets
        (setPerspectiveLookAt v eyePosition eyeFocus eyeUpDirection fovRadians nearDist farDist) v
    ∧ (setPerspectiveLookAt v eyePosition eyeFocus eyeUpDirection fovRadians nearDist
        farDist).previousViewProj = v.previousViewProj
    ∧ (setPerspectiveLookAt v eyePosition eyeFocus eyeUpDirection fovRadians nearDist
        farDist).descriptorHeapEntryCount = v.descriptorHeapEntryCount
    ∧ (setPerspectiveLookAt v eyePosition eyeFocus eyeUpDirection fovRadians nearDist
        farDist).sbtStorageSize = v.sbtStorageSize
    ∧ (setPerspectiveLookAt v eyePosition eyeFocus eyeUpDirection fovRadians nearDist
        farDist).activeInstancesBufferPropsSize = v.activeInstancesBufferPropsSize
    ∧ asCapacities
        (setPerspectiveLookAt v eyePosition eyeFocus eyeUpDirection fovRadians nearDist farDist)
      = asCapacities v
    ∧ cameraMatrices env
        (setPerspectiveLookAt v eyePosition eyeFocus eyeUpDirection fovRadians nearDist farDist)
      = [env.math.XMMatrixLookAtRH eyePosition eyeFocus eyeUpDirection,
          env.math.XMMatrixPerspectiveFovRH fovRadians env.aspectRatio nearDist farDist,
          env.math.XMMatrixInverse
            (env.math.XMMatrixLookAtRH eyePosition eyeFocus eyeUpDirection),
          env.math.XMMatrixInverse
            (env.math.XMMatrixPerspectiveFovRH fovRadians env.aspectRatio nearDist farDist),
          v.previousViewProj,
          env.math.XMMatrixMultiply
            (env.math.XMMatrixLookAtRH eyePosition eyeFocus eyeUpDirection)
            (env.math.XMMatrixPerspectiveFovRH fovRadians env.aspectRatio nearDist farDist)]
    ∧ ∀ g : Gpu,
        (updateCameraBuffer env
          (setPerspectiveLookAt v eyePosition eyeFocus eyeUpDirection fovRadians nearDist farDist)
          g).status = Status.returned →
        recorded g (updateCameraBuffer env
          (setPerspectiveLookAt v eyePosition eyeFocus eyeUpDirection fovRadians nearDist farDist)
          g)
        = [Event.CameraCopy v.cameraBuffer.Get
            (cameraMatrices env
              (setPerspectiveLookAt v eyePosition eyeFocus eyeUpDirection fovRadians nearDist
                farDist))
            v.cameraBufferSize] :=
  ⟨rfl, rfl, rfl, rfl, rfl, rfl, rfl, ⟨rfl, rfl, rfl, rfl⟩, rfl, rfl, rfl, rfl, rfl, rfl,
    fun g h => (updateCameraBuffer_frame env _ g).2.2.2.2.2.2 h⟩

end View

namespace View

theorem releasedAllocations_append (a b : List Event) :
    releasedAllocations (a ++ b) = releasedAllocations a ++ releasedAllocations b := by
  induction a with
  | nil => rfl
  | cons e rest ih => cases e <;> simp [releasedAllocations, ih]

theorem createdAllocations_append (a b : List Event) :
    createdAllocations (a ++ b) = createdAllocations a ++ createdAllocations b := by
  induction a with
  | nil => rfl
  | cons e rest ih => cases e <;> simp [createdAllocations, ih]

theorem releasedAllocations_Release (r : AllocatedResource) :
    releasedAllocations r.Release.2 = heldAllocations [r] := by
  cases r with
  | mk alloc => cases alloc <;> rfl

theorem createdAllocations_Release (r : AllocatedResource) :
    createdAllocations r.Release.2 = [] := by
  cases r with
  | mk alloc => cases alloc <;> rfl

theorem heldAllocations_cons (r : AllocatedResource) (rest : List AllocatedResource) :
    heldAllocations (r :: rest) = heldAllocations [r] ++ heldAllocations rest := by
  cases r with
  | mk alloc => cases alloc <;> rfl

/-- The members `createOutputBuffers` writes are the seven output buffers, the two
raster view heaps and the view descriptor size: with their old values put back, the view
is the one the call started from. -/
theorem createOutputBuffers_restore (env : Env) (v : View) (g : Gpu) :
    { (createOutputBuffers env v g).view with
      rasterResources0 := v.rasterResources0
      rasterResources1 := v.rasterResources1
      rtOutputResource := v.rtOutputResource
      rtHitDistanceResource := v.rtHitDistanceResource
      rtHitColorResource := v.rtHitColorResource
      rtHitNormalResource := v.rtHitNormalResource
      rtHitInstanceIdResource := v.rtHitInstanceIdResource
      rasterRtvHeaps0 := v.rasterRtvHeaps0
      rasterRtvHeaps1 := v.rasterRtvHeaps1
      outputRtvDescriptorSize := v.outputRtvDescriptorSize } = v := by
  unfold createOutputBuffers releaseOutputBuffers
  simp only
  split_ifs <;> rfl

theorem createOutputBuffers_handles (env : Env) (v : View) (g : Gpu) :
    outputBuffers (createOutputBuffers env v g).view
      = [⟨env.rasterAllocation0⟩, ⟨env.rasterAllocation1⟩, ⟨env.rtOutputAllocation⟩,
          ⟨env.hitDistanceAllocation⟩, ⟨env.hitColorAllocation⟩, ⟨env.hitNormalAllocation⟩,
          ⟨env.hitInstanceIdAllocation⟩] := by
  unfold createOutputBuffers releaseOutputBuffers outputBuffers
  simp only
  split_ifs <;> rfl

theorem createOutputBuffers_allocations (env : Env) (v : View) (g : Gpu) :
    releasedAllocations (createOutputBuffers env v g).gpu.log
        = releasedAllocations g.log ++ heldAllocations (outputBuffers v)
    ∧ createdAllocations (createOutputBuffers env v g).gpu.log
        = createdAllocations g.log ++
          [env.rasterAllocation0, env.rasterAllocation1, env.rtOutputAllocation,
            env.hitDistanceAllocation, env.hitColorAllocation, env.hitNormalAllocation,
            env.hitInstanceIdAllocation]
    ∧ heapLifetimeEvents (createOutputBuffers env v g).gpu.log = heapLifetimeEvents g.log := by
  have hheld : heldAllocations (outputBuffers v)
      = heldAllocations [v.rasterResources0] ++ (heldAllocations [v.rasterResources1]
        ++ (heldAllocations [v.rtOutputResource] ++ (heldAllocations [v.rtHitDistanceResource]
        ++ (heldAllocations [v.rtHitColorResource] ++ (heldAllocations [v.rtHitNormalResource]
        ++ heldAllocations [v.rtHitInstanceIdResource]))))) := by
    unfold outputBuffers
    rw [heldAllocations_cons, heldAllocations_cons _ (_ :: _), heldAllocations_cons _ (_ :: _),
      heldAllocations_cons _ (_ :: _), heldAllocations_cons _ (_ :: _),
      heldAllocations_cons _ (_ :: _)]
  have hquiet : ∀ r : AllocatedResource, heapLifetimeEvents r.Release.2 = [] := by
    intro r
    cases r with
    | mk alloc => cases alloc <;> rfl
  rw [hheld]
  unfold createOutputBuffers releaseOutputBuffers
  simp only
  refine ⟨?_, ?_, ?_⟩
  · split_ifs <;>
      simp [emit_log, releasedAllocations_append, releasedAllocations_Release,
        Device.allocateBuffer, Device.allocateResource, releasedAllocations]
  · split_ifs <;>
      simp [emit_log, createdAllocations_append, createdAllocations_Release,
        Device.allocateBuffer, Device.allocateResource, createdAllocations]
  · have happ : ∀ a b : List Event,
        heapLifetimeEvents (a ++ b) = heapLifetimeEvents a ++ heapLifetimeEvents b := by
      intro a b
      unfold heapLifetimeEvents
      rw [List.filter_append]
    split_ifs <;>
      simp only [heapLifetimeEvents_emit, happ, hquiet, Device.allocateBuffer,
        Device.allocateResource, List.append_nil, List.nil_append] <;>
      simp [heapLifetimeEvents, isHeapLifetime]

end View

namespace View

/-- C26: `View::resize` is `createOutputBuffers`. Whatever its status, the only members
it writes are the seven output buffers, the two raster view heaps and the view
descriptor size (with their old values put back the view is unchanged): the descriptor
heap and its entry count, the binding table helper, storage and storage size, the
acceleration structure buffers and generator, the instance properties buffer and its
size, the buckets, the used textures and the camera members are the ones before the
call. It releases exactly the allocations held by the seven output buffers, requests
exactly seven allocations, which become the new output buffers, and neither releases
nor creates a descriptor heap. -/
theorem resize_output_buffers_only (env : Env) (v : View) (g : Gpu) :
    { (resize env v g).view with
      rasterResources0 := v.rasterResources0
      rasterResources1 := v.rasterResources1
      rtOutputResource := v.rtOutputResource
      rtHitDistanceResource := v.rtHitDistanceResource
      rtHitColorResource := v.rtHitColorResource
      rtHitNormalResource := v.rtHitNormalResource
      rtHitInstanceIdResource := v.rtHitInstanceIdResource
      rasterRtvHeaps0 := v.rasterRtvHeaps0
      rasterRtvHeaps1 := v.rasterRtvHeaps1
      outputRtvDescriptorSize := v.outputRtvDescriptorSize } = v
    ∧ (resize env v g).view.descriptorHeap = v.descriptorHeap
    ∧ (resize env v g).view.descriptorHeapEntryCount = v.descriptorHeapEntryCount
    ∧ (resize env v g).view.sbtHelper = v.sbtHelper
    ∧ (resize env v g).view.sbtStorage = v.sbtStorage
    ∧ (resize env v g).view.sbtStorageSize = v.sbtStorageSize
    ∧ (resize env v g).view.topLevelASBuffers = v.topLevelASBuffers
    ∧ (resize env v g).view.topLevelASGenerator = v.topLevelASGenerator
    ∧ (resize env v g).view.activeInstancesBufferProps = v.activeInstancesBufferProps
    ∧ (resize env v g).view.activeInstancesBufferPropsSize = v.activeInstancesBufferPropsSize
    ∧ sameBuckets (resize env v g).view v
    ∧ cameraState (resize env v g).view = cameraState v
    ∧ outputBuffers (resize env v g).view
        = [⟨env.rasterAllocation0⟩, ⟨env.rasterAllocation1⟩, ⟨env.rtOutputAllocation⟩,
            ⟨env.hitDistanceAllocation⟩, ⟨env.hitColorAllocation⟩, ⟨env.hitNormalAllocation⟩,
            ⟨env.hitInstanceIdAllocation⟩]
    ∧ releasedAllocations (resize env v g).gpu.log
        = releasedAllocations g.log ++ heldAllocations (outputBuffers v)
    ∧ createdAllocations (resize env v g).gpu.log
        = createdAllocations g.log ++
          [env.rasterAllocation0, env.rasterAllocation1, env.rtOutputAllocation,
            env.hitDistanceAllocation, env.hitColorAllocation, env.hitNormalAllocation,
            env.hitInstanceIdAllocation]
    ∧ heapLifetimeEvents (resize env v g).gpu.log = heapLifetimeEvents g.log := by
  have h := createOutputBuffers_restore env v g
  obtain ⟨a1, a2, a3⟩ := createOutputBuffers_allocations env v g
  exact ⟨h, (congrArg View.descriptorHeap h :), (congrArg View.descriptorHeapEntryCount h :),
    (congrArg View.sbtHelper h :), (congrArg View.sbtStorage h :),
    (congrArg View.sbtStorageSize h :), (congrArg View.topLevelASBuffers h :),
    (congrArg View.topLevelASGenerator h :), (congrArg View.activeInstancesBufferProps h :),
    (congrArg View.activeInstancesBufferPropsSize h :),
    ⟨(congrArg View.rtInstances h :), (congrArg View.rasterBgInstances h :),
      (congrArg View.rasterFgInstances h :), (congrArg View.usedTextures h :)⟩,
    (congrArg cameraState h :), createOutputBuffers_handles env v g, a1, a2, a3⟩

end View

/-! ## The camera block across frames -/

namespace View

theorem cameraBlocks_append (a b : List Event) :
    cameraBlocks (a ++ b) = cameraBlocks a ++ cameraBlocks b := by
  induction a with
  | nil => rfl
  | cons e rest ih => cases e <;> simp [cameraBlocks, ih]

theorem cameraBlocks_emit (g : Gpu) (es : List Event) :
    cameraBlocks (g.emit es).log = cameraBlocks g.log ++ cameraBlocks es := by
  rw [emit_log, cameraBlocks_append]

theorem cameraBlocks_Release (r : AllocatedResource) : cameraBlocks r.Release.2 = [] := by
  cases r with
  | mk alloc => cases alloc <;> rfl

theorem andThen_camera (o : Outcome) (next : View → Gpu → Outcome)
    (h : ∀ v g, cameraState (next v g).view = cameraState v
      ∧ cameraBlocks (next v g).gpu.log = cameraBlocks g.log) :
    cameraState (o.andThen next).view = cameraState o.view
    ∧ cameraBlocks (o.andThen next).gpu.log = cameraBlocks o.gpu.log := by
  unfold Outcome.andThen
  split
  · exact h _ _
  · exact ⟨rfl, rfl⟩

theorem pushInstance_cameraState (v : View) (inst : Instance) :
    cameraState (pushInstance v inst) = cameraState v := by
  unfold pushInstance
  simp only
  split_ifs <;> rfl

theorem snapshotInstances_cameraState (instances : List Instance) :
    ∀ v : View, cameraState (snapshotInstances v instances) = cameraState v := by
  induction instances with
  | nil => intro v; rfl
  | cons inst rest ih =>
    intro v
    show cameraState (snapshotInstances (pushInstance v inst) rest) = cameraState v
    rw [ih, pushInstance_cameraState]

theorem createTopLevelAS_camera (env : Env) (rt : List RenderInstance) (v : View) (g : Gpu) :
    cameraState (createTopLevelAS env rt v g).view = cameraState v
    ∧ cameraBlocks (createTopLevelAS env rt v g).gpu.log = cameraBlocks g.log := by
  unfold createTopLevelAS AccelerationStructureBuffers.Release
  simp only
  split_ifs
  · exact ⟨rfl, by simp [cameraBlocks_emit, cameraBlocks_append, cameraBlocks_Release,
      Device.allocateBuffer, cameraBlocks]⟩
  · exact ⟨rfl, by simp [cameraBlocks_emit, cameraBlocks]⟩

theorem createInstancePropertiesBuffer_camera (env : Env) (v : View) (g : Gpu) :
    cameraState (createInstancePropertiesBuffer env v g).view = cameraState v
    ∧ cameraBlocks (createInstancePropertiesBuffer env v g).gpu.log = cameraBlocks g.log := by
  unfold createInstancePropertiesBuffer
  simp only
  split_ifs
  · exact ⟨rfl, by simp [cameraBlocks_emit, cameraBlocks_append, cameraBlocks_Release,
      Device.allocateBuffer, cameraBlocks]⟩
  · exact ⟨rfl, rfl⟩

theorem writeTextureDescriptors_camera (env : Env) (l : List Ptr) :
    ∀ (handle : Nat) (g : Gpu),
      cameraBlocks (writeTextureDescriptors env l handle g).1.log = cameraBlocks g.log := by
  induction l with
  | nil => intro handle g; rfl
  | cons t rest ih =>
    intro handle g
    unfold writeTextureDescriptors
    split_ifs
    · rfl
    · rw [ih, cameraBlocks_emit]
      simp [cameraBlocks]

theorem growDescriptorHeap_camera (env : Env) (v : View) (g : Gpu) :
    cameraState (growDescriptorHeap env v g).1 = cameraState v
    ∧ cameraBlocks (growDescriptorHeap env v g).2.log = cameraBlocks g.log := by
  unfold growDescriptorHeap
  simp only
  split_ifs <;> exact ⟨rfl, by simp [cameraBlocks_emit, cameraBlocks]⟩

theorem createShaderResourceHeap_camera (env : Env) (v : View) (g : Gpu) :
    cameraState (createShaderResourceHeap env v g).view = cameraState v
    ∧ cameraBlocks (createShaderResourceHeap env v g).gpu.log = cameraBlocks g.log := by
  obtain ⟨c1, c2⟩ := growDescriptorHeap_camera env v g
  unfold createShaderResourceHeap
  simp only
  generalize growDescriptorHeap env v g = gr at c1 c2 ⊢
  split_ifs <;>
    first
    | exact ⟨rfl, rfl⟩
    | exact ⟨c1, by simp [writeTextureDescriptors_camera, cameraBlocks_emit, cameraBlocks, c2]⟩

theorem createShaderBindingTable_camera (env : Env) (v : View) (g : Gpu) :
    cameraState (createShaderBindingTable env v g).view = cameraState v
    ∧ cameraBlocks (createShaderBindingTable env v g).gpu.log = cameraBlocks g.log := by
  unfold createShaderBindingTable
  simp only
  split_ifs <;>
    exact ⟨rfl, by simp [cameraBlocks_emit, cameraBlocks_append, cameraBlocks_Release,
      Device.allocateBuffer, cameraBlocks]⟩

theorem updateInstancePropertiesBuffer_camera (env : Env) (v : View) (g : Gpu) :
    cameraState (updateInstancePropertiesBuffer env v g).view = cameraState v
    ∧ cameraBlocks (updateInstancePropertiesBuffer env v g).gpu.log = cameraBlocks g.log := by
  unfold updateInstancePropertiesBuffer
  simp only
  split_ifs <;> exact ⟨rfl, rfl⟩

end View

namespace View

theorem updateCameraBuffer_returned (env : Env) (v : View) (g : Gpu)
    (h : (updateCameraBuffer env v g).status = Status.returned) :
    (updateCameraBuffer env v g).gpu.log
        = g.log ++ [Event.CameraCopy v.cameraBuffer.Get
            (cameraBlock env (cameraSetting v) v.previousViewProj) v.cameraBufferSize]
    ∧ (updateCameraBuffer env v g).view.previousViewProj = viewProjection env (cameraSetting v)
    ∧ cameraSetting (updateCameraBuffer env v g).view = cameraSetting v := by
  unfold updateCameraBuffer at h ⊢
  simp only at h ⊢
  split_ifs at h ⊢
  exact ⟨rfl, rfl, rfl⟩

/-- Before its final `updateCameraBuffer` call, `update` neither changes the camera
members nor copies into a camera buffer. -/
theorem update_before_camera (env : Env) (v : View) (g : Gpu) :
    ∃ o : Outcome, update env v g = o.andThen (updateCameraBuffer env)
      ∧ cameraState o.view = cameraState v
      ∧ cameraBlocks o.gpu.log = cameraBlocks g.log := by
  unfold update
  refine ⟨_, rfl, ?_⟩
  split_ifs with h1
  · have hstart : ∀ o : Outcome,
        cameraState ((((o.andThen (createInstancePropertiesBuffer env)).andThen
          (createShaderResourceHeap env)).andThen (createShaderBindingTable env)).andThen
          (updateInstancePropertiesBuffer env)).view = cameraState o.view
        ∧ cameraBlocks ((((o.andThen (createInstancePropertiesBuffer env)).andThen
          (createShaderResourceHeap env)).andThen (createShaderBindingTable env)).andThen
          (updateInstancePropertiesBuffer env)).gpu.log = cameraBlocks o.gpu.log := by
      intro o
      obtain ⟨a1, a2⟩ := andThen_camera o _ (createInstancePropertiesBuffer_camera env)
      obtain ⟨b1, b2⟩ := andThen_camera (o.andThen (createInstancePropertiesBuffer env)) _
        (createShaderResourceHeap_camera env)
      obtain ⟨c1, c2⟩ := andThen_camera ((o.andThen (createInstancePropertiesBuffer env)).andThen
        (createShaderResourceHeap env)) _ (createShaderBindingTable_camera env)
      obtain ⟨d1, d2⟩ := andThen_camera (((o.andThen (createInstancePropertiesBuffer env)).andThen
        (createShaderResourceHeap env)).andThen (createShaderBindingTable env)) _
        (updateInstancePropertiesBuffer_camera env)
      exact ⟨by rw [d1, c1, b1, a1], by rw [d2, c2, b2, a2]⟩
    simp only
    obtain ⟨e1, e2⟩ := hstart
      (if (!(snapshotInstances (clearForSnapshot v) env.instances).rtInstances.isEmpty) = true then
        createTopLevelAS env (snapshotInstances (clearForSnapshot v) env.instances).rtInstances
          (snapshotInstances (clearForSnapshot v) env.instances) g
      else ⟨snapshotInstances (clearForSnapshot v) env.instances, g, Status.returned⟩)
    rw [e1, e2]
    split_ifs
    · obtain ⟨f1, f2⟩ := createTopLevelAS_camera env
        (snapshotInstances (clearForSnapshot v) env.instances).rtInstances
        (snapshotInstances (clearForSnapshot v) env.instances) g
      rw [f1, f2, snapshotInstances_cameraState]
      exact ⟨rfl, rfl⟩
    · show cameraState (snapshotInstances (clearForSnapshot v) env.instances) = _ ∧ _
      rw [snapshotInstances_cameraState]
      exact ⟨rfl, rfl⟩
  · exact ⟨rfl, rfl⟩

theorem cameraState_setting {a b : View} (h : cameraState a = cameraState b) :
    cameraSetting a = cameraSetting b ∧ a.previousViewProj = b.previousViewProj
    ∧ a.cameraBuffer = b.cameraBuffer ∧ a.cameraBufferSize = b.cameraBufferSize := by
  unfold cameraState at h
  simp only [Prod.mk.injEq] at h
  obtain ⟨h1, h2, h3, h4, h5, h6, h7, h8, h9⟩ := h
  unfold cameraSetting
  rw [h1, h2, h3, h4, h5, h6]
  exact ⟨rfl, h7, h8, h9⟩

/-- An `update` that returns copies one camera block, built from the camera of the view
and its previous view-projection matrix, and stores the view-projection matrix of that
block as the previous one. -/
theorem update_camera (env : Env) (v : View) (g : Gpu)
    (h : (update env v g).status = Status.returned) :
    cameraBlocks (update env v g).gpu.log
        = cameraBlocks g.log ++ [cameraBlock env (cameraSetting v) v.previousViewProj]
    ∧ (update env v g).view.previousViewProj = viewProjection env (cameraSetting v)
    ∧ cameraSetting (update env v g).view = cameraSetting v := by
  obtain ⟨o, ho, hs, hb⟩ := update_before_camera env v g
  rw [ho] at h ⊢
  have hret := andThen_status _ _ h
  rw [andThen_eq _ _ hret] at h ⊢
  obtain ⟨r1, r2, r3⟩ := updateCameraBuffer_returned env o.view o.gpu h
  obtain ⟨s1, s2, _, _⟩ := cameraState_setting hs
  rw [r1, r2, r3, cameraBlocks_append, hb, s1, s2]
  exact ⟨rfl, rfl, rfl⟩

theorem updateCall_camera (frame : Env × Option CameraSetting) (v : View) (g : Gpu)
    (h : (updateCall frame v g).status = Status.returned) :
    cameraBlocks (updateCall frame v g).gpu.log
        = cameraBlocks g.log
          ++ [cameraBlock frame.1 (frame.2.getD (cameraSetting v)) v.previousViewProj]
    ∧ (updateCall frame v g).view.previousViewProj
        = viewProjection frame.1 (frame.2.getD (cameraSetting v))
    ∧ cameraSetting (updateCall frame v g).view = frame.2.getD (cameraSetting v) := by
  obtain ⟨env, setting⟩ := frame
  cases setting with
  | none => exact update_camera env v g h
  | some c => exact update_camera env _ g h

theorem updateSequence_blocks (frames : List (Env × Option CameraSetting)) :
    ∀ (v : View) (g : Gpu), (updateSequence v g frames).status = Status.returned →
      cameraBlocks (updateSequence v g frames).gpu.log
        = cameraBlocks g.log ++ cameraBlocksFrom (cameraSetting v) v.previousViewProj frames := by
  induction frames with
  | nil => intro v g _; simp [updateSequence, cameraBlocksFrom]
  | cons frame rest ih =>
    intro v g h
    cases hst : (updateCall frame v g).status with
    | returned =>
      have e : updateSequence v g (frame :: rest)
          = updateSequence (updateCall frame v g).view (updateCall frame v g).gpu rest := by
        rw [updateSequence]
        simp only [hst]
      rw [e] at h ⊢
      obtain ⟨c1, c2, c3⟩ := updateCall_camera frame v g hst
      rw [ih _ _ h, c1, c2, c3, cameraBlocksFrom, List.append_assoc]
      rfl
    | threw =>
      have e : updateSequence v g (frame :: rest) = updateCall frame v g := by
        rw [updateSequence]
        simp only [hst]
      rw [e, hst] at h
      exact Status.noConfusion h
    | crashed =>
      have e : updateSequence v g (frame :: rest) = updateCall frame v g := by
        rw [updateSequence]
        simp only [hst]
      rw [e, hst] at h
      exact Status.noConfusion h

theorem cameraBlocksFrom_chain (frames : List (Env × Option CameraSetting)) :
    ∀ (c : CameraSetting) (previous : XMMATRIX) (i : Nat) (b b' : List XMMATRIX),
      (cameraBlocksFrom c previous frames)[i]? = some b →
      (cameraBlocksFrom c previous frames)[i + 1]? = some b' →
      b'[4]? = b[5]? ∧ ∃ m : XMMATRIX, b[5]? = some m := by
  induction frames with
  | nil => intro c previous i b b' h; simp [cameraBlocksFrom] at h
  | cons frame rest ih =>
    intro c previous i b b' h h'
    cases i with
    | zero =>
      cases rest with
      | nil => simp [cameraBlocksFrom] at h'
      | cons frame' rest' =>
        simp only [cameraBlocksFrom, List.getElem?_cons_zero, List.getElem?_cons_succ,
          Option.some.injEq] at h h'
        subst h
        subst h'
        exact ⟨rfl, _, rfl⟩
    | succ j =>
      simp only [cameraBlocksFrom, List.getElem?_cons_succ] at h h'
      exact ih _ _ j b b' h h'

end View

namespace View

theorem new_previousViewProj (env : Env) (g : Gpu) :
    (View.new env g).view.previousViewProj = env.math.XMMatrixIdentity := by
  unfold View.new
  simp only
  rw [andThen_field (fun w => w.previousViewProj) _ _ (fun w g => rfl)]
  exact (congrArg View.previousViewProj (createOutputBuffers_restore env _ g) :)

/-- C24: along every sequence of `View::update` calls that return (the camera possibly
being set anew before a call), each call copies one block of six matrices into the
camera buffer: view, projection, inverse of the view, inverse of the projection, the
previous view-projection, and view times projection, the matrix functions being those
of the environment. The previous view-projection of the first call is the one the view
holds, which after the constructor is the identity; the previous view-projection of
each later call is the view times projection matrix (position 5) of the block written by
the call before it. -/
theorem update_camera_blocks (v : View) (g : Gpu) (frames : List (Env × Option CameraSetting))
    (h : (updateSequence v g frames).status = Status.returned) :
    cameraBlocks (updateSequence v g frames).gpu.log
        = cameraBlocks g.log ++ cameraBlocksFrom (cameraSetting v) v.previousViewProj frames
    ∧ (∀ (frame : Env × Option CameraSetting) (rest : List (Env × Option CameraSetting)),
        frames = frame :: rest →
        (cameraBlocksFrom (cameraSetting v) v.previousViewProj frames)[0]?
          = some [frame.1.math.XMMatrixLookAtRH (frame.2.getD (cameraSetting v)).eyePosition
                    (frame.2.getD (cameraSetting v)).eyeFocus
                    (frame.2.getD (cameraSetting v)).eyeUpDirection,
                  frame.1.math.XMMatrixPerspectiveFovRH
                    (frame.2.getD (cameraSetting v)).fovRadians frame.1.aspectRatio
                    (frame.2.getD (cameraSetting v)).nearDist
                    (frame.2.getD (cameraSetting v)).farDist,
                  frame.1.math.XMMatrixInverse
                    (frame.1.math.XMMatrixLookAtRH (frame.2.getD (cameraSetting v)).eyePosition
                      (frame.2.getD (cameraSetting v)).eyeFocus
                      (frame.2.getD (cameraSetting v)).eyeUpDirection),
                  frame.1.math.XMMatrixInverse
                    (frame.1.math.XMMatrixPerspectiveFovRH
                      (frame.2.getD (cameraSetting v)).fovRadians frame.1.aspectRatio
                      (frame.2.getD (cameraSetting v)).nearDist
                      (frame.2.getD (cameraSetting v)).farDist),
                  v.previousViewProj,
                  frame.1.math.XMMatrixMultiply
                    (frame.1.math.XMMatrixLookAtRH (frame.2.getD (cameraSetting v)).eyePosition
                      (frame.2.getD (cameraSetting v)).eyeFocus
                      (frame.2.getD (cameraSetting v)).eyeUpDirection)
                    (frame.1.math.XMMatrixPerspectiveFovRH
                      (frame.2.getD (cameraSetting v)).fovRadians frame.1.aspectRatio
                      (frame.2.getD (cameraSetting v)).nearDist
                      (frame.2.getD (cameraSetting v)).farDist)])
    ∧ (∀ (i : Nat) (b b' : List XMMATRIX),
        (cameraBlocksFrom (cameraSetting v) v.previousViewProj frames)[i]? = some b →
        (cameraBlocksFrom (cameraSetting v) v.previousViewProj frames)[i + 1]? = some b' →
        b'[4]? = b[5]? ∧ ∃ m : XMMATRIX, b[5]? = some m)
    ∧ (∀ (env : Env) (g0 : Gpu),
        (View.new env g0).view.previousViewProj = env.math.XMMatrixIdentity) := by
  refine ⟨updateSequence_blocks frames v g h, ?_, ?_, new_previousViewProj⟩
  · intro frame rest hf
    subst hf
    simp [cameraBlocksFrom, cameraBlock, viewProjection]
  · intro i b b' hb hb'
    exact cameraBlocksFrom_chain frames _ _ i b b' hb hb'

/-- C24 at a concrete sequence: two `update` calls on a newly constructed view, the
second after a camera change. The first block holds the identity (tag 0) at position 4;
the second holds at position 4 the product (tag 4) the first holds at position 5. -/
theorem update_camera_blocks_witness :
    cameraBlocks (updateSequence (View.new tracingEnv sampleGpu).view sampleGpu
        [(tracingEnv, none), (tracingEnv, some ⟨⟨7, 7, 7⟩, ⟨0, 0, 0⟩, ⟨0, 1, 0⟩, 9, 1, 2⟩)]).gpu.log
      = [[⟨[1, 0x3F800000, 0x3F800000, 0x3F800000, 0, 0, 0, 0, 0x3F800000, 0]⟩,
          ⟨[2, 0x42340000, 0x3FAAAAAB, 0x3DCCCCCD, 0x447A0000]⟩,
          ⟨[3, 1, 0x3F800000, 0x3F800000, 0x3F800000, 0, 0, 0, 0, 0x3F800000, 0]⟩,
          ⟨[3, 2, 0x42340000, 0x3FAAAAAB, 0x3DCCCCCD, 0x447A0000]⟩,
          ⟨[0]⟩,
          ⟨[4, 1, 0x3F800000, 0x3F800000, 0x3F800000, 0, 0, 0, 0, 0x3F800000, 0,
            2, 0x42340000, 0x3FAAAAAB, 0x3DCCCCCD, 0x447A0000]⟩],
         [⟨[1, 7, 7, 7, 0, 0, 0, 0, 1, 0]⟩,
          ⟨[2, 9, 0x3FAAAAAB, 1, 2]⟩,
          ⟨[3, 1, 7, 7, 7, 0, 0, 0, 0, 1, 0]⟩,
          ⟨[3, 2, 9, 0x3FAAAAAB, 1, 2]⟩,
          ⟨[4, 1, 0x3F800000, 0x3F800000, 0x3F800000, 0, 0, 0, 0, 0x3F800000, 0,
            2, 0x42340000, 0x3FAAAAAB, 0x3DCCCCCD, 0x447A0000]⟩,
          ⟨[4, 1, 7, 7, 7, 0, 0, 0, 0, 1, 0, 2, 9, 0x3FAAAAAB, 1, 2]⟩]] :=
  ((update_camera_blocks (View.new tracingEnv sampleGpu).view sampleGpu
      [(tracingEnv, none), (tracingEnv, some ⟨⟨7, 7, 7⟩, ⟨0, 0, 0⟩, ⟨0, 1, 0⟩, 9, 1, 2⟩)]
      (by decide)).1).trans (by decide)

end View

/-! ## The acceleration structure buffers at the build -/

namespace View

theorem buildBuffers_append (a b : List Event) :
    buildBuffers (a ++ b) = buildBuffers a ++ buildBuffers b := by
  induction a with
  | nil => rfl
  | cons e rest ih =>
    cases e with
    | Record c => cases c <;> simp [buildBuffers, ih]
    | _ => simp [buildBuffers, ih]

theorem buildBuffers_Release (r : AllocatedResource) : buildBuffers r.Release.2 = [] := by
  cases r with
  | mk alloc => cases alloc <;> rfl

/-- A `createTopLevelAS` call records one build, with the buffers the view holds when
the call ends. -/
theorem createTopLevelAS_build (env : Env) (rt : List RenderInstance) (v : View) (g : Gpu) :
    buildBuffers (createTopLevelAS env rt v g).gpu.log
      = buildBuffers g.log ++
        [((createTopLevelAS env rt v g).view.topLevelASBuffers.scratch.Get,
          (createTopLevelAS env rt v g).view.topLevelASBuffers.result.Get,
          (createTopLevelAS env rt v g).view.topLevelASBuffers.instanceDesc.Get)] := by
  unfold createTopLevelAS AccelerationStructureBuffers.Release
  simp only
  split_ifs <;>
    simp [emit_log, buildBuffers_append, buildBuffers_Release, Device.allocateBuffer,
      buildBuffers]

/-- The capacities after a `createTopLevelAS` call cover the sizes it required; when the
allocator satisfies its requests the call keeps the buffers consistent with the
capacities, and leaves them allocated when some required size is not zero. -/
theorem createTopLevelAS_step (env : Env) (rt : List RenderInstance) (v : View) (g : Gpu) :
    ((requiredASSizes env rt).1 ≤ (createTopLevelAS env rt v g).view.topLevelASBuffers.scratchSize
      ∧ (requiredASSizes env rt).2.1
          ≤ (createTopLevelAS env rt v g).view.topLevelASBuffers.resultSize
      ∧ (requiredASSizes env rt).2.2
          ≤ (createTopLevelAS env rt v g).view.topLevelASBuffers.instanceDescSize)
    ∧ (asBuffersConsistent v → asAllocationsSucceed env →
        asBuffersConsistent (createTopLevelAS env rt v g).view
        ∧ (requiredASSizes env rt ≠ (0, 0, 0) →
            asBuffersAllocated (createTopLevelAS env rt v g).view)) := by
  obtain ⟨hkeep, hgrow⟩ := createTopLevelAS_buffers env rt v g
  by_cases hneed : v.topLevelASBuffers.scratchSize < (requiredASSizes env rt).1
      ∨ v.topLevelASBuffers.resultSize < (requiredASSizes env rt).2.1
      ∨ v.topLevelASBuffers.instanceDescSize < (requiredASSizes env rt).2.2
  · have hb := hgrow hneed
    refine ⟨by rw [hb]; exact ⟨le_refl _, le_refl _, le_refl _⟩, ?_⟩
    intro _ hsucc
    have hall : asBuffersAllocated (createTopLevelAS env rt v g).view := by
      unfold asBuffersAllocated asAllocationsSucceed at *
      rw [hb]
      obtain ⟨s1, s2, s3⟩ := hsucc
      unfold AllocatedResource.IsNull
      simp only
      cases hs : env.scratchAllocation <;> cases hr : env.resultAllocation <;>
        cases hd : env.instanceDescAllocation <;> simp_all
    exact ⟨Or.inr hall, fun _ => hall⟩
  · have hb := hkeep hneed
    refine ⟨by rw [hb]; omega, ?_⟩
    intro hv _
    have hcons : asBuffersConsistent (createTopLevelAS env rt v g).view := by
      unfold asBuffersConsistent asCapacities asBuffersAllocated at hv ⊢
      rw [hb]
      exact hv
    refine ⟨hcons, ?_⟩
    intro hreq
    rcases hcons with hzero | hall
    · exfalso
      apply hreq
      unfold asCapacities at hzero
      rw [hb] at hzero
      simp only [Prod.mk.injEq] at hzero
      obtain ⟨z1, z2, z3⟩ := hzero
      have e1 : (requiredASSizes env rt).1 = 0 := by omega
      have e2 : (requiredASSizes env rt).2.1 = 0 := by omega
      have e3 : (requiredASSizes env rt).2.2 = 0 := by omega
      exact Prod.ext e1 (Prod.ext e2 e3)
    · exact hall

/-- Along a sequence of calls, each outcome is the call of its frame on a view that
satisfies an invariant the calls of the sequence keep. -/
theorem callSequence_getElem {α : Type} (call : α → View → Gpu → Outcome) (Inv : View → Prop)
    (l : List α) :
    (∀ a ∈ l, ∀ v g, Inv v → Inv (call a v g).view) →
    ∀ (v : View) (g : Gpu), Inv v →
      ∀ (i : Nat) (o : Outcome) (a : α), (callSequence call v g l)[i]? = some o →
        l[i]? = some a → ∃ v' g', Inv v' ∧ o = call a v' g' := by
  induction l with
  | nil => intro _ v g _ i o a h; simp [callSequence] at h
  | cons b rest ih =>
    intro hstep v g hv i o a ho ha
    cases i with
    | zero =>
      simp only [callSequence, List.getElem?_cons_zero, Option.some.injEq] at ho ha
      subst ha
      exact ⟨v, g, hv, ho.symm⟩
    | succ j =>
      simp only [callSequence, List.getElem?_cons_succ] at ho ha
      exact ih (fun a ha => hstep a (List.mem_cons_of_mem _ ha)) _ _
        (hstep b (List.mem_cons_self _ _) v g hv) j o a ho ha

end View

namespace View

/-- C29 (amended): along every sequence of `createTopLevelAS` calls with arbitrary
required sizes, each call records its build with the buffers the view then holds, and
at that point each of the three tracked capacities is at least the size the call
required. From a view whose buffers are allocated unless its capacities are all zero
(the constructed view is one), and provided the allocator satisfies every request, this
stays so after every call, and the three handles are non-null at every build whose
call required a size that is not zero. While every call has required (0, 0, 0), nothing
is allocated. -/
theorem createTopLevelAS_buffers_at_build (v : View) (g : Gpu)
    (frames : List (Env × List RenderInstance)) :
    (∀ (i : Nat) (o : Outcome) (frame : Env × List RenderInstance),
        (callSequence topLevelASCall v g frames)[i]? = some o → frames[i]? = some frame →
        (requiredASSizes frame.1 frame.2).1 ≤ o.view.topLevelASBuffers.scratchSize
        ∧ (requiredASSizes frame.1 frame.2).2.1 ≤ o.view.topLevelASBuffers.resultSize
        ∧ (requiredASSizes frame.1 frame.2).2.2 ≤ o.view.topLevelASBuffers.instanceDescSize
        ∧ ∃ earlier, buildBuffers o.gpu.log
            = earlier ++ [(o.view.topLevelASBuffers.scratch.Get,
                o.view.topLevelASBuffers.result.Get,
                o.view.topLevelASBuffers.instanceDesc.Get)])
    ∧ (asBuffersConsistent v → (∀ frame ∈ frames, asAllocationsSucceed frame.1) →
        ∀ (i : Nat) (o : Outcome) (frame : Env × List RenderInstance),
          (callSequence topLevelASCall v g frames)[i]? = some o → frames[i]? = some frame →
          asBuffersConsistent o.view
          ∧ (requiredASSizes frame.1 frame.2 ≠ (0, 0, 0) → asBuffersAllocated o.view))
    ∧ (∀ math : DirectXMath, asBuffersConsistent (View.constructed math)) := by
  refine ⟨?_, ?_, fun math => Or.inl rfl⟩
  · intro i o frame ho hf
    obtain ⟨v', g', _, rfl⟩ := callSequence_getElem topLevelASCall (fun _ => True) frames
      (fun _ _ _ _ _ => trivial) v g trivial i o frame ho hf
    obtain ⟨⟨c1, c2, c3⟩, _⟩ := createTopLevelAS_step frame.1 frame.2 v' g'
    exact ⟨c1, c2, c3, _, createTopLevelAS_build frame.1 frame.2 v' g'⟩
  · intro hv hsucc i o frame ho hf
    obtain ⟨v', g', hv', rfl⟩ := callSequence_getElem topLevelASCall asBuffersConsistent frames
      (fun a ha w g0 hw => ((createTopLevelAS_step a.1 a.2 w g0).2 hw (hsucc a ha)).1)
      v g hv i o frame ho hf
    exact (createTopLevelAS_step frame.1 frame.2 v' g').2 hv' (hsucc frame (List.getElem?_mem hf))

/-- C29, as stated, fails: on a newly constructed view, with an allocator that
satisfies every request, two calls that require the sizes (0, 0, 0) allocate nothing and
each records its build with three null buffers. -/
theorem createTopLevelAS_null_build_counterexample :
    (callSequence topLevelASCall (View.new (sampleEnv []) sampleGpu).view sampleGpu
        [(withASSizes (fun _ => (0, 0, 0)) (sampleEnv []), [sampleRenderInstance 5 0 0 36]),
          (withASSizes (fun _ => (0, 0, 0)) (sampleEnv []), [sampleRenderInstance 5 0 0 36])]).map
      (fun o => (o.status, buildBuffers o.gpu.log))
      = [(Status.returned, [(nullptr, nullptr, nullptr)]),
          (Status.returned, [(nullptr, nullptr, nullptr), (nullptr, nullptr, nullptr)])]
    ∧ (callSequence topLevelASCall (View.new (sampleEnv []) sampleGpu).view sampleGpu
        [(withASSizes (fun _ => (0, 0, 0)) (sampleEnv []), [sampleRenderInstance 5 0 0 36]),
          (withASSizes (fun _ => (0, 0, 0)) (sampleEnv []), [sampleRenderInstance 5 0 0 36])]).map
      (fun o => (o.view.topLevelASBuffers.scratch.IsNull,
        o.view.topLevelASBuffers.result.IsNull, o.view.topLevelASBuffers.instanceDesc.IsNull))
      = [(true, true, true), (true, true, true)]
    ∧ (withASSizes (fun _ => (0, 0, 0)) (sampleEnv [])).scratchAllocation.isSome = true
    ∧ (withASSizes (fun _ => (0, 0, 0)) (sampleEnv [])).resultAllocation.isSome = true
    ∧ (withASSizes (fun _ => (0, 0, 0)) (sampleEnv [])).instanceDescAllocation.isSome = true := by
  decide

end View

/-! ## The pending barriers of the device -/

namespace Device

/-- C22: the device holds one pending barrier per queue type. After two
`setLastCommandQueueBarrier` calls, `submitCommandQueueBarrier` records exactly one
`ResourceBarrier` command, with the barrier set last, and clears the slot; with an empty
slot it records nothing and changes nothing; two consecutive submits record what one
submit records. The same holds of `setLastCopyQueueBarrier` and
`submitCopyQueueBarrier`. Setting or submitting on one queue type leaves the barrier and
the flag of the other queue type as they were. -/
theorem pending_barrier_slots (d : Device) (b1 b2 : Transition) :
    (((d.setLastCommandQueueBarrier b1).setLastCommandQueueBarrier b2).submitCommandQueueBarrier.recorded
        = [Event.Record (Cmd.ResourceBarrier [b2])]
      ∧ ((d.setLastCommandQueueBarrier b1).setLastCommandQueueBarrier
          b2).submitCommandQueueBarrier.device.lastCommandQueueBarrierActive = false
      ∧ (d.lastCommandQueueBarrierActive = false →
          d.submitCommandQueueBarrier.recorded = [] ∧ d.submitCommandQueueBarrier.device = d)
      ∧ d.submitCommandQueueBarrier.device.lastCommandQueueBarrierActive = false
      ∧ (d.submitCommandQueueBarrier.andThen submitCommandQueueBarrier).recorded
          = d.submitCommandQueueBarrier.recorded
      ∧ d.submitCommandQueueBarrier.status = Status.returned)
    ∧ (((d.setLastCopyQueueBarrier b1).setLastCopyQueueBarrier b2).submitCopyQueueBarrier.recorded
        = [Event.Record (Cmd.ResourceBarrier [b2])]
      ∧ ((d.setLastCopyQueueBarrier b1).setLastCopyQueueBarrier
          b2).submitCopyQueueBarrier.device.lastCopyQueueBarrierActive = false
      ∧ (d.lastCopyQueueBarrierActive = false →
          d.submitCopyQueueBarrier.recorded = [] ∧ d.submitCopyQueueBarrier.device = d)
      ∧ d.submitCopyQueueBarrier.device.lastCopyQueueBarrierActive = false
      ∧ (d.submitCopyQueueBarrier.andThen submitCopyQueueBarrier).recorded
          = d.submitCopyQueueBarrier.recorded
      ∧ d.submitCopyQueueBarrier.status = Status.returned)
    ∧ ((d.setLastCommandQueueBarrier b1).lastCopyQueueBarrier = d.lastCopyQueueBarrier
      ∧ (d.setLastCommandQueueBarrier b1).lastCopyQueueBarrierActive
          = d.lastCopyQueueBarrierActive
      ∧ d.submitCommandQueueBarrier.device.lastCopyQueueBarrier = d.lastCopyQueueBarrier
      ∧ d.submitCommandQueueBarrier.device.lastCopyQueueBarrierActive
          = d.lastCopyQueueBarrierActive
      ∧ (d.setLastCopyQueueBarrier b1).lastCommandQueueBarrier = d.lastCommandQueueBarrier
      ∧ (d.setLastCopyQueueBarrier b1).lastCommandQueueBarrierActive
          = d.lastCommandQueueBarrierActive
      ∧ d.submitCopyQueueBarrier.device.lastCommandQueueBarrier = d.lastCommandQueueBarrier
      ∧ d.submitCopyQueueBarrier.device.lastCommandQueueBarrierActive
          = d.lastCommandQueueBarrierActive) := by
  refine ⟨⟨rfl, rfl, ?_, ?_, ?_, ?_⟩, ⟨rfl, rfl, ?_, ?_, ?_, ?_⟩,
    ⟨rfl, rfl, ?_, ?_, rfl, rfl, ?_, ?_⟩⟩
  · intro h
    unfold submitCommandQueueBarrier
    simp [h]
  · unfold submitCommandQueueBarrier
    split_ifs with h
    · rfl
    · simpa using h
  · cases hb : d.lastCommandQueueBarrierActive <;>
      simp [DeviceOutcome.andThen, submitCommandQueueBarrier, hb]
  · unfold submitCommandQueueBarrier
    split_ifs <;> rfl
  · intro h
    unfold submitCopyQueueBarrier
    simp [h]
  · unfold submitCopyQueueBarrier
    split_ifs with h
    · rfl
    · simpa using h
  · cases hb : d.lastCopyQueueBarrierActive <;>
      simp [DeviceOutcome.andThen, submitCopyQueueBarrier, hb]
  · unfold submitCopyQueueBarrier
    split_ifs <;> rfl
  · unfold submitCommandQueueBarrier
    split_ifs <;> rfl
  · unfold submitCommandQueueBarrier
    split_ifs <;> rfl
  · unfold submitCopyQueueBarrier
    split_ifs <;> rfl
  · unfold submitCopyQueueBarrier
    split_ifs <;> rfl

end Device

/-! ## The deferred rebuild of the raytracing pipeline -/

namespace Device

theorem andThen_returned (o : DeviceOutcome) (next : Device → DeviceOutcome)
    (h : (o.andThen next).status = Status.returned) : o.status = Status.returned := by
  unfold DeviceOutcome.andThen at h
  split at h
  · assumption
  · rename_i hne
    exact absurd h hne

/-- The state `preRender` leaves, whether it returns or stops at the null view heap. -/
theorem preRender_device (x : FrameEnv) (d : Device) :
    (preRender x d).device
      = (if d.d3dCommandListOpen then d.submitCommandList.waitForGPU else d).resetCommandList := by
  unfold preRender
  simp only
  split <;> rfl

end Device

namespace Device

end Device

namespace Device

end Device

/-! ## The synchronizer across frames -/

namespace Device

theorem syncOps_append (a b : List QueueEvent) : syncOps (a ++ b) = syncOps a ++ syncOps b := by
  induction a with
  | nil => rfl
  | cons e rest ih => cases e <;> simp [syncOps, ih]

/-- One frame from an open command list, with the view heap and the swap chain in place
and a successful `Present`. -/
theorem frame_ops (x : FrameEnv) (d : Device) (hopen : d.d3dCommandListOpen = true)
    (hheap : d.d3dRtvHeap ≠ nullptr) (hswap : d.d3dSwapChain ≠ nullptr)
    (hpresent : FAILED x.presentResult = false) :
    (frame x d).status = Status.returned
    ∧ (frame x d).device.d3dCommandListOpen = true
    ∧ syncOps (frame x d).device.queue = syncOps d.queue ++ frameOps
    ∧ (frame x d).device.d3dRtvHeap = d.d3dRtvHeap
    ∧ (frame x d).device.d3dSwapChain = d.d3dSwapChain := by
  have h1 : ¬ d.d3dRtvHeap = nullptr := hheap
  have h2 : ¬ d.d3dSwapChain = nullptr := hswap
  unfold frame preRender postRender DeviceOutcome.andThen getD3D12RTV
  simp [hopen, hpresent, h1, h2, D3D12_CHECK, submitCommandList, waitForGPU, resetCommandList,
    syncOps_append, syncOps, frameOps]

/-- One frame from an open command list whose `Present` fails: the error is raised after
the second submit, before the wait and the reset. -/
theorem frame_failed_present (x : FrameEnv) (d : Device) (hopen : d.d3dCommandListOpen = true)
    (hheap : d.d3dRtvHeap ≠ nullptr) (hswap : d.d3dSwapChain ≠ nullptr)
    (hpresent : FAILED x.presentResult = true) :
    (frame x d).status = Status.threw
    ∧ (frame x d).device.d3dCommandListOpen = false
    ∧ syncOps (frame x d).device.queue
        = syncOps d.queue ++ [SyncOp.submitCommandList, SyncOp.waitForGPU,
            SyncOp.resetCommandList, SyncOp.submitCommandList]
    ∧ (frame x d).device.d3dRtvHeap = d.d3dRtvHeap
    ∧ (frame x d).device.d3dSwapChain = d.d3dSwapChain := by
  have h1 : ¬ d.d3dRtvHeap = nullptr := hheap
  have h2 : ¬ d.d3dSwapChain = nullptr := hswap
  unfold frame preRender postRender DeviceOutcome.andThen getD3D12RTV
  simp [hopen, hpresent, h1, h2, D3D12_CHECK, submitCommandList, waitForGPU, resetCommandList,
    syncOps_append, syncOps]

/-- One frame from a closed command list, as a failed `Present` leaves it: `preRender`
skips its submit and its wait and resets at once. -/
theorem frame_closed_ops (x : FrameEnv) (d : Device) (hclosed : d.d3dCommandListOpen = false)
    (hheap : d.d3dRtvHeap ≠ nullptr) (hswap : d.d3dSwapChain ≠ nullptr)
    (hpresent : FAILED x.presentResult = false) :
    (frame x d).status = Status.returned
    ∧ (frame x d).device.d3dCommandListOpen = true
    ∧ syncOps (frame x d).device.queue
        = syncOps d.queue ++ [SyncOp.resetCommandList, SyncOp.submitCommandList,
            SyncOp.waitForGPU, SyncOp.resetCommandList] := by
  have h1 : ¬ d.d3dRtvHeap = nullptr := hheap
  have h2 : ¬ d.d3dSwapChain = nullptr := hswap
  unfold frame preRender postRender DeviceOutcome.andThen getD3D12RTV
  simp [hclosed, hpresent, h1, h2, D3D12_CHECK, submitCommandList, waitForGPU,
    resetCommandList, syncOps_append, syncOps]

/-- One frame from an open command list without a view heap: `preRender` stops at
`getD3D12RTV`, after its submit, wait and reset. -/
theorem frame_null_heap (x : FrameEnv) (d : Device) (hopen : d.d3dCommandListOpen = true)
    (hheap : d.d3dRtvHeap = nullptr) :
    (frame x d).status = Status.crashed
    ∧ syncOps (frame x d).device.queue
        = syncOps d.queue ++ [SyncOp.submitCommandList, SyncOp.waitForGPU,
            SyncOp.resetCommandList] := by
  unfold frame preRender DeviceOutcome.andThen getD3D12RTV
  simp [hopen, hheap, submitCommandList, waitForGPU, resetCommandList, syncOps_append,
    syncOps]

theorem frames_ops (xs : List FrameEnv) :
    ∀ d : Device, d.d3dCommandListOpen = true → d.d3dRtvHeap ≠ nullptr →
      d.d3dSwapChain ≠ nullptr →
      (∀ x ∈ xs, FAILED x.presentResult = false) →
      (frames d xs).status = Status.returned
      ∧ (frames d xs).device.d3dCommandListOpen = true
      ∧ syncOps (frames d xs).device.queue
          = syncOps d.queue ++ (List.replicate xs.length frameOps).flatten
      ∧ (frames d xs).device.d3dRtvHeap = d.d3dRtvHeap
      ∧ (frames d xs).device.d3dSwapChain = d.d3dSwapChain := by
  induction xs with
  | nil => intro d hopen _ _ _; exact ⟨rfl, hopen, by simp [frames], rfl, rfl⟩
  | cons x rest ih =>
    intro d hopen hheap hswap hpresent
    obtain ⟨f1, f2, f3, f4, f5⟩ :=
      frame_ops x d hopen hheap hswap (hpresent x (List.mem_cons_self _ _))
    obtain ⟨r1, r2, r3, r4, r5⟩ := ih (frame x d).device f2 (by rw [f4]; exact hheap)
      (by rw [f5]; exact hswap) (fun y hy => hpresent y (List.mem_cons_of_mem _ hy))
    have e : frames d (x :: rest)
        = ⟨(frames (frame x d).device rest).device,
            (frame x d).recorded ++ (frames (frame x d).device rest).recorded,
            (frames (frame x d).device rest).status⟩ := by
      rw [frames]
      unfold DeviceOutcome.andThen
      simp only [f1]
    rw [e]
    refine ⟨r1, r2, ?_, r4.trans f4, r5.trans f5⟩
    show syncOps (frames (frame x d).device rest).device.queue = _
    rw [r3, f3, List.length_cons, List.replicate_succ, List.flatten_cons, List.append_assoc]

theorem waitedBeforeReuse_frames (k : Nat) :
    waitedBeforeReuse 0 (List.replicate k frameOps).flatten = true := by
  induction k with
  | zero => rfl
  | succ n ih =>
    rw [List.replicate_succ, List.flatten_cons]
    simpa [frameOps, waitedBeforeReuse] using ih

theorem unwaited_prefix (ops : List SyncOp) :
    ∀ (n : Nat) (p : List SyncOp), n ≤ 1 → waitedBeforeReuse n ops = true → p <+: ops →
      unwaited n p ≤ 1 := by
  induction ops with
  | nil =>
    intro n p hn _ hp
    rw [List.prefix_nil.mp hp]
    exact hn
  | cons op rest ih =>
    intro n p hn hw hp
    cases p with
    | nil => exact hn
    | cons q p' =>
      obtain ⟨hq, hp'⟩ := List.cons_prefix_cons.mp hp
      subst hq
      cases q with
      | submitCommandList =>
        simp only [waitedBeforeReuse, Bool.and_eq_true, beq_iff_eq] at hw
        obtain ⟨h0, hw'⟩ := hw
        subst h0
        exact ih 1 p' (le_refl _) hw' hp'
      | waitForGPU =>
        simp only [waitedBeforeReuse] at hw
        exact ih 0 p' (Nat.zero_le _) hw hp'
      | resetCommandList =>
        simp only [waitedBeforeReuse, Bool.and_eq_true, beq_iff_eq] at hw
        exact ih n p' hn hw.2 hp'

end Device

namespace Device

/-- C21 (amended): from a device whose command list is open and whose render target view
heap and swap chain exist (as the constructor leaves it), along any number of
consecutive frames of `preRender` followed by `postRender` in which `Present` succeeds,
every frame returns and the synchronizer operations performed are, per frame, submit,
wait, reset, submit, wait, reset. In this sequence every submit and every reset happens
when no submitted command list is un-waited, at no point is more than one submitted
command list un-waited, and the command list is open at the end of every frame. A
further frame whose `Present` fails raises the error after submit, wait, reset, submit
and leaves the command list closed; the frame after it, `Present` succeeding, performs
reset, submit, wait, reset. -/
theorem frames_synchronized (d : Device) (xs : List FrameEnv)
    (hopen : d.d3dCommandListOpen = true)
    (hheap : d.d3dRtvHeap ≠ nullptr)
    (hswap : d.d3dSwapChain ≠ nullptr)
    (hpresent : ∀ x ∈ xs, FAILED x.presentResult = false) :
    (frames d xs).status = Status.returned
    ∧ syncOps (frames d xs).device.queue
        = syncOps d.queue ++ (List.replicate xs.length frameOps).flatten
    ∧ waitedBeforeReuse 0 (List.replicate xs.length frameOps).flatten = true
    ∧ (∀ p : List SyncOp, p <+: (List.replicate xs.length frameOps).flatten → unwaited 0 p ≤ 1)
    ∧ (∀ k : Nat, (frames d (xs.take k)).status = Status.returned
        ∧ (frames d (xs.take k)).device.d3dCommandListOpen = true)
    ∧ (∀ memory : Device, (constructed memory).d3dCommandListOpen = true
        ∧ (constructed memory).loadAssets.d3dCommandListOpen = true)
    ∧ (∀ x : FrameEnv, FAILED x.presentResult = true →
        (frame x (frames d xs).device).status = Status.threw
        ∧ (frame x (frames d xs).device).device.d3dCommandListOpen = false
        ∧ syncOps (frame x (frames d xs).device).device.queue
            = syncOps d.queue ++ (List.replicate xs.length frameOps).flatten
              ++ [SyncOp.submitCommandList, SyncOp.waitForGPU, SyncOp.resetCommandList,
                  SyncOp.submitCommandList]
        ∧ ∀ y : FrameEnv, FAILED y.presentResult = false →
            (frame y (frame x (frames d xs).device).device).status = Status.returned
            ∧ (frame y (frame x (frames d xs).device).device).device.d3dCommandListOpen = true
            ∧ syncOps (frame y (frame x (frames d xs).device).device).device.queue
                = syncOps d.queue ++ (List.replicate xs.length frameOps).flatten
                  ++ [SyncOp.submitCommandList, SyncOp.waitForGPU, SyncOp.resetCommandList,
                      SyncOp.submitCommandList]
                  ++ [SyncOp.resetCommandList, SyncOp.submitCommandList, SyncOp.waitForGPU,
                      SyncOp.resetCommandList]) := by
  obtain ⟨h1, h2, h3, h4, h5⟩ := frames_ops xs d hopen hheap hswap hpresent
  refine ⟨h1, h3, waitedBeforeReuse_frames _, ?_, ?_, fun _ => ⟨rfl, rfl⟩, ?_⟩
  · intro p hp
    exact unwaited_prefix _ 0 p (Nat.zero_le _) (waitedBeforeReuse_frames _) hp
  · intro k
    obtain ⟨k1, k2, _⟩ := frames_ops (xs.take k) d hopen hheap hswap
      (fun x hx => hpresent x (List.mem_of_mem_take hx))
    exact ⟨k1, k2⟩
  · intro x hx
    obtain ⟨f1, f2, f3, f4, f5⟩ := frame_failed_present x (frames d xs).device h2
      (by rw [h4]; exact hheap) (by rw [h5]; exact hswap) hx
    refine ⟨f1, f2, by rw [f3, h3], ?_⟩
    intro y hy
    obtain ⟨g1, g2, g3⟩ := frame_closed_ops y (frame x (frames d xs).device).device f2
      (by rw [f4, h4]; exact hheap) (by rw [f5, h5]; exact hswap) hy
    exact ⟨g1, g2, by rw [g3, f3, h3]⟩

/-- C21 (amended) at a concrete sequence: two frames on the sample device. -/
theorem frames_synchronized_witness :
    sampleDevice.d3dCommandListOpen = true
    ∧ sampleDevice.d3dRtvHeap ≠ nullptr
    ∧ sampleDevice.d3dSwapChain ≠ nullptr
    ∧ (frames sampleDevice [sampleFrameEnv 1, sampleFrameEnv 0]).device.queue
      = [QueueEvent.CommandListClose, QueueEvent.ExecuteCommandLists,
          QueueEvent.Signal 2, QueueEvent.SetEventOnCompletion 2, QueueEvent.WaitForSingleObject,
          QueueEvent.AllocatorReset, QueueEvent.CommandListReset,
          QueueEvent.CommandListClose, QueueEvent.ExecuteCommandLists, QueueEvent.Present 1,
          QueueEvent.Signal 3, QueueEvent.SetEventOnCompletion 3, QueueEvent.WaitForSingleObject,
          QueueEvent.AllocatorReset, QueueEvent.CommandListReset,
          QueueEvent.CommandListClose, QueueEvent.ExecuteCommandLists,
          QueueEvent.Signal 4, QueueEvent.SetEventOnCompletion 4, QueueEvent.WaitForSingleObject,
          QueueEvent.AllocatorReset, QueueEvent.CommandListReset,
          QueueEvent.CommandListClose, QueueEvent.ExecuteCommandLists, QueueEvent.Present 1,
          QueueEvent.Signal 5, QueueEvent.SetEventOnCompletion 5, QueueEvent.WaitForSingleObject,
          QueueEvent.AllocatorReset, QueueEvent.CommandListReset]
    ∧ syncOps (frames sampleDevice [sampleFrameEnv 1, sampleFrameEnv 0]).device.queue
      = [SyncOp.submitCommandList, SyncOp.waitForGPU, SyncOp.resetCommandList,
          SyncOp.submitCommandList, SyncOp.waitForGPU, SyncOp.resetCommandList,
          SyncOp.submitCommandList, SyncOp.waitForGPU, SyncOp.resetCommandList,
          SyncOp.submitCommandList, SyncOp.waitForGPU, SyncOp.resetCommandList] :=
  ⟨by decide, by decide, by decide, by decide,
   ((frames_synchronized sampleDevice [sampleFrameEnv 1, sampleFrameEnv 0] (by decide)
      (by decide) (by decide) (by decide)).2.1).trans (by decide)⟩

/-- C21, as stated, fails on the sample device (command list open, view heap and swap
chain in place) when `Present` fails in a frame: `postRender` raises the error after its
submit, so the operations of that frame are submit, wait, reset, submit, with no wait
after the second submit, and the command list is closed at the end of the frame. The
entry point `RT64_DrawDevice` runs the frame inside a `try` block, so the next frame
starts on this state: it returns, and its operations are reset, submit, wait, reset, so
the command list is reset while a submitted command list is un-waited. -/
theorem frames_unwaited_reset_counterexample :
    sampleDevice.d3dCommandListOpen = true
    ∧ (frame sampleFailedPresentEnv sampleDevice).status = Status.threw
    ∧ syncOps (frame sampleFailedPresentEnv sampleDevice).device.queue
      = [SyncOp.submitCommandList, SyncOp.waitForGPU, SyncOp.resetCommandList,
          SyncOp.submitCommandList]
    ∧ syncOps (frame sampleFailedPresentEnv sampleDevice).device.queue ≠ frameOps
    ∧ unwaited 0 (syncOps (frame sampleFailedPresentEnv sampleDevice).device.queue) = 1
    ∧ (frame sampleFailedPresentEnv sampleDevice).device.d3dCommandListOpen = false
    ∧ (frame (sampleFrameEnv 0) (frame sampleFailedPresentEnv sampleDevice).device).status
      = Status.returned
    ∧ syncOps (frame (sampleFrameEnv 0)
        (frame sampleFailedPresentEnv sampleDevice).device).device.queue
      = [SyncOp.submitCommandList, SyncOp.waitForGPU, SyncOp.resetCommandList,
          SyncOp.submitCommandList,
          SyncOp.resetCommandList, SyncOp.submitCommandList, SyncOp.waitForGPU,
          SyncOp.resetCommandList]
    ∧ waitedBeforeReuse 0 (syncOps (frame (sampleFrameEnv 0)
        (frame sampleFailedPresentEnv sampleDevice).device).device.queue) = false := by
  decide

end Device

/-! ## Resource states across a frame -/

namespace Device

theorem trackBarriers_append (a b : List Event) :
    ∀ states : Ptr → ResourceState,
      trackBarriers states (a ++ b)
        = (trackBarriers states a).bind (fun next => trackBarriers next b) := by
  induction a with
  | nil => intro states; rfl
  | cons e rest ih =>
    intro states
    cases e with
    | Record c =>
      cases c with
      | ResourceBarrier ts =>
        simp only [List.cons_append, trackBarriers]
        cases applyTransitions states ts with
        | none => rfl
        | some next => exact ih next
      | _ => simp only [List.cons_append, trackBarriers]; exact ih states
    | _ => simp only [List.cons_append, trackBarriers]; exact ih states

theorem trackBarriers_drawEvents (l : List RenderInstance) :
    ∀ (start : Nat) (states : Ptr → ResourceState),
      trackBarriers states (View.drawEvents l start) = some states := by
  induction l with
  | nil => intro start states; rfl
  | cons r rest ih =>
    intro start states
    simp only [View.drawEvents, List.cons_append, List.nil_append, trackBarriers]
    exact ih _ _

theorem preRender_target (x : FrameEnv) (d : Device) :
    (preRender x d).device.getD3D12RenderTarget = d.getD3D12RenderTarget := by
  rw [preRender_device]
  split_ifs <;> rfl

end Device

namespace Device

/-- A `render` that got past the guard and returned found both raster view heaps, and
the binding table storage when the ray traced bucket is not empty. -/
theorem render_returned_storage (env : Env) (v : View) (g : Gpu)
    (hheap : v.descriptorHeap ≠ nullptr) (h : (View.render env v g).status = Status.returned) :
    v.rasterRtvHeaps0 ≠ nullptr ∧ v.rasterRtvHeaps1 ≠ nullptr
    ∧ ¬ ((!v.rtInstances.isEmpty) = true ∧ v.sbtStorage.Get = nullptr) := by
  have hrtv0 : v.rasterRtvHeaps0 ≠ nullptr := by
    intro h0
    rw [(View.render_null_rtv0 env v g hheap h0).1] at h
    exact Status.noConfusion h
  have hrtv1 : v.rasterRtvHeaps1 ≠ nullptr := by
    intro h1
    rw [(View.render_null_rtv1 env v g hheap hrtv0 h1).1] at h
    exact Status.noConfusion h
  refine ⟨hrtv0, hrtv1, ?_⟩
  rintro ⟨h1, h2⟩
  unfold View.render at h
  simp only [hheap, if_false, (View.rasterize_log v _ hrtv0 hrtv1).2, Bool.true_eq_false,
    h1, if_true, h2] at h
  exact Status.noConfusion h

/-- C28: with the resource states tracked explicitly, the two raster targets in the
shader-readable state, the ray traced output in the copy source state and the swap
target of the frame in the presentable state, the four being distinct resources, and a
`View::render` that returns: every transition recorded by `preRender`, `View::render`
and `postRender` of one frame names as its state before the tracked state of its
resource, and after the frame every resource has the state it had before the frame.
This holds whether the ray traced bucket is empty or not, and also when the view has
no descriptor heap. -/
theorem frame_barriers_consistent (x : FrameEnv) (env : Env) (d : Device) (v : View) (g : Gpu)
    (states : Ptr → ResourceState)
    (htarget : env.d3d12RenderTarget = d.getD3D12RenderTarget)
    (hdistinct : [v.rasterResources0.Get, v.rasterResources1.Get, v.rtOutputResource.Get,
      d.getD3D12RenderTarget].Nodup)
    (hraster0 : states v.rasterResources0.Get = ResourceState.NON_PIXEL_SHADER_RESOURCE)
    (hraster1 : states v.rasterResources1.Get = ResourceState.NON_PIXEL_SHADER_RESOURCE)
    (houtput : states v.rtOutputResource.Get = ResourceState.COPY_SOURCE)
    (hswap : states d.getD3D12RenderTarget = ResourceState.PRESENT)
    (hret : (View.render env v g).status = Status.returned) :
    ∃ after : Ptr → ResourceState,
      trackBarriers states (renderFrame x env d v g) = some after
      ∧ ∀ resource : Ptr, after resource = states resource := by
  simp only [List.nodup_cons, List.mem_cons, List.mem_singleton, not_or, List.not_mem_nil,
    not_false_eq_true, List.nodup_nil, and_true] at hdistinct
  obtain ⟨⟨hAB, hAO, hAT⟩, ⟨hBO, hBT⟩, hOT⟩ := hdistinct
  have hpost : (postRender x (preRender x d).device).recorded
      = [Event.Record (Cmd.ResourceBarrier
          [⟨d.getD3D12RenderTarget, ResourceState.RENDER_TARGET, ResourceState.PRESENT⟩])] := by
    rw [← preRender_target x d]
    unfold postRender
    simp only
    split_ifs
    · rfl
    · split <;> rfl
  have hpre : ∃ bound : List Event, (∀ s, trackBarriers s bound = some s)
      ∧ (preRender x d).recorded
        = [Event.Record Cmd.RSSetViewports, Event.Record Cmd.RSSetScissorRects,
            Event.Record (Cmd.ResourceBarrier
              [⟨d.getD3D12RenderTarget, ResourceState.PRESENT, ResourceState.RENDER_TARGET⟩])]
          ++ bound := by
    rw [← preRender_target x d, preRender_device]
    unfold preRender
    simp only
    split
    · exact ⟨[], fun _ => rfl, by simp⟩
    · exact ⟨[Event.Record (Cmd.OMSetRenderTargets _),
        Event.Record (Cmd.ClearRenderTargetView _)], fun _ => rfl, rfl⟩
  obtain ⟨bound, hbound, hpre⟩ := hpre
  unfold renderFrame
  rw [hpre, hpost]
  by_cases hheap : v.descriptorHeap = nullptr
  · rw [View.recorded_render_null env v g hheap]
    refine ⟨Function.update (Function.update states d.getD3D12RenderTarget
      ResourceState.RENDER_TARGET) d.getD3D12RenderTarget ResourceState.PRESENT, ?_, ?_⟩
    · simp [trackBarriers_append, hbound, trackBarriers, applyTransitions, hswap]
    · intro r
      by_cases hr : r = d.getD3D12RenderTarget
      · subst hr; simp [hswap]
      · simp [Function.update_apply, hr]
  · obtain ⟨hrtv0, hrtv1, hstore⟩ := render_returned_storage env v g hheap hret
    rw [View.recorded_render env v g hheap hrtv0 hrtv1]
    have hBA := Ne.symm hAB
    have hOA := Ne.symm hAO
    have hTA := Ne.symm hAT
    have hOB := Ne.symm hBO
    have hTB := Ne.symm hBT
    have hTO := Ne.symm hOT
    simp only [View.renderHead, View.rasterEvents, View.renderTail, htarget]
    by_cases hrt : (!v.rtInstances.isEmpty) = true
    · have hsb : ¬ v.sbtStorage.Get = nullptr := fun h => hstore ⟨hrt, h⟩
      simp only [hrt, hsb, if_true, if_false]
      simp [trackBarriers_append, trackBarriers_drawEvents, hbound, trackBarriers,
        applyTransitions, Function.update_apply, hAB, hAO, hAT, hBO, hBT, hOT, hBA, hOA, hTA, hOB, hTB, hTO,
        hraster0, hraster1, houtput, hswap]
      intro r
      split_ifs <;> simp_all
    · simp only [hrt, if_false]
      simp [trackBarriers_append, trackBarriers_drawEvents, hbound, trackBarriers,
        applyTransitions, Function.update_apply, hAB, hAO, hAT, hBO, hBT, hOT, hBA, hOA, hTA, hOB, hTB, hTO,
        hraster0, hraster1, houtput, hswap]
      intro r
      split_ifs <;> simp_all

end Device

namespace Device

/-- C28 at a concrete frame: a view with one ray traced instance on the sample device. -/
theorem frame_barriers_consistent_witness :
    ∃ after : Ptr → ResourceState,
      trackBarriers sampleStates
        (renderFrame (sampleFrameEnv 1) (sampleEnv []) sampleDevice sampleUpdatedView sampleGpu)
        = some after
      ∧ ∀ resource : Ptr, after resource = sampleStates resource :=
  frame_barriers_consistent (sampleFrameEnv 1) (sampleEnv []) sampleDevice sampleUpdatedView
    sampleGpu sampleStates (by decide) (by decide) (by decide) (by decide) (by decide)
    (by decide) (by decide)

end Device

/-! ## The exported entry points -/

/-- C27, the code at the failing input: when `CreateDescriptorHeap` fails for the first
raster view heap, `ThrowIfFailed` throws inside `createOutputBuffers`, which the
constructor of the view calls, and `RT64_CreateView`, which has no `try`, lets the
exception leave the entry point instead of returning a null pointer. The same holds of
every failure raised in the constructor. `RT64_SetViewPerspective` and
`RT64_DestroyView` wrap operations that raise nothing. -/
theorem RT64_CreateView_propagates :
    (RT64_CreateView { sampleEnv [] with createRtvHeapResult0 := -1 } 77 500 sampleGpu).1
      = Boundary.propagated
    ∧ (∀ (env : Env) (scenePtr memory : Ptr) (g : Gpu), scenePtr ≠ nullptr →
        (View.new env g).status = Status.threw →
        (RT64_CreateView env scenePtr memory g).1 = Boundary.propagated)
    ∧ (∀ (viewPtr : Ptr) (v : View) (e f u : RT64_VECTOR3) (fov near far : Nat),
        (RT64_SetViewPerspective viewPtr v e f u fov near far).1 ≠ Boundary.propagated)
    ∧ (∀ (viewPtr : Ptr) (v : View) (g : Gpu),
        (RT64_DestroyView viewPtr v g).1 = Boundary.returnedVoid) := by
  refine ⟨by decide, ?_, ?_, ?_⟩
  · intro env scenePtr memory g hs ht
    have hs' : ¬ scenePtr = nullptr := hs
    unfold RT64_CreateView
    rw [if_neg hs']
    simp only [ht]
  · intro viewPtr v e f u fov near far
    unfold RT64_SetViewPerspective
    split_ifs <;> simp
  · intro viewPtr v g
    unfold RT64_DestroyView
    split_ifs <;> rfl

namespace View

theorem pushInstance_rasterRtvHeaps (v : View) (inst : Instance) :
    (pushInstance v inst).rasterRtvHeaps0 = v.rasterRtvHeaps0
    ∧ (pushInstance v inst).rasterRtvHeaps1 = v.rasterRtvHeaps1 := by
  unfold pushInstance
  simp only
  split_ifs <;> exact ⟨rfl, rfl⟩

theorem snapshotInstances_rasterRtvHeaps (instances : List Instance) :
    ∀ v : View, (snapshotInstances v instances).rasterRtvHeaps0 = v.rasterRtvHeaps0
      ∧ (snapshotInstances v instances).rasterRtvHeaps1 = v.rasterRtvHeaps1 := by
  induction instances with
  | nil => intro v; exact ⟨rfl, rfl⟩
  | cons inst rest ih =>
    intro v
    obtain ⟨a0, a1⟩ := ih (pushInstance v inst)
    obtain ⟨b0, b1⟩ := pushInstance_rasterRtvHeaps v inst
    exact ⟨a0.trans b0, a1.trans b1⟩

theorem createTopLevelAS_rasterRtvHeaps (env : Env) (rt : List RenderInstance) (v : View)
    (g : Gpu) :
    (createTopLevelAS env rt v g).view.rasterRtvHeaps0 = v.rasterRtvHeaps0
    ∧ (createTopLevelAS env rt v g).view.rasterRtvHeaps1 = v.rasterRtvHeaps1 := by
  unfold createTopLevelAS
  simp only
  split_ifs <;> exact ⟨rfl, rfl⟩

theorem createInstancePropertiesBuffer_rasterRtvHeaps (env : Env) (v : View) (g : Gpu) :
    (createInstancePropertiesBuffer env v g).view.rasterRtvHeaps0 = v.rasterRtvHeaps0
    ∧ (createInstancePropertiesBuffer env v g).view.rasterRtvHeaps1 = v.rasterRtvHeaps1 := by
  unfold createInstancePropertiesBuffer
  simp only
  split_ifs <;> exact ⟨rfl, rfl⟩

theorem growDescriptorHeap_rasterRtvHeaps (env : Env) (v : View) (g : Gpu) :
    (growDescriptorHeap env v g).1.rasterRtvHeaps0 = v.rasterRtvHeaps0
    ∧ (growDescriptorHeap env v g).1.rasterRtvHeaps1 = v.rasterRtvHeaps1 := by
  unfold growDescriptorHeap
  simp only
  split_ifs <;> exact ⟨rfl, rfl⟩

theorem createShaderResourceHeap_rasterRtvHeaps (env : Env) (v : View) (g : Gpu) :
    (createShaderResourceHeap env v g).view.rasterRtvHeaps0 = v.rasterRtvHeaps0
    ∧ (createShaderResourceHeap env v g).view.rasterRtvHeaps1 = v.rasterRtvHeaps1 := by
  unfold createShaderResourceHeap
  simp only
  split_ifs
  all_goals first
    | exact ⟨rfl, rfl⟩
    | exact growDescriptorHeap_rasterRtvHeaps env v g

theorem createShaderBindingTable_rasterRtvHeaps (env : Env) (v : View) (g : Gpu) :
    (createShaderBindingTable env v g).view.rasterRtvHeaps0 = v.rasterRtvHeaps0
    ∧ (createShaderBindingTable env v g).view.rasterRtvHeaps1 = v.rasterRtvHeaps1 := by
  unfold createShaderBindingTable
  simp only
  split_ifs <;> exact ⟨rfl, rfl⟩

theorem updateCameraBuffer_rasterRtvHeaps (env : Env) (v : View) (g : Gpu) :
    (updateCameraBuffer env v g).view.rasterRtvHeaps0 = v.rasterRtvHeaps0
    ∧ (updateCameraBuffer env v g).view.rasterRtvHeaps1 = v.rasterRtvHeaps1 := by
  unfold updateCameraBuffer
  simp only
  split_ifs <;> exact ⟨rfl, rfl⟩

/-- No step of `update` touches the view heaps of the raster targets. -/
theorem update_rasterRtvHeaps (env : Env) (v : View) (g : Gpu) :
    (update env v g).view.rasterRtvHeaps0 = v.rasterRtvHeaps0
    ∧ (update env v g).view.rasterRtvHeaps1 = v.rasterRtvHeaps1 := by
  obtain ⟨s0, s1⟩ := snapshotInstances_rasterRtvHeaps env.instances (clearForSnapshot v)
  unfold update
  simp only
  constructor
  · rw [andThen_field (fun w => w.rasterRtvHeaps0) _ _
      (fun w g => (updateCameraBuffer_rasterRtvHeaps env w g).1)]
    have hsteps : ∀ o : Outcome,
        ((((o.andThen (createInstancePropertiesBuffer env)).andThen
          (createShaderResourceHeap env)).andThen
          (createShaderBindingTable env)).andThen
          (updateInstancePropertiesBuffer env)).view.rasterRtvHeaps0
        = o.view.rasterRtvHeaps0 := by
      intro o
      rw [andThen_field (fun w => w.rasterRtvHeaps0) _ _
          (fun w g => by rw [updateInstancePropertiesBuffer_view]),
        andThen_field (fun w => w.rasterRtvHeaps0) _ _
          (fun w g => (createShaderBindingTable_rasterRtvHeaps env w g).1),
        andThen_field (fun w => w.rasterRtvHeaps0) _ _
          (fun w g => (createShaderResourceHeap_rasterRtvHeaps env w g).1),
        andThen_field (fun w => w.rasterRtvHeaps0) _ _
          (fun w g => (createInstancePropertiesBuffer_rasterRtvHeaps env w g).1)]
    split_ifs
    · rw [hsteps]
      exact ((createTopLevelAS_rasterRtvHeaps env _ _ g).1).trans s0
    · rw [hsteps]
      exact s0
    · rfl
  · rw [andThen_field (fun w => w.rasterRtvHeaps1) _ _
      (fun w g => (updateCameraBuffer_rasterRtvHeaps env w g).2)]
    have hsteps : ∀ o : Outcome,
        ((((o.andThen (createInstancePropertiesBuffer env)).andThen
          (createShaderResourceHeap env)).andThen
          (createShaderBindingTable env)).andThen
          (updateInstancePropertiesBuffer env)).view.rasterRtvHeaps1
        = o.view.rasterRtvHeaps1 := by
      intro o
      rw [andThen_field (fun w => w.rasterRtvHeaps1) _ _
          (fun w g => by rw [updateInstancePropertiesBuffer_view]),
        andThen_field (fun w => w.rasterRtvHeaps1) _ _
          (fun w g => (createShaderBindingTable_rasterRtvHeaps env w g).2),
        andThen_field (fun w => w.rasterRtvHeaps1) _ _
          (fun w g => (createShaderResourceHeap_rasterRtvHeaps env w g).2),
        andThen_field (fun w => w.rasterRtvHeaps1) _ _
          (fun w g => (createInstancePropertiesBuffer_rasterRtvHeaps env w g).2)]
    split_ifs
    · rw [hsteps]
      exact ((createTopLevelAS_rasterRtvHeaps env _ _ g).2).trans s1
    · rw [hsteps]
      exact s1
    · rfl

theorem createCameraBuffer_rasterRtvHeaps (env : Env) (v : View) (g : Gpu) :
    (createCameraBuffer env v g).view.rasterRtvHeaps0 = v.rasterRtvHeaps0
    ∧ (createCameraBuffer env v g).view.rasterRtvHeaps1 = v.rasterRtvHeaps1 := by
  unfold createCameraBuffer
  exact ⟨rfl, rfl⟩

theorem createOutputBuffers_returned_rasterRtvHeaps (env : Env) (v : View) (g : Gpu)
    (h : (createOutputBuffers env v g).status = Status.returned) :
    (createOutputBuffers env v g).view.rasterRtvHeaps0 = env.createdRtvHeap0
    ∧ (createOutputBuffers env v g).view.rasterRtvHeaps1 = env.createdRtvHeap1 := by
  unfold createOutputBuffers releaseOutputBuffers at h ⊢
  simp only at h ⊢
  split_ifs at h ⊢
  exact ⟨rfl, rfl⟩

/-- A constructor that returned holds the two view heaps the driver created for the
raster targets, and an `update` keeps them. -/
theorem new_returned_rasterRtvHeaps (env : Env) (g : Gpu)
    (h : (View.new env g).status = Status.returned) :
    (View.new env g).view.rasterRtvHeaps0 = env.createdRtvHeap0
    ∧ (View.new env g).view.rasterRtvHeaps1 = env.createdRtvHeap1 := by
  unfold View.new at h ⊢
  simp only at h ⊢
  obtain ⟨o0, o1⟩ := createOutputBuffers_returned_rasterRtvHeaps env _ g (andThen_status _ _ h)
  exact ⟨(andThen_field (fun w => w.rasterRtvHeaps0) _ _
      (fun w g => (createCameraBuffer_rasterRtvHeaps env w g).1)).trans o0,
    (andThen_field (fun w => w.rasterRtvHeaps1) _ _
      (fun w g => (createCameraBuffer_rasterRtvHeaps env w g).2)).trans o1⟩

end View

end RT64
